import Mathlib

/-!
# Ferry reservation system: record stores and lane-capacity ledger

A shallow embedding of the record stores of `sailing.cpp` and `reservation.cpp` and of the
booking, check-in and cancellation paths of `reservationManager.cpp`.

Modelling conventions.

* A record file (`std::fstream` over fixed-width records) is the list of its complete records,
  an open flag and one file position counted in records: a `std::filebuf` keeps a single
  position that `seekg`, `seekp`, `read` and `write` all move.
* C strings are `String`s.  Identifiers arrive in `char[10]` / `char[11]` buffers, so
  `strncpy(dst, src, sizeof dst - 1)` copies them whole and `strncmp` over the field width
  agrees with `strcmp`: both are equality of strings.
* A `float` is the rational number it denotes, and the result of a `float` operation is the
  exact result rounded to binary32 by `f32`; comparisons of floats are exact.
* A C++ exception is the `Except.error` component of a result; the state reached when it was
  thrown is returned beside it, since nothing is rolled back.
* `while (getNextX(r))` loops are recursions over the records from the file position on.
-/

namespace Ferry

/-! ## Records -/

/-- Record `Vessel` of `vessel.hpp`. -/
structure Vessel where
  name : String
  HCLL : ℚ
  LCLL : ℚ
deriving DecidableEq

/-- Record `Vehicle` of `vehicle.hpp`. -/
structure Vehicle where
  vehicleLicence : String
  phone : String
  vehicleHeight : ℚ
  vehicleLength : ℚ
deriving DecidableEq

/-- Modelled from the spec: the `Sailing` record of `sailing.hpp`, which is not among the
sources; its four fields are the ones the code reads and writes. -/
structure Sailing where
  sailingID : String
  vesselName : String
  lowRemainingLength : ℚ
  highRemainingLength : ℚ
deriving DecidableEq

/-- Modelled from the spec: the `Reservation` record of `reservation.hpp`, which is not among
the sources; its four fields are the ones the code reads and writes. -/
structure Reservation where
  sailingID : String
  vehicleLicence : String
  onBoard : Bool
  isLRL : Bool
deriving DecidableEq

/-- The `std::runtime_error` (and `std::out_of_range`) exceptions the modelled code throws,
one constructor per message. -/
inductive Error where
  | notOpen
  | alreadyClosed
  | noRecords
  | notFound
  | readFailed
  | failedGettingSailing
  | failedGettingVehicle
  | insufficientSpace
  | sailingIDNotFound
  | idAlreadyExists
  | inputNeitherYNorN
deriving DecidableEq

/-! ## The type `float`

The lengths and the fare are of type `float`, IEEE 754 binary32.  The operations `-=`, `+=`,
`*` and `+` on floats deliver the exact result rounded to the nearest float, a tie going to the
float whose significand is even. -/

/-- Rounding to the nearest integer, a tie going to the even one. -/
def roundEven (x : ℚ) : ℤ :=
  if x - ⌊x⌋ < 1 / 2 then ⌊x⌋
  else if 1 / 2 < x - ⌊x⌋ then ⌊x⌋ + 1
  else if ⌊x⌋ % 2 = 0 then ⌊x⌋
  else ⌊x⌋ + 1

/-- The weight of the last bit of the float nearest to `x ≠ 0`, as a power of two: 24
significant bits, the first of weight `⌊log₂ |x|⌋`, and no bit below `2 ^ (-149)`, the last bit
of the subnormal floats. -/
def f32.lastBit (x : ℚ) : ℤ := max (Int.log 2 |x| - 23) (-149)

/-- The float (binary32) nearest to `x`, a tie going to the even significand: what a `float`
operation with the exact result `x` delivers.  Infinity is not modelled: beyond the largest
float the result is rounded like any other. -/
def f32 (x : ℚ) : ℚ :=
  if x = 0 then 0 else (roundEven (x / 2 ^ f32.lastBit x) : ℚ) * 2 ^ f32.lastBit x

/-- The number `x` is a float: a significand of at most 24 bits, times a power of two that is
at least `2 ^ (-149)`. -/
def IsFloat (x : ℚ) : Prop :=
  ∃ m e : ℤ, |m| < 2 ^ 24 ∧ -149 ≤ e ∧ x = m * 2 ^ e

/-! ## Record files -/

/-- A fixed-width record file behind a `std::fstream`. -/
structure RecFile (α : Type) where
  isOpen : Bool
  recs : List α
  pos : Nat

namespace RecFile

variable {α : Type}

/-- The `clear(); seekg(0, std::ios::beg)` of the reset functions, guarded by `is_open()`. -/
def reset (f : RecFile α) : Except Error Unit × RecFile α :=
  if f.isOpen then (.ok (), { f with pos := 0 }) else (.error .notOpen, f)

/-- The `read` of one record at the file position: `some r` and the position advanced when a
whole record is there, `none` at the end of the file. -/
def getNext (f : RecFile α) : Except Error (Option α) × RecFile α :=
  if f.isOpen then
    match f.recs.get? f.pos with
    | some r => (.ok (some r), { f with pos := f.pos + 1 })
    | none => (.ok none, f)
  else (.error .notOpen, f)

/-- The `write` of one record at the file position: it replaces the record there, or extends
the file when the position is its end. -/
def put (f : RecFile α) (r : α) : RecFile α :=
  { f with recs := f.recs.take f.pos ++ r :: f.recs.drop (f.pos + 1), pos := f.pos + 1 }

/-- The `close()` of the close functions, guarded by `is_open()`. -/
def close (f : RecFile α) : Except Error Unit × RecFile α :=
  if f.isOpen then (.ok (), { f with isOpen := false }) else (.error .alreadyClosed, f)

/-- The `open(name, in | out | binary)` of the open functions on a closed stream: the file is
created empty when absent (here: it always exists) and the position is its start.  On a stream
that is already open `open` fails without closing it. -/
def reopen (f : RecFile α) : RecFile α :=
  if f.isOpen then f else { f with isOpen := true, pos := 0 }

/-- The `std::remove(name)` of the rewrite paths followed by the open function: a closed file
is replaced by an empty one and opened. -/
def recreate (f : RecFile α) : RecFile α :=
  if f.isOpen then f else { isOpen := true, recs := [], pos := 0 }

/-- The swap-delete shared by `deleteSailing` and `deleteReservation`: overwrite slot `target`
with the last record, which leaves the position behind that slot. -/
def overwriteWithLast (f : RecFile α) (target : Nat) (lastRecord : α) : RecFile α :=
  put { f with pos := target } lastRecord

/-- The close / truncate to `total - 1` records / reopen that ends both delete functions. -/
def truncateReopen (f : RecFile α) (total : Nat) : RecFile α :=
  { isOpen := true, recs := f.recs.take (total - 1), pos := 0 }

end RecFile

/-! ## sailing.cpp -/

/-- The function `sailingClose`. -/
def sailingClose (f : RecFile Sailing) : Except Error Unit × RecFile Sailing := f.close

/-- The function `sailingReset`. -/
def sailingReset (f : RecFile Sailing) : Except Error Unit × RecFile Sailing := f.reset

/-- The function `getNextSailing`: `some s` stands for `true` with `s` filled in. -/
def getNextSailing (f : RecFile Sailing) : Except Error (Option Sailing) × RecFile Sailing :=
  f.getNext

/-- The function `writeSailing`: it writes at the file position, with no seek. -/
def writeSailing (s : Sailing) (f : RecFile Sailing) : Except Error Unit × RecFile Sailing :=
  if f.isOpen then (.ok (), f.put s) else (.error .notOpen, f)

/-- The search loops `for (i = 0; i < total; ++i) { read; if (match) { target = i; break; } }`
and `while (true) { if (!getNext(r)) throw; if (match) break; }`: the index of the first
record satisfying `p` together with that record, `none` when the records run out. -/
def scanFor {α : Type} (p : α → Bool) : List α → Option (Nat × α)
  | [] => none
  | r :: rest =>
    if p r then some (0, r)
    else
      match scanFor p rest with
      | some (i, x) => some (i + 1, x)
      | none => none

/-- The function `deleteSailing` (lines 181-295). -/
def deleteSailing (sailingID : String) (f : RecFile Sailing) :
    Except Error Unit × RecFile Sailing :=
  if f.isOpen then
    let total := f.recs.length
    if total = 0 then (.error .noRecords, { f with pos := total })
    else
      match scanFor (fun temp => decide (temp.sailingID = sailingID)) f.recs,
          f.recs.get? (total - 1) with
      | none, _ => (.error .notFound, { f with pos := total })
      | some _, none => (.error .readFailed, { f with pos := total })
      | some (target, _), some lastRecord =>
        (.ok (), (f.overwriteWithLast target lastRecord).truncateReopen total)
  else (.error .notOpen, f)

/-! ## vehicle.hpp

Only the header of the vehicle module is among the sources. -/

/-- Modelled from the spec: `vehicleReset`, declared in `vehicle.hpp` ("seeks to the beginning
of the Vehicle file, throws an exception if the file is not open"); the body is not among the
sources. -/
def vehicleReset (f : RecFile Vehicle) : Except Error Unit × RecFile Vehicle := f.reset

/-- Modelled from the spec: `getNextVehicle`, declared in `vehicle.hpp`; the body is not among
the sources. -/
def getNextVehicle (f : RecFile Vehicle) : Except Error (Option Vehicle) × RecFile Vehicle :=
  f.getNext

/-- Modelled from the spec: `writeVehicle`, declared in `vehicle.hpp` ("writes to the Vehicle
file, throws an exception if the write operation fails"); the body is not among the sources.
As `writeSailing` does, it writes at the file position; every call in the modelled code comes
after the file was read or written to its end. -/
def writeVehicle (v : Vehicle) (f : RecFile Vehicle) : Except Error Unit × RecFile Vehicle :=
  if f.isOpen then (.ok (), f.put v) else (.error .notOpen, f)

/-! ## reservation.cpp -/

/-- The four record files of the process (the module-scope `static std::fstream`s). -/
structure Sys where
  vessels : RecFile Vessel
  sailings : RecFile Sailing
  vehicles : RecFile Vehicle
  reservations : RecFile Reservation

/-- The function `reservationReset`. -/
def reservationReset (f : RecFile Reservation) : Except Error Unit × RecFile Reservation :=
  f.reset

/-- The function `getNextReservation`. -/
def getNextReservation (f : RecFile Reservation) :
    Except Error (Option Reservation) × RecFile Reservation :=
  f.getNext

/-- The function `writeReservation`: `seekp(0, std::ios::end)` unless `overWrite`, then the
write at the file position. -/
def writeReservation (r : Reservation) (overWrite : Bool) (f : RecFile Reservation) :
    Except Error Unit × RecFile Reservation :=
  if f.isOpen then
    (.ok (), RecFile.put (if overWrite then f else { f with pos := f.recs.length }) r)
  else (.error .notOpen, f)

/-- The function `reservationClose`. -/
def reservationClose (f : RecFile Reservation) : Except Error Unit × RecFile Reservation :=
  f.close

/-- Lines 264-275 of `deleteReservation`: the sailing as it is written back, credited in the
low lane when the vehicle's height is at most 2 and in the high lane otherwise. -/
def deleteReservation.credit (v : Vehicle) (s : Sailing) : Sailing :=
  if v.vehicleHeight ≤ 2 then
    { s with lowRemainingLength := f32 (s.lowRemainingLength + v.vehicleLength) }
  else
    { s with highRemainingLength := f32 (s.highRemainingLength + v.vehicleLength) }

/-- Lines 241-280 of `deleteReservation`: find the sailing, find the vehicle, delete the
sailing record and write it back with the vehicle's length credited. -/
def deleteReservation.release (sailingID vehicleLicence : String) (st : Sys) :
    Except Error Unit × Sys :=
  match sailingReset st.sailings with
  | (.error e, sf) => (.error e, { st with sailings := sf })
  | (.ok _, sf) =>
    match vehicleReset st.vehicles with
    | (.error e, vf) => (.error e, { st with sailings := sf, vehicles := vf })
    | (.ok _, vf) =>
      match scanFor (fun s => decide (s.sailingID = sailingID)) sf.recs with
      | none =>
        (.error .failedGettingSailing,
          { st with sailings := { sf with pos := sf.recs.length }, vehicles := vf })
      | some (i, s) =>
        match scanFor (fun v => decide (v.vehicleLicence = vehicleLicence)) vf.recs with
        | none =>
          (.error .failedGettingVehicle,
            { st with sailings := { sf with pos := i + 1 },
                      vehicles := { vf with pos := vf.recs.length } })
        | some (k, v) =>
          match deleteSailing s.sailingID { sf with pos := i + 1 } with
          | (.error e, sf) =>
            (.error e, { st with sailings := sf, vehicles := { vf with pos := k + 1 } })
          | (.ok _, sf) =>
            match writeSailing (deleteReservation.credit v s) sf with
            | (.error e, sf) =>
              (.error e, { st with sailings := sf, vehicles := { vf with pos := k + 1 } })
            | (.ok _, sf) =>
              (.ok (), { st with sailings := sf, vehicles := { vf with pos := k + 1 } })

/-- The function `deleteReservation` (lines 177-327). -/
def deleteReservation (sailingID vehicleLicence : String) (st : Sys) :
    Except Error Unit × Sys :=
  let rf := st.reservations
  if rf.isOpen then
    let total := rf.recs.length
    if total = 0 then (.error .noRecords, { st with reservations := { rf with pos := total } })
    else
      match scanFor (fun temp => decide (temp.sailingID = sailingID) &&
          decide (temp.vehicleLicence = vehicleLicence)) rf.recs with
      | none => (.error .notFound, { st with reservations := { rf with pos := total } })
      | some (target, _) =>
        match rf.recs.get? (total - 1) with
        | none => (.error .readFailed, { st with reservations := { rf with pos := total } })
        | some lastRecord =>
          match deleteReservation.release sailingID vehicleLicence
              { st with reservations := rf.overwriteWithLast target lastRecord } with
          | (.error e, st) => (.error e, st)
          | (.ok _, st) =>
            (.ok (), { st with reservations := st.reservations.truncateReopen total })
  else (.error .notOpen, st)

/-! ## reservationManager.cpp -/

/-- The answer typed at "Enter Y to add another vehicle, enter N to return to the main menu".
The answer `Y` makes `createReservationRepeat` ask for another sailing and licence and call
`createReservation` again; such a further booking is a call of its own here, so the answers
covered are `N` and a character that is neither `Y` nor `N`. -/
inductive RepeatInput where
  | N
  | neither
deriving DecidableEq

/-- The function `createReservationRepeat` on the answers of `RepeatInput`. -/
def createReservationRepeat (input : RepeatInput) : Except Error Unit :=
  match input with
  | .N => .ok ()
  | .neither => .error .inputNeitherYNorN

/-- What the operator types during one booking: the values the phone, length and height
prompts end up accepting (they are asked only for a vehicle that is not on file), and the
answer to the k-th Y/N prompt. -/
structure Console where
  phoneNumber : String
  vehicleLength : ℚ
  vehicleHeight : ℚ
  input : Nat → RepeatInput

/-- The locals of `createReservation` that its vehicle loop assigns, and the number of Y/N
prompts answered so far. -/
structure BookingLocals where
  v : Vehicle
  phoneNumber : String
  vehicleLength : ℚ
  vehicleHeight : ℚ
  vehExists : Bool
  asked : Nat

/-- Lines 175-201 of `createReservation`: the loop over the vehicle file.  Every record with
the licence sets the dimensions, appends a reservation whose flag is
`v.vehicleHeight <= 2 || v.vehicleLength <= 7`, and asks the Y/N question; the loop has no
`break`. -/
def createReservation.vehicleLoop (sailingID vehicleLicence : String)
    (input : Nat → RepeatInput) : List Vehicle → BookingLocals → Sys → Except Error BookingLocals × Sys
  | [], loc, st => (.ok loc, st)
  | v :: rest, loc, st =>
    let st := { st with vehicles := { st.vehicles with pos := st.vehicles.pos + 1 } }
    let loc := { loc with v := v }
    if v.vehicleLicence = vehicleLicence then
      let newRes : Reservation :=
        { sailingID := sailingID, vehicleLicence := vehicleLicence, onBoard := false,
          isLRL := decide (v.vehicleHeight ≤ 2) || decide (v.vehicleLength ≤ 7) }
      match writeReservation newRes false st.reservations with
      | (.error e, rf) => (.error e, { st with reservations := rf })
      | (.ok _, rf) =>
        match createReservationRepeat (input loc.asked) with
        | .error e => (.error e, { st with reservations := rf })
        | .ok _ =>
          createReservation.vehicleLoop sailingID vehicleLicence input rest
            { loc with vehicleLength := v.vehicleLength, vehicleHeight := v.vehicleHeight,
                       phoneNumber := v.phone, vehExists := true, asked := loc.asked + 1 }
            { st with reservations := rf }
    else createReservation.vehicleLoop sailingID vehicleLicence input rest loc st

/-- Lines 202-259 of `createReservation`: a vehicle that is not on file gets the typed phone
number and dimensions and is written to the vehicle file. -/
def createReservation.newVehicle (vehicleLicence : String) (con : Console)
    (loc : BookingLocals) (st : Sys) : Except Error BookingLocals × Sys :=
  if loc.vehExists then (.ok loc, st)
  else
    let temp : Vehicle :=
      { vehicleLicence := vehicleLicence, phone := con.phoneNumber,
        vehicleHeight := con.vehicleHeight, vehicleLength := con.vehicleLength }
    match writeVehicle temp st.vehicles with
    | (.error e, vf) => (.error e, { st with vehicles := vf })
    | (.ok _, vf) =>
      (.ok { loc with phoneNumber := con.phoneNumber, vehicleLength := con.vehicleLength,
                      vehicleHeight := con.vehicleHeight },
        { st with vehicles := vf })

/-- Lines 278-301 of `createReservation`: the lane arithmetic on the sailing that matches. -/
def createReservation.charge (isLRL : Bool) (vehicleLength : ℚ) (s : Sailing) :
    Except Error Sailing :=
  if isLRL then
    if vehicleLength ≤ s.lowRemainingLength then
      .ok { s with lowRemainingLength := f32 (s.lowRemainingLength - vehicleLength) }
    else if vehicleLength ≤ s.highRemainingLength then
      .ok { s with highRemainingLength := f32 (s.highRemainingLength - vehicleLength) }
    else .error .insufficientSpace
  else
    if vehicleLength ≤ s.highRemainingLength then
      .ok { s with highRemainingLength := f32 (s.highRemainingLength - vehicleLength) }
    else .error .insufficientSpace

/-- Lines 275-304 of `createReservation`: the loop that reads every sailing into the vector
`sailings`, charging the ones with the given ID. -/
def createReservation.sailingLoop (sailingID : String) (isLRL : Bool) (vehicleLength : ℚ) :
    List Sailing → List Sailing → Bool → RecFile Sailing →
      Except Error (List Sailing × Bool) × RecFile Sailing
  | [], sailings, sailingFound, f => (.ok (sailings, sailingFound), f)
  | s :: rest, sailings, sailingFound, f =>
    let f := { f with pos := f.pos + 1 }
    if s.sailingID = sailingID then
      match createReservation.charge isLRL vehicleLength s with
      | .error e => (.error e, f)
      | .ok s =>
        createReservation.sailingLoop sailingID isLRL vehicleLength rest (sailings ++ [s]) true f
    else
      createReservation.sailingLoop sailingID isLRL vehicleLength rest (sailings ++ [s])
        sailingFound f

/-- The loop `for (auto& updatedSailing : sailings) writeSailing(updatedSailing);`. -/
def writeSailings : List Sailing → RecFile Sailing → Except Error Unit × RecFile Sailing
  | [], f => (.ok (), f)
  | s :: rest, f =>
    match writeSailing s f with
    | (.error e, f) => (.error e, f)
    | (.ok _, f) => writeSailings rest f

/-- The rewrite of the sailing file: `sailingClose(); std::remove("sailings.dat");
sailingOpen();` and the write loop. -/
def rewriteSailings (sailings : List Sailing) (f : RecFile Sailing) :
    Except Error Unit × RecFile Sailing :=
  match sailingClose f with
  | (.error e, f) => (.error e, f)
  | (.ok _, f) => writeSailings sailings f.recreate

/-- Lines 260-317 of `createReservation`: build `newRes` with the flag
`vehicleHeight <= 2 && vehicleLength <= 7`, charge the sailing, rewrite the sailing file. -/
def createReservation.updateSailing (sailingID vehicleLicence : String) (loc : BookingLocals)
    (st : Sys) : Except Error Reservation × Sys :=
  match sailingReset st.sailings with
  | (.error e, sf) => (.error e, { st with sailings := sf })
  | (.ok _, sf) =>
    let newRes : Reservation :=
      { sailingID := sailingID, vehicleLicence := vehicleLicence, onBoard := false,
        isLRL := decide (loc.vehicleHeight ≤ 2) && decide (loc.vehicleLength ≤ 7) }
    match createReservation.sailingLoop sailingID newRes.isLRL loc.vehicleLength sf.recs []
        false sf with
    | (.error e, sf) => (.error e, { st with sailings := sf })
    | (.ok (sailings, sailingFound), sf) =>
      if sailingFound then
        match rewriteSailings sailings sf with
        | (.error e, sf) => (.error e, { st with sailings := sf })
        | (.ok _, sf) => (.ok newRes, { st with sailings := sf })
      else (.error .sailingIDNotFound, { st with sailings := sf })

/-- Lines 318-339 of `createReservation`: nothing more for a vehicle that was on file;
otherwise append `newRes`, write the local `v` (not `newVeh`) to the vehicle file and ask the
Y/N question. -/
def createReservation.finish (con : Console) (loc : BookingLocals) (newRes : Reservation)
    (st : Sys) : Except Error Unit × Sys :=
  if loc.vehExists then (.ok (), st)
  else
    match writeReservation newRes false st.reservations with
    | (.error e, rf) => (.error e, { st with reservations := rf })
    | (.ok _, rf) =>
      match writeVehicle loc.v st.vehicles with
      | (.error e, vf) => (.error e, { st with reservations := rf, vehicles := vf })
      | (.ok _, vf) =>
        (createReservationRepeat (con.input loc.asked),
          { st with reservations := rf, vehicles := vf })

/-- The function `createReservation` (lines 169-340).  The argument `v₀` is the content of the
uninitialised local `v` on entry. -/
def createReservation (sailingID vehicleLicence : String) (con : Console) (v₀ : Vehicle)
    (st : Sys) : Except Error Unit × Sys :=
  match vehicleReset st.vehicles with
  | (.error e, vf) => (.error e, { st with vehicles := vf })
  | (.ok _, vf) =>
    match createReservation.vehicleLoop sailingID vehicleLicence con.input vf.recs
        { v := v₀, phoneNumber := "", vehicleLength := 0, vehicleHeight := 0,
          vehExists := false, asked := 0 }
        { st with vehicles := vf } with
    | (.error e, st) => (.error e, st)
    | (.ok loc, st) =>
      match createReservation.newVehicle vehicleLicence con loc st with
      | (.error e, st) => (.error e, st)
      | (.ok loc, st) =>
        match createReservation.updateSailing sailingID vehicleLicence loc st with
        | (.error e, st) => (.error e, st)
        | (.ok newRes, st) => createReservation.finish con loc newRes st

/-- Lines 521-538 of `createResAtCheckin`: the lane arithmetic on the sailing that matches;
the low lane is tried first whatever the vehicle's dimensions. -/
def createResAtCheckin.charge (vehicleLength : ℚ) (s : Sailing) : Except Error Sailing :=
  if vehicleLength ≤ s.lowRemainingLength then
    .ok { s with lowRemainingLength := f32 (s.lowRemainingLength - vehicleLength) }
  else if vehicleLength ≤ s.highRemainingLength then
    .ok { s with highRemainingLength := f32 (s.highRemainingLength - vehicleLength) }
  else .error .insufficientSpace

/-- Lines 521-538 of `createResAtCheckin`: the loop that reads every sailing into the vector
`sailings`, charging the ones with the given ID. -/
def createResAtCheckin.sailingLoop (sailingID : String) (vehicleLength : ℚ) :
    List Sailing → List Sailing → RecFile Sailing →
      Except Error (List Sailing) × RecFile Sailing
  | [], sailings, f => (.ok sailings, f)
  | s :: rest, sailings, f =>
    let f := { f with pos := f.pos + 1 }
    if s.sailingID = sailingID then
      match createResAtCheckin.charge vehicleLength s with
      | .error e => (.error e, f)
      | .ok s => createResAtCheckin.sailingLoop sailingID vehicleLength rest (sailings ++ [s]) f
    else createResAtCheckin.sailingLoop sailingID vehicleLength rest (sailings ++ [s]) f

/-- The function `createResAtCheckin` (lines 443-573).  Its vehicle loop compares the address
`v.vehicleLicence` with the pointer `vehicleLicence`, which never are equal, so the loop reads
the vehicle file to its end and the operator is always asked for the dimensions. -/
def createResAtCheckin (sailingID vehicleLicence : String) (con : Console) (st : Sys) :
    Except Error Unit × Sys :=
  match vehicleReset st.vehicles with
  | (.error e, vf) => (.error e, { st with vehicles := vf })
  | (.ok _, vf) =>
    let vf := { vf with pos := vf.recs.length }
    match sailingReset st.sailings with
    | (.error e, sf) => (.error e, { st with vehicles := vf, sailings := sf })
    | (.ok _, sf) =>
      match createResAtCheckin.sailingLoop sailingID con.vehicleLength sf.recs [] sf with
      | (.error e, sf) => (.error e, { st with vehicles := vf, sailings := sf })
      | (.ok sailings, sf) =>
        match rewriteSailings sailings sf with
        | (.error e, sf) => (.error e, { st with vehicles := vf, sailings := sf })
        | (.ok _, sf) =>
          let newRes : Reservation :=
            { sailingID := sailingID, vehicleLicence := vehicleLicence, onBoard := true,
              isLRL := decide (con.vehicleHeight ≤ 2) && decide (con.vehicleLength ≤ 7) }
          let newVeh : Vehicle :=
            { vehicleLicence := vehicleLicence, phone := con.phoneNumber,
              vehicleHeight := con.vehicleHeight, vehicleLength := con.vehicleLength }
          match writeReservation newRes false st.reservations with
          | (.error e, rf) =>
            (.error e, { st with vehicles := vf, sailings := sf, reservations := rf })
          | (.ok _, rf) =>
            match writeVehicle newVeh vf with
            | (.error e, vf) =>
              (.error e, { st with vehicles := vf, sailings := sf, reservations := rf })
            | (.ok _, vf) =>
              (.ok (), { st with vehicles := vf, sailings := sf, reservations := rf })

/-- The loop `for (auto& rec : remaining) writeReservation(rec, true);` of
`deleteReservations`. -/
def writeReservations : List Reservation → RecFile Reservation →
    Except Error Unit × RecFile Reservation
  | [], f => (.ok (), f)
  | rec :: rest, f =>
    match writeReservation rec true f with
    | (.error e, f) => (.error e, f)
    | (.ok _, f) => writeReservations rest f

/-- The function `deleteReservations(char sailingID[])` (lines 587-629): read every
reservation, close the file, keep the records of other sailings and, when a record matched,
remove the file, open it again and write the kept records; when none matched the function
returns right after the close. -/
def deleteReservations (sailingID : String) (f : RecFile Reservation) :
    Except Error Unit × RecFile Reservation :=
  match reservationReset f with
  | (.error e, f) => (.error e, f)
  | (.ok _, f) =>
    let all := f.recs.drop f.pos
    match reservationClose { f with pos := f.recs.length } with
    | (.error e, f) => (.error e, f)
    | (.ok _, f) =>
      let found := all.any (fun rec => decide (rec.sailingID = sailingID))
      let remaining := all.filter (fun rec => !decide (rec.sailingID = sailingID))
      if found then writeReservations remaining f.recreate
      else (.ok (), f)

/-- The two search loops of `checkIn` (lines 651-658 and 665-673): read reservations into `r`
until one has the sailingID and the licence, set `onBoard` in that local copy and stop.  The
result is the final content of `r` and the number of records read. -/
def checkIn.search (sailingID vehicleLicence : String) :
    List Reservation → Reservation → Nat → Reservation × Nat
  | [], r, pos => (r, pos)
  | x :: rest, _, pos =>
    if x.sailingID = sailingID ∧ x.vehicleLicence = vehicleLicence then
      ({ x with onBoard := true }, pos + 1)
    else checkIn.search sailingID vehicleLicence rest x (pos + 1)

/-- The test `length < 7.1 || length > 99.9` of the length prompt of `checkIn` (lines 686 and
689).  The float is compared as a `double` with the `double` constants, which are the numbers
7.0999999999999996447... and 99.900000000000005684... written out here. -/
def checkIn.lengthRefused (length : ℚ) : Bool :=
  decide (length < 3996944669291315 / 562949953421312) ||
    decide (3514918771674317 / 35184372088832 < length)

/-- The test `height < 2.1 || height > 9.9` of the height prompt of `checkIn` (lines 694 and
697), with the `double` constants 2.1000000000000000888... and 9.9000000000000003552... -/
def checkIn.heightRefused (height : ℚ) : Bool :=
  decide (height < 4728779608739021 / 2251799813685248) ||
    decide (5573204538870989 / 562949953421312 < height)

/-- A prompt of `checkIn` with its loop, `std::cin >> x; while (refused) { std::cin >> x; }`:
the entries are `typed k`, `typed (k + 1)`, ... (floats, as `std::cin` delivers them), read
until one is not refused.  The result is that entry and the index of the next one, and `none`
when `fuel` entries have been refused. -/
def checkIn.prompt (refused : ℚ → Bool) : Nat → (Nat → ℚ) → Nat → Option (ℚ × Nat)
  | 0, _, _ => none
  | fuel + 1, typed, k =>
    if refused (typed k) then checkIn.prompt refused fuel typed (k + 1)
    else some (typed k, k + 1)

/-- The two prompts of `checkIn` (lines 683-698): the length, then the height. -/
def checkIn.prompts (fuel : Nat) (typed : Nat → ℚ) : Option (ℚ × ℚ) :=
  match checkIn.prompt checkIn.lengthRefused fuel typed 0 with
  | none => none
  | some (length, k) =>
    match checkIn.prompt checkIn.heightRefused fuel typed k with
    | none => none
    | some (height, _) => some (length, height)

/-- Lines 664-703 of `checkIn`: reset, search again, and the fare: 14 when the local `r` has
`isLRL`, otherwise the float expression `(length * 2) + (height * 3)`, each operation rounded,
for the `length` and `height` that the two prompts deliver (`checkIn.prompts`), which are asked
on this branch only. -/
def checkIn.fare (sailingID vehicleLicence : String) (length height : ℚ) (r : Reservation)
    (st : Sys) : Except Error ℚ × Sys :=
  match reservationReset st.reservations with
  | (.error e, rf) => (.error e, { st with reservations := rf })
  | (.ok _, rf) =>
    let found := checkIn.search sailingID vehicleLicence rf.recs r 0
    let st := { st with reservations := { rf with pos := found.2 } }
    if found.1.isLRL = true then (.ok 14, st)
    else (.ok (f32 (f32 (length * 2) + f32 (height * 3))), st)

/-- The function `checkIn` (lines 645-706).  After the first search the test
`if (!getNextReservation(r))` reads the record behind the one found; `createResAtCheckin` is
called when that read is at the end of the file.  The argument `r₀` is the content of the
uninitialised local `r` on entry; `con` holds what the operator types for `createResAtCheckin`,
`length` and `height` are what the two fare prompts deliver (`checkIn.prompts`). -/
def checkIn (sailingID vehicleLicence : String) (con : Console) (length height : ℚ)
    (r₀ : Reservation) (st : Sys) : Except Error ℚ × Sys :=
  match reservationReset st.reservations with
  | (.error e, rf) => (.error e, { st with reservations := rf })
  | (.ok _, rf) =>
    let found := checkIn.search sailingID vehicleLicence rf.recs r₀ 0
    match getNextReservation { rf with pos := found.2 } with
    | (.error e, rf) => (.error e, { st with reservations := rf })
    | (.ok (some next), rf) =>
      checkIn.fare sailingID vehicleLicence length height next { st with reservations := rf }
    | (.ok none, rf) =>
      match createResAtCheckin sailingID vehicleLicence con { st with reservations := rf } with
      | (.error e, st) => (.error e, st)
      | (.ok _, st) => checkIn.fare sailingID vehicleLicence length height found.1 st

/-! ## vessel.hpp and the rest of sailing.cpp -/

/-- Modelled from the spec: `vesselReset`, declared in `vessel.hpp` ("seeks to the beginning of
the Vessel file, throws an exception if the file is not open"); the body is not among the
sources. -/
def vesselReset (f : RecFile Vessel) : Except Error Unit × RecFile Vessel := f.reset

/-- Modelled from the spec: `getNextVessel`, declared in `vessel.hpp`; the body is not among
the sources.  At the end of the file it returns false and leaves its argument as it was. -/
def getNextVessel (f : RecFile Vessel) : Except Error (Option Vessel) × RecFile Vessel :=
  f.getNext

/-- The function `checkSailingExists`: the index of the first sailing with the ID, or the
exception "ID not found". -/
def checkSailingExists (sailingID : String) (f : RecFile Sailing) :
    Except Error Nat × RecFile Sailing :=
  match sailingReset f with
  | (.error e, f) => (.error e, f)
  | (.ok _, f) =>
    match scanFor (fun temp => decide (temp.sailingID = sailingID)) f.recs with
    | some (index, _) => (.ok index, { f with pos := index + 1 })
    | none => (.error .notFound, { f with pos := f.recs.length })

/-! ## sailingManager.cpp -/

/-- Lines 260-267 of `createSailing`: the loop `while (true) { getNextVessel(temp); if
(strcmp(temp.name, vesselName) == 0) break; }`, which does not look at what `getNextVessel`
returns.  It is run for at most `fuel` iterations; `none` says that it has not left the loop by
then. -/
def createSailing.findVessel (vesselName : String) :
    Nat → Vessel → RecFile Vessel → Option (Except Error Vessel × RecFile Vessel)
  | 0, _, _ => none
  | fuel + 1, temp, f =>
    match getNextVessel f with
    | (.error e, f) => some (.error e, f)
    | (.ok next, f) =>
      let temp := match next with
        | some v => v
        | none => temp
      if temp.name = vesselName then some (.ok temp, f)
      else createSailing.findVessel vesselName fuel temp f

/-- The function `createSailing` (lines 177-288) for the sailingID the operator's prompt ends up
accepting ("0" leaves the function).  The `try` block around `checkSailingExists` catches every
`std::runtime_error`, its own "ID already exists" included, so only the file position it leaves
matters.  The argument `temp₀` is the content of the uninitialised local `temp`; `none` says
that the vessel loop has not ended within `fuel` iterations. -/
def createSailing (fuel : Nat) (vesselName sailingID : String) (temp₀ : Vessel) (st : Sys) :
    Option (Except Error Unit × Sys) :=
  if sailingID = "0" then some (.ok (), st)
  else
    match vesselReset st.vessels with
    | (.error e, vf) => some (.error e, { st with vessels := vf })
    | (.ok _, vf) =>
      match createSailing.findVessel vesselName fuel temp₀ vf with
      | none => none
      | some (.error e, vf) => some (.error e, { st with vessels := vf })
      | some (.ok temp, vf) =>
        let sf := (checkSailingExists sailingID st.sailings).2
        let s : Sailing :=
          { sailingID := sailingID, vesselName := vesselName,
            lowRemainingLength := temp.LCLL, highRemainingLength := temp.HCLL }
        match writeSailing s sf with
        | (.error e, sf) => some (.error e, { st with vessels := vf, sailings := sf })
        | (.ok _, sf) => some (.ok (), { st with vessels := vf, sailings := sf })

/-- The function `removeReservations` (lines 507-512): `deleteReservations(sailingID)` and then
`deleteSailing(sailingID)`. -/
def removeReservations (sailingID : String) (st : Sys) : Except Error Unit × Sys :=
  match deleteReservations sailingID st.reservations with
  | (.error e, rf) => (.error e, { st with reservations := rf })
  | (.ok _, rf) =>
    match deleteSailing sailingID st.sailings with
    | (.error e, sf) => (.error e, { st with reservations := rf, sailings := sf })
    | (.ok _, sf) => (.ok (), { st with reservations := rf, sailings := sf })

/-- The function `viewReservations` (lines 630-642): the loop that counts the records with the
given sailingID. -/
def viewReservations.count (sailingID : String) : List Reservation → Nat → Nat
  | [], count => count
  | r :: rest, count =>
    viewReservations.count sailingID rest (if r.sailingID = sailingID then count + 1 else count)

/-- The function `viewReservations` (lines 630-642): reset, then read to the end of the file
counting.  The `int` counter is a natural number here. -/
def viewReservations (sailingID : String) (f : RecFile Reservation) :
    Except Error Nat × RecFile Reservation :=
  match reservationReset f with
  | (.error e, f) => (.error e, f)
  | (.ok _, f) =>
    (.ok (viewReservations.count sailingID (f.recs.drop f.pos) 0), { f with pos := f.recs.length })

/-- The function `sailingOpen` (lines 51-76 of sailing.cpp): on a closed stream the file is
opened, and created first when it is absent; on an open stream `open` fails, `is_open()` stays
true and nothing is thrown.  The failure to create or open the file is not modelled. -/
def sailingOpen (f : RecFile Sailing) : Except Error Unit × RecFile Sailing :=
  (.ok (), f.reopen)

/-- The function `reservationOpen` (lines 52-78 of reservation.cpp), as `sailingOpen`. -/
def reservationOpen (f : RecFile Reservation) : Except Error Unit × RecFile Reservation :=
  (.ok (), f.reopen)

/-! ## The read functions on the bytes of the file

A record is written and read as the `sizeof` bytes of its struct, so on this level a record is
a list of `size` bytes, and the file may end in fewer than `size` bytes. -/

/-- A `std::fstream` on the bytes of its file; the position counts bytes. -/
structure ByteFile where
  isOpen : Bool
  bytes : List Nat
  pos : Nat

/-- The call `read(buf, n)`: the bytes that are there, at most `n`, whose number is `gcount()`,
and whether `eofbit` is set, which it is when fewer than `n` bytes were there.  The position
moves behind the bytes read. -/
def ByteFile.read (n : Nat) (f : ByteFile) : List Nat × Bool × ByteFile :=
  let got := (f.bytes.drop f.pos).take n
  (got, decide (got.length < n), { f with pos := f.pos + got.length })

/-- The functions `sailingReset` and `reservationReset` on the bytes. -/
def ByteFile.reset (f : ByteFile) : Except Error Unit × ByteFile :=
  if f.isOpen then (.ok (), { f with pos := 0 }) else (.error .notOpen, f)

/-- The function `getNextSailing` (lines 110-135 of sailing.cpp) on the bytes: false when
`gcount()` is less than `sizeof(Sailing)`.  After a whole record no flag is set, so the test
`if (!sailingFile)` that follows does not throw. -/
def getNextSailing.bytes (size : Nat) (f : ByteFile) :
    Except Error (Option (List Nat)) × ByteFile :=
  if f.isOpen then
    match f.read size with
    | (got, _, f) => if got.length < size then (.ok none, f) else (.ok (some got), f)
  else (.error .notOpen, f)

/-- The function `getNextReservation` (lines 98-126 of reservation.cpp) on the bytes: false
when `eof()` holds after the read.  After a whole record no flag is set, so the test
`if (!reservationFile)` that follows does not throw. -/
def getNextReservation.bytes (size : Nat) (f : ByteFile) :
    Except Error (Option (List Nat)) × ByteFile :=
  if f.isOpen then
    match f.read size with
    | (got, eof, f) => if eof then (.ok none, f) else (.ok (some got), f)
  else (.error .notOpen, f)

/-- The results of `k` successive calls of `next`, and the state they leave. -/
def callsOf {σ ρ : Type} (next : σ → ρ × σ) : Nat → σ → List ρ × σ
  | 0, f => ([], f)
  | k + 1, f =>
    match next f with
    | (r, f) =>
      match callsOf next k f with
      | (rs, f) => (r :: rs, f)

/-! ## Keys and scenario data -/

/-- The natural key of a reservation: the pair (sailingID, vehicleLicence). -/
def Reservation.key (r : Reservation) : String × String := (r.sailingID, r.vehicleLicence)

/-- The vehicle a booking of `vehicleLicence` is for, with length `L` and height `h`: the
last record on file with that licence or, none being on file, the vehicle whose dimensions the
operator types. -/
def BookedVehicle (recs : List Vehicle) (vehicleLicence : String) (con : Console) (L h : ℚ) :
    Prop :=
  (∃ pre v post, recs = pre ++ v :: post ∧ v.vehicleLicence = vehicleLicence ∧
      (∀ w ∈ post, w.vehicleLicence ≠ vehicleLicence) ∧
      v.vehicleLength = L ∧ v.vehicleHeight = h) ∨
  ((∀ w ∈ recs, w.vehicleLicence ≠ vehicleLicence) ∧
      con.vehicleLength = L ∧ con.vehicleHeight = h)

/-- Scenario A of the spec: vessel "Spirit" with low = 100 and high = 200, the sailing
"ABC-01-08" created from it, no vehicle and no reservation on file. -/
def scenarioA : Sys :=
  { vessels := { isOpen := true, recs := [⟨"Spirit", 200, 100⟩], pos := 0 },
    sailings := { isOpen := true, recs := [⟨"ABC-01-08", "Spirit", 100, 200⟩], pos := 0 },
    vehicles := { isOpen := true, recs := [], pos := 0 },
    reservations := { isOpen := true, recs := [], pos := 0 } }

/-- The operator's entries for the vehicle of scenario A: length 5, height 1.5, answer N. -/
def consoleA : Console :=
  { phoneNumber := "6045550100", vehicleLength := 5, vehicleHeight := 3 / 2,
    input := fun _ => .N }

/-- The operator's entries for the first vehicle of scenario B: length 50, height 3. -/
def consoleB : Console :=
  { phoneNumber := "6045550101", vehicleLength := 50, vehicleHeight := 3,
    input := fun _ => .N }

/-- Some content of the uninitialised local `v`. -/
def junk : Vehicle := ⟨"", "", 0, 0⟩

/-- The sailing `s'` is `s` itself, or `s` with the length `L` subtracted, as floats are, from
one lane that held at least `L`, the other lane unchanged. -/
def ChargedWithin (L : ℚ) (s s' : Sailing) : Prop :=
  s' = s ∨
  (L ≤ s.lowRemainingLength ∧ s'.lowRemainingLength = f32 (s.lowRemainingLength - L) ∧
    s'.highRemainingLength = s.highRemainingLength) ∨
  (L ≤ s.highRemainingLength ∧ s'.highRemainingLength = f32 (s.highRemainingLength - L) ∧
    s'.lowRemainingLength = s.lowRemainingLength)

/-- Scenario A after the booking of XYZ123 (length 5, height 1.5): low = 95, high = 200; the
vehicle file holds the new vehicle and the content of the local `v`. -/
def bookedA : Sys :=
  { vessels := { isOpen := true, recs := [⟨"Spirit", 200, 100⟩], pos := 0 },
    sailings := { isOpen := true, recs := [⟨"ABC-01-08", "Spirit", 95, 200⟩], pos := 1 },
    vehicles :=
      { isOpen := true, recs := [⟨"XYZ123", "6045550100", 3 / 2, 5⟩, junk], pos := 2 },
    reservations :=
      { isOpen := true, recs := [⟨"ABC-01-08", "XYZ123", false, true⟩], pos := 1 } }

/-- Scenario A with a vehicle on file that is 3 high and 5 long: not low-roof eligible. -/
def tallOnFile : Sys :=
  { vessels := { isOpen := true, recs := [⟨"Spirit", 200, 100⟩], pos := 0 },
    sailings := { isOpen := true, recs := [⟨"ABC-01-08", "Spirit", 100, 200⟩], pos := 0 },
    vehicles := { isOpen := true, recs := [⟨"TALL001", "6045550102", 3, 5⟩], pos := 0 },
    reservations := { isOpen := true, recs := [], pos := 0 } }

/-- The operator's entries for a vehicle of length 10 and height 1.5: low enough but too long
for the low-roof lane. -/
def consoleC : Console :=
  { phoneNumber := "6045550103", vehicleLength := 10, vehicleHeight := 3 / 2,
    input := fun _ => .N }

/-- A sailing at low = 100, high = 190 with the reservation of the vehicle LONG001 (length 10,
height 1.5) that occupies its high lane; the reservation's isLRL flag is `isLRL`. -/
def flagged (isLRL : Bool) : Sys :=
  { vessels := { isOpen := true, recs := [⟨"Spirit", 200, 100⟩], pos := 0 },
    sailings := { isOpen := true, recs := [⟨"ABC-01-08", "Spirit", 100, 190⟩], pos := 0 },
    vehicles := { isOpen := true, recs := [⟨"LONG001", "6045550103", 3 / 2, 10⟩], pos := 0 },
    reservations :=
      { isOpen := true, recs := [⟨"ABC-01-08", "LONG001", false, isLRL⟩], pos := 0 } }

/-- A sailing store with three sailings. -/
def fleet : RecFile Sailing :=
  { isOpen := true,
    recs := [⟨"ABC-01-08", "Spirit", 100, 200⟩, ⟨"DEF-02-09", "Spirit", 95, 150⟩,
             ⟨"GHI-03-10", "Coho", 40, 60⟩],
    pos := 0 }

/-- A state with two reservations on a sailing that is not in the sailing store. -/
def orphaned : Sys :=
  { vessels := { isOpen := true, recs := [], pos := 0 },
    sailings := { isOpen := true, recs := [], pos := 0 },
    vehicles := { isOpen := true, recs := [⟨"XYZ123", "6045550100", 3 / 2, 5⟩], pos := 0 },
    reservations :=
      { isOpen := true,
        recs := [⟨"ABC-01-08", "XYZ123", false, true⟩, ⟨"ABC-01-08", "QRS789", false, false⟩],
        pos := 0 } }

/-- A state with two reservations on a sailing that is on file, for vehicles that are not. -/
def vehicleMissing : Sys :=
  { vessels := { isOpen := true, recs := [⟨"Spirit", 200, 100⟩], pos := 0 },
    sailings := { isOpen := true, recs := [⟨"ABC-01-08", "Spirit", 95, 150⟩], pos := 0 },
    vehicles := { isOpen := true, recs := [], pos := 0 },
    reservations :=
      { isOpen := true,
        recs := [⟨"ABC-01-08", "XYZ123", false, true⟩, ⟨"ABC-01-08", "QRS789", false, false⟩],
        pos := 0 } }

/-- A state with one sailing, two vehicles on file and a reservation for each. -/
def booked : Sys :=
  { vessels := { isOpen := true, recs := [⟨"Spirit", 200, 100⟩], pos := 0 },
    sailings := { isOpen := true, recs := [⟨"ABC-01-08", "Spirit", 95, 150⟩], pos := 0 },
    vehicles :=
      { isOpen := true,
        recs := [⟨"XYZ123", "6045550100", 3 / 2, 5⟩, ⟨"QRS789", "6045550101", 3, 50⟩],
        pos := 0 },
    reservations :=
      { isOpen := true,
        recs := [⟨"ABC-01-08", "XYZ123", false, true⟩, ⟨"ABC-01-08", "QRS789", false, false⟩],
        pos := 0 } }

/-- A vessel store holding "Spirit" (high 200, low 100) and no sailing yet. -/
def harbour : Sys :=
  { vessels := { isOpen := true, recs := [⟨"Spirit", 200, 100⟩], pos := 0 },
    sailings := { isOpen := true, recs := [], pos := 0 },
    vehicles := { isOpen := true, recs := [], pos := 0 },
    reservations := { isOpen := true, recs := [], pos := 0 } }

/-- The sailing that `createSailing` makes from "Spirit" in `harbour`. -/
def harbourSailing : Sys :=
  { vessels := { isOpen := true, recs := [⟨"Spirit", 200, 100⟩], pos := 1 },
    sailings := { isOpen := true, recs := [⟨"ABC-01-08", "Spirit", 100, 200⟩], pos := 1 },
    vehicles := { isOpen := true, recs := [], pos := 0 },
    reservations := { isOpen := true, recs := [], pos := 0 } }

/-- Some content of the uninitialised local `temp` of `createSailing`. -/
def junkVessel : Vessel := ⟨"", 0, 0⟩

/-- Some content of the uninitialised local `r` of `checkIn`. -/
def junkReservation : Reservation := ⟨"", "", false, false⟩

/-- A sailing with 2 left in the low lane and 3 in the high lane; two vehicles of length 5 and
height 1.5 on file, the first of them booked (its reservation is the only record). -/
def nearlyFull : Sys :=
  { vessels := { isOpen := true, recs := [⟨"Skiff", 3, 7⟩], pos := 0 },
    sailings := { isOpen := true, recs := [⟨"ABC-01-08", "Skiff", 2, 3⟩], pos := 0 },
    vehicles :=
      { isOpen := true,
        recs := [⟨"XYZ123", "6045550100", 3 / 2, 5⟩, ⟨"QRS789", "6045550101", 3 / 2, 5⟩],
        pos := 0 },
    reservations :=
      { isOpen := true, recs := [⟨"ABC-01-08", "XYZ123", false, true⟩], pos := 0 } }

/-- The state `booked` with its two reservations in the other order: the reservation of QRS789
(length 50, height 3, not low-roof eligible) comes first. -/
def bookedB : Sys :=
  { vessels := { isOpen := true, recs := [⟨"Spirit", 200, 100⟩], pos := 0 },
    sailings := { isOpen := true, recs := [⟨"ABC-01-08", "Spirit", 95, 150⟩], pos := 0 },
    vehicles :=
      { isOpen := true,
        recs := [⟨"XYZ123", "6045550100", 3 / 2, 5⟩, ⟨"QRS789", "6045550101", 3, 50⟩],
        pos := 0 },
    reservations :=
      { isOpen := true,
        recs := [⟨"ABC-01-08", "QRS789", false, false⟩, ⟨"ABC-01-08", "XYZ123", false, true⟩],
        pos := 0 } }

/-- A reservation store with records of two sailings. -/
def mixed : RecFile Reservation :=
  { isOpen := true,
    recs := [⟨"ABC-01-08", "XYZ123", false, true⟩, ⟨"DEF-02-09", "XYZ123", false, true⟩,
             ⟨"ABC-01-08", "QRS789", false, false⟩, ⟨"DEF-02-09", "TALL001", true, false⟩],
    pos := 3 }

/-- A state with two sailings and one vehicle that is booked on both. -/
def twoSailings : Sys :=
  { vessels := { isOpen := true, recs := [⟨"Spirit", 200, 100⟩], pos := 0 },
    sailings :=
      { isOpen := true,
        recs := [⟨"ABC-01-08", "Spirit", 95, 200⟩, ⟨"DEF-02-09", "Spirit", 95, 200⟩],
        pos := 0 },
    vehicles := { isOpen := true, recs := [⟨"XYZ123", "6045550100", 3 / 2, 5⟩], pos := 0 },
    reservations :=
      { isOpen := true,
        recs := [⟨"ABC-01-08", "XYZ123", false, true⟩, ⟨"DEF-02-09", "XYZ123", false, true⟩],
        pos := 0 } }

/-- A file of two records of three bytes each, followed by two more bytes. -/
def ragged : ByteFile :=
  { isOpen := true, bytes := [1, 2, 3, 4, 5, 6, 7, 8], pos := 5 }

/-- Scenario A with the low lane at 13.2f, the float nearest to 13.2. -/
def scenarioF : Sys :=
  { vessels := { isOpen := true, recs := [⟨"Spirit", 200, 100⟩], pos := 0 },
    sailings :=
      { isOpen := true, recs := [⟨"ABC-01-08", "Spirit", 13841203 / 1048576, 200⟩], pos := 0 },
    vehicles := { isOpen := true, recs := [], pos := 0 },
    reservations := { isOpen := true, recs := [], pos := 0 } }

/-- The operator's entries for a vehicle of length 4.4 and height 1.5; the length is stored as
4.4f, the float nearest to 4.4. -/
def consoleF : Console :=
  { phoneNumber := "6045550104", vehicleLength := 9227469 / 2097152, vehicleHeight := 3 / 2,
    input := fun _ => .N }

/-- The operator's entries for a vehicle of length 50.3 and height 3; the length is stored as
50.3f, the float nearest to 50.3. -/
def consoleG : Console :=
  { phoneNumber := "6045550105", vehicleLength := 13185843 / 262144, vehicleHeight := 3,
    input := fun _ => .N }

/-- The operator's entries at a check-in of XYZ123 where the length is given as 6. -/
def consoleSix : Console :=
  { phoneNumber := "6045550100", vehicleLength := 6, vehicleHeight := 3 / 2,
    input := fun _ => .N }

/-- The state `bookedA` after the check-in of (ABC-01-08, XYZ123) with the entries of
`consoleSix`: the licence XYZ123 has a record of length 5 and a record of length 6. -/
def twoLengths : Sys :=
  { vessels := { isOpen := true, recs := [⟨"Spirit", 200, 100⟩], pos := 0 },
    sailings := { isOpen := true, recs := [⟨"ABC-01-08", "Spirit", 89, 200⟩], pos := 1 },
    vehicles :=
      { isOpen := true,
        recs := [⟨"XYZ123", "6045550100", 3 / 2, 5⟩, junk, ⟨"XYZ123", "6045550100", 3 / 2, 6⟩],
        pos := 3 },
    reservations :=
      { isOpen := true,
        recs := [⟨"ABC-01-08", "XYZ123", false, true⟩, ⟨"ABC-01-08", "XYZ123", true, true⟩],
        pos := 1 } }

/-- The state `tallOnFile` after the booking of the new licence XYZ123: the vehicle store holds
TALL001 twice. -/
def tallTwice : Sys :=
  { vessels := { isOpen := true, recs := [⟨"Spirit", 200, 100⟩], pos := 0 },
    sailings := { isOpen := true, recs := [⟨"ABC-01-08", "Spirit", 95, 200⟩], pos := 1 },
    vehicles :=
      { isOpen := true,
        recs := [⟨"TALL001", "6045550102", 3, 5⟩, ⟨"XYZ123", "6045550100", 3 / 2, 5⟩,
                 ⟨"TALL001", "6045550102", 3, 5⟩],
        pos := 3 },
    reservations :=
      { isOpen := true, recs := [⟨"ABC-01-08", "XYZ123", false, true⟩], pos := 1 } }

/-- What an operator types at the fare prompts of `checkIn`: 7.1 (stored as 7.1f) and then 20
for the length, 2.1 (stored as 2.1f) and then 4 for the height. -/
def typedFare (k : Nat) : ℚ :=
  [14889779 / 2097152, 20, 4404019 / 2097152, 4].getD k 0

/-! ## Float rounding -/

theorem roundEven_nonneg (x : ℚ) (hx : 0 ≤ x) : 0 ≤ roundEven x := by
  have hf : 0 ≤ ⌊x⌋ := Int.floor_nonneg.mpr hx
  unfold roundEven
  split
  · exact hf
  · split
    · omega
    · split
      · exact hf
      · omega

@[simp] theorem f32_zero : f32 0 = 0 := by simp [f32]

theorem roundEven_intCast (n : ℤ) : roundEven (n : ℚ) = n := by
  simp [roundEven]

theorem f32_of_isFloat (x : ℚ) (hx : IsFloat x) : f32 x = x := by
  obtain ⟨m, e, hm, he, rfl⟩ := hx
  by_cases h0 : (m : ℚ) * 2 ^ e = 0
  · simp [f32, h0]
  have h2 : (0 : ℚ) < 2 ^ e := zpow_pos (by norm_num) _
  have hpos : (0 : ℚ) < |(m : ℚ) * 2 ^ e| := abs_pos.mpr h0
  have hlt : |(m : ℚ) * 2 ^ e| < ((2 : ℕ) : ℚ) ^ (24 + e) := by
    rw [abs_mul, abs_of_pos h2, zpow_add₀ (by norm_num)]
    have : |(m : ℚ)| < 2 ^ (24 : ℤ) := by
      have := (Int.cast_lt (R := ℚ)).mpr hm
      rw [Int.cast_abs] at this
      norm_num at this ⊢
      exact this
    push_cast
    exact mul_lt_mul_of_pos_right this h2
  have hlog : Int.log 2 |(m : ℚ) * 2 ^ e| < 24 + e :=
    (Int.lt_zpow_iff_log_lt (by norm_num) hpos).mp hlt
  have hbit : f32.lastBit ((m : ℚ) * 2 ^ e) ≤ e := by
    unfold f32.lastBit
    exact max_le (by omega) he
  obtain ⟨d, hd⟩ := Int.eq_ofNat_of_zero_le (sub_nonneg.mpr hbit)
  have hdiv : (m : ℚ) * 2 ^ e / 2 ^ f32.lastBit ((m : ℚ) * 2 ^ e) = ((m * 2 ^ d : ℤ) : ℚ) := by
    have he' : e = f32.lastBit ((m : ℚ) * 2 ^ e) + d := by omega
    rw [mul_div_assoc, ← zpow_sub₀ (by norm_num : (2 : ℚ) ≠ 0), hd]
    push_cast
    rw [zpow_natCast]
  unfold f32
  rw [if_neg h0, hdiv, roundEven_intCast]
  have he' : e = (d : ℤ) + f32.lastBit ((m : ℚ) * 2 ^ e) := by omega
  push_cast
  rw [mul_assoc, ← zpow_natCast, ← zpow_add₀ (by norm_num : (2 : ℚ) ≠ 0), ← he']

theorem f32_nonneg (x : ℚ) (hx : 0 ≤ x) : 0 ≤ f32 x := by
  unfold f32
  split
  · exact le_refl 0
  · have h2 : (0 : ℚ) < 2 ^ f32.lastBit x := zpow_pos (by norm_num) _
    exact mul_nonneg (Int.cast_nonneg.mpr (roundEven_nonneg _ (div_nonneg hx h2.le))) h2.le

@[simp] theorem f32_12 : f32 12 = 12 := by decide!

@[simp] theorem f32_15 : f32 15 = 15 := by decide!

@[simp] theorem f32_40 : f32 40 = 40 := by decide!

@[simp] theorem f32_50 : f32 50 = 50 := by decide!

@[simp] theorem f32_52 : f32 52 = 52 := by decide!

@[simp] theorem f32_60 : f32 60 = 60 := by decide!

@[simp] theorem f32_75 : f32 75 = 75 := by decide!

@[simp] theorem f32_83 : f32 83 = 83 := by decide!

@[simp] theorem f32_88 : f32 88 = 88 := by decide!

@[simp] theorem f32_89 : f32 89 = 89 := by decide!

@[simp] theorem f32_90 : f32 90 = 90 := by decide!

@[simp] theorem f32_95 : f32 95 = 95 := by decide!

@[simp] theorem f32_100 : f32 100 = 100 := by decide!

@[simp] theorem f32_105 : f32 105 = 105 := by decide!

@[simp] theorem f32_110 : f32 110 = 110 := by decide!

@[simp] theorem f32_150 : f32 150 = 150 := by decide!

@[simp] theorem f32_190 : f32 190 = 190 := by decide!

@[simp] theorem f32_195 : f32 195 = 195 := by decide!

@[simp] theorem f32_200 : f32 200 = 200 := by decide!

@[simp] theorem f32_low_13_2_minus_4_4 : f32 (18454937 / 2097152) = 2306867 / 262144 := by
  decide!

@[simp] theorem f32_high_200_minus_50_3 : f32 (39242957 / 262144) = 9810739 / 65536 := by
  decide!

@[simp] theorem f32_twice_7_3 : f32 (7654605 / 524288) = 7654605 / 524288 := by decide!

@[simp] theorem f32_thrice_2_2 : f32 (27682407 / 4194304) = 3460301 / 524288 := by decide!

@[simp] theorem f32_fare_7_3_2_2 : f32 (5557453 / 262144) = 5557453 / 262144 := by decide!

/-! ## Search loops and swap-delete on lists -/

theorem scanFor_eq_none_iff {α : Type} (p : α → Bool) (l : List α) :
    scanFor p l = none ↔ ∀ y ∈ l, p y = false := by
  induction l with
  | nil => simp [scanFor]
  | cons r rest ih =>
    by_cases hr : p r = true
    · simp [scanFor, hr]
    · cases hs : scanFor p rest with
      | none => simpa [scanFor, hr, hs] using ih.mp hs
      | some ix =>
        have : ¬ ∀ y ∈ rest, p y = false := fun h => by simp [ih.mpr h] at hs
        simp [scanFor, hr, hs]
        simpa using this

theorem scanFor_eq_some_iff {α : Type} (p : α → Bool) (l : List α) (i : Nat) (x : α) :
    scanFor p l = some (i, x) ↔
      ∃ a b, l = a ++ x :: b ∧ a.length = i ∧ p x = true ∧ ∀ y ∈ a, p y = false := by
  induction l generalizing i with
  | nil => simp [scanFor]
  | cons r rest ih =>
    by_cases hr : p r = true
    · constructor
      · intro h
        simp [scanFor, hr] at h
        obtain ⟨rfl, rfl⟩ := h
        exact ⟨[], rest, by simp, rfl, hr, by simp⟩
      · rintro ⟨a, b, hl, hlen, hx, ha⟩
        cases a with
        | nil =>
          simp at hl hlen
          obtain ⟨rfl, rfl⟩ := hl
          simp [scanFor, hr, hlen]
        | cons a0 a1 =>
          simp at hl
          have := ha a0 (by simp)
          rw [← hl.1] at this
          simp [this] at hr
    · have hr' : p r = false := by simpa using hr
      constructor
      · intro h
        cases hs : scanFor p rest with
        | none => simp [scanFor, hr', hs] at h
        | some jy =>
          obtain ⟨j, y⟩ := jy
          simp [scanFor, hr', hs] at h
          obtain ⟨rfl, rfl⟩ := h
          obtain ⟨a, b, hl, hlen, hx, ha⟩ := (ih j).mp hs
          refine ⟨r :: a, b, by simp [hl], by simp [hlen], hx, ?_⟩
          intro z hz
          rcases List.mem_cons.mp hz with rfl | hz
          · exact hr'
          · exact ha z hz
      · rintro ⟨a, b, hl, hlen, hx, ha⟩
        cases a with
        | nil =>
          simp at hl
          rw [← hl.1] at hx
          simp [hx] at hr
        | cons a0 a1 =>
          simp at hl hlen
          have hrest : scanFor p rest = some (a1.length, x) :=
            (ih a1.length).mpr ⟨a1, b, hl.2, rfl, hx, fun z hz => ha z (by simp [hz])⟩
          simp [scanFor, hr', hrest, hlen]


theorem swapDelete_perm {α : Type} (a b : List α) (x lastRecord : α)
    (hlast : (a ++ x :: b).get? ((a ++ x :: b).length - 1) = some lastRecord) :
    (((a ++ x :: b).take a.length ++ lastRecord :: (a ++ x :: b).drop (a.length + 1)).take
      ((a ++ x :: b).length - 1)).Perm (a ++ b) := by
  have h1 : (a ++ x :: b).take a.length = a := by simp
  have h2 : (a ++ x :: b).drop (a.length + 1) = b := by simp
  rw [h1, h2]
  have h3 : (a ++ x :: b).length - 1 = a.length + b.length := by simp
  rw [h3, List.take_append]
  apply List.Perm.append_left
  rcases List.eq_nil_or_concat b with rfl | ⟨b', z, rfl⟩
  · simp
  · have hz : lastRecord = z := by
      have : (a ++ x :: b'.concat z) = (a ++ x :: b') ++ [z] := by simp
      rw [h3, this] at hlast
      rw [List.get?_eq_getElem?, List.getElem?_append_right (by simp)] at hlast
      simp at hlast
      exact hlast.symm
    subst hz
    simp only [List.concat_eq_append, List.length_append, List.length_singleton]
    rw [show lastRecord :: (b' ++ [lastRecord]) = (lastRecord :: b') ++ [lastRecord] by simp,
      show b'.length + 1 = (lastRecord :: b').length by simp, List.take_left']
    · exact (List.perm_append_singleton lastRecord b').symm
    · rfl

/-! ## deleteSailing -/

theorem deleteSailing_of_split (K : String) (f : RecFile Sailing) (a b : List Sailing)
    (x : Sailing) (hopen : f.isOpen = true) (hl : f.recs = a ++ x :: b)
    (hx : x.sailingID = K) (ha : ∀ y ∈ a, y.sailingID ≠ K) :
    ∃ lastRecord, (a ++ x :: b).get? ((a ++ x :: b).length - 1) = some lastRecord ∧
      deleteSailing K f =
        (.ok (), { isOpen := true,
                   recs := ((a ++ x :: b).take a.length ++
                     lastRecord :: (a ++ x :: b).drop (a.length + 1)).take
                       ((a ++ x :: b).length - 1),
                   pos := 0 }) := by
  have hscan : scanFor (fun temp : Sailing => decide (temp.sailingID = K)) f.recs
      = some (a.length, x) := by
    rw [scanFor_eq_some_iff]
    exact ⟨a, b, hl, rfl, by simpa using hx, fun y hy => by simpa using ha y hy⟩
  have hlen : f.recs.length ≠ 0 := by simp [hl]
  obtain ⟨lastRecord, hlast⟩ : ∃ r, f.recs.get? (f.recs.length - 1) = some r := by
    rw [List.get?_eq_getElem?]
    exact ⟨_, List.getElem?_eq_getElem (by omega)⟩
  refine ⟨lastRecord, by rw [← hl]; exact hlast, ?_⟩
  simp only [deleteSailing, hopen, if_true, hlen, if_false, hscan, hlast,
    RecFile.overwriteWithLast, RecFile.put, RecFile.truncateReopen]
  rw [hl]

theorem deleteSailing_of_absent (K : String) (f : RecFile Sailing)
    (h : ∀ y ∈ f.recs, y.sailingID ≠ K) :
    ∃ e f', deleteSailing K f = (.error e, f') ∧ f'.recs = f.recs ∧ f'.isOpen = f.isOpen := by
  have hscan : scanFor (fun temp : Sailing => decide (temp.sailingID = K)) f.recs = none := by
    rw [scanFor_eq_none_iff]
    intro y hy
    simpa using h y hy
  by_cases hopen : f.isOpen = true
  · by_cases hlen : f.recs.length = 0
    · have heq : deleteSailing K f = (.error .noRecords, { f with pos := f.recs.length }) := by
        simp only [deleteSailing, hopen, if_true, hlen]
      exact ⟨_, _, heq, rfl, rfl⟩
    · have heq : deleteSailing K f = (.error .notFound, { f with pos := f.recs.length }) := by
        simp only [deleteSailing, hopen, if_true, hlen, if_false, hscan]
      exact ⟨_, _, heq, rfl, rfl⟩
  · have heq : deleteSailing K f = (.error .notOpen, f) := by
      simp only [deleteSailing, hopen]
      rfl
    exact ⟨_, _, heq, rfl, rfl⟩

theorem split_of_key_mem {α κ : Type} (key : α → κ) (l : List α) (K : κ)
    (hnd : (l.map key).Nodup) (hK : K ∈ l.map key) :
    ∃ a x b, l = a ++ x :: b ∧ key x = K ∧ (∀ y ∈ a, key y ≠ K) ∧ (∀ y ∈ b, key y ≠ K) := by
  obtain ⟨x, hx, hkx⟩ := List.mem_map.mp hK
  obtain ⟨a, b, rfl⟩ := List.append_of_mem hx
  refine ⟨a, x, b, rfl, hkx, ?_, ?_⟩
  · intro y hy hky
    rw [List.map_append, List.map_cons, List.nodup_append] at hnd
    exact hnd.2.2 (List.mem_map.mpr ⟨y, hy, hky⟩) (by simp [hkx])
  · intro y hy hky
    rw [List.map_append, List.map_cons, List.nodup_append] at hnd
    have := (List.nodup_cons.mp hnd.2.1).1
    exact this (List.mem_map.mpr ⟨y, hy, by rw [hky, hkx]⟩)

theorem filter_ne_of_split {α κ : Type} [DecidableEq κ] (key : α → κ) (a b : List α) (x : α)
    (K : κ) (hx : key x = K) (ha : ∀ y ∈ a, key y ≠ K) (hb : ∀ y ∈ b, key y ≠ K) :
    (a ++ x :: b).filter (fun y => decide (key y ≠ K)) = a ++ b := by
  rw [List.filter_append, List.filter_cons]
  have h1 : a.filter (fun y => decide (key y ≠ K)) = a :=
    List.filter_eq_self.mpr (fun y hy => by simpa using ha y hy)
  have h2 : b.filter (fun y => decide (key y ≠ K)) = b :=
    List.filter_eq_self.mpr (fun y hy => by simpa using hb y hy)
  rw [h1, h2]
  simp [hx]

/-- **C5.** On an open sailing store whose records have pairwise-distinct sailingIDs and
hold the ID `K` (so the store has N ≥ 1 records), `deleteSailing K` succeeds and leaves N − 1
records: they are, up to order, exactly the original records whose ID is not `K`, each once and
unchanged, and their IDs are again pairwise distinct and are the original IDs other than `K`. -/
theorem deleteSailing_swap_delete (K : String) (f : RecFile Sailing)
    (hopen : f.isOpen = true) (hnd : (f.recs.map Sailing.sailingID).Nodup)
    (hK : K ∈ f.recs.map Sailing.sailingID) :
    ∃ f', deleteSailing K f = (.ok (), f') ∧
      1 ≤ f.recs.length ∧
      f'.recs.length = f.recs.length - 1 ∧
      f'.recs.Perm (f.recs.filter (fun s => decide (s.sailingID ≠ K))) ∧
      (f'.recs.map Sailing.sailingID).Nodup ∧
      (∀ s, s ∈ f'.recs ↔ s ∈ f.recs ∧ s.sailingID ≠ K) ∧
      (∀ id, id ∈ f'.recs.map Sailing.sailingID ↔ id ∈ f.recs.map Sailing.sailingID ∧ id ≠ K) := by
  obtain ⟨a, x, b, hl, hx, ha, hb⟩ := split_of_key_mem Sailing.sailingID f.recs K hnd hK
  obtain ⟨lastRecord, hlast, hdel⟩ := deleteSailing_of_split K f a b x hopen hl hx ha
  have hperm := swapDelete_perm a b x lastRecord hlast
  have hfilter := filter_ne_of_split Sailing.sailingID a b x K hx ha hb
  refine ⟨_, hdel, by simp [hl]; omega, ?_, ?_, ?_, ?_, ?_⟩
  · rw [hperm.length_eq, hl]
    simp
  · rw [hl, hfilter]
    exact hperm
  · have hsub : (a ++ b).Sublist (a ++ x :: b) :=
      List.Sublist.append_left (List.sublist_cons_self x b) a
    have : ((a ++ b).map Sailing.sailingID).Nodup := (hl ▸ hnd).sublist (hsub.map _)
    exact ((hperm.map Sailing.sailingID).nodup_iff).mpr this
  · intro s
    rw [hperm.mem_iff, ← hfilter, ← hl]
    simp
  · intro id
    rw [(hperm.map Sailing.sailingID).mem_iff, ← hfilter, ← hl]
    simp only [List.mem_map, List.mem_filter, decide_eq_true_eq]
    constructor
    · rintro ⟨s, ⟨hs, hne⟩, rfl⟩
      exact ⟨⟨s, hs, rfl⟩, hne⟩
    · rintro ⟨⟨s, hs, rfl⟩, hne⟩
      exact ⟨s, ⟨hs, hne⟩, rfl⟩

/-- Witness for C5: deleting the first of the three sailings of `fleet`. -/
theorem deleteSailing_swap_delete_witness :
    fleet.isOpen = true ∧ (fleet.recs.map Sailing.sailingID).Nodup ∧
    "ABC-01-08" ∈ fleet.recs.map Sailing.sailingID ∧
    ∃ f', deleteSailing "ABC-01-08" fleet = (.ok (), f') ∧
      1 ≤ fleet.recs.length ∧
      f'.recs.length = fleet.recs.length - 1 ∧
      f'.recs.Perm (fleet.recs.filter (fun s => decide (s.sailingID ≠ "ABC-01-08"))) ∧
      (f'.recs.map Sailing.sailingID).Nodup ∧
      (∀ s, s ∈ f'.recs ↔ s ∈ fleet.recs ∧ s.sailingID ≠ "ABC-01-08") ∧
      (∀ id, id ∈ f'.recs.map Sailing.sailingID ↔
        id ∈ fleet.recs.map Sailing.sailingID ∧ id ≠ "ABC-01-08") :=
  ⟨rfl, by decide, by decide,
    deleteSailing_swap_delete "ABC-01-08" fleet rfl (by decide) (by decide)⟩

/-! ## deleteReservation -/

theorem release_reservations (sailingID vehicleLicence : String) (st : Sys) :
    (deleteReservation.release sailingID vehicleLicence st).2.reservations = st.reservations := by
  unfold deleteReservation.release
  repeat' split
  all_goals rfl

theorem release_of_split (sailingID vehicleLicence : String) (st : Sys)
    (a b : List Sailing) (s : Sailing) (c d : List Vehicle) (v : Vehicle)
    (hso : st.sailings.isOpen = true) (hvo : st.vehicles.isOpen = true)
    (hs : st.sailings.recs = a ++ s :: b) (hsid : s.sailingID = sailingID)
    (ha : ∀ y ∈ a, y.sailingID ≠ sailingID)
    (hv : st.vehicles.recs = c ++ v :: d) (hlic : v.vehicleLicence = vehicleLicence)
    (hc : ∀ y ∈ c, y.vehicleLicence ≠ vehicleLicence) :
    ∃ R : List Sailing, R.Perm (a ++ b) ∧
      deleteReservation.release sailingID vehicleLicence st =
        (.ok (), { st with
          sailings := { isOpen := true, recs := deleteReservation.credit v s :: R.drop 1, pos := 1 },
          vehicles := { st.vehicles with pos := c.length + 1 } }) := by
  have hscanS : scanFor (fun t : Sailing => decide (t.sailingID = sailingID)) st.sailings.recs
      = some (a.length, s) := by
    rw [scanFor_eq_some_iff]
    exact ⟨a, b, hs, rfl, by simpa using hsid, fun y hy => by simpa using ha y hy⟩
  have hscanV : scanFor (fun t : Vehicle => decide (t.vehicleLicence = vehicleLicence))
      st.vehicles.recs = some (c.length, v) := by
    rw [scanFor_eq_some_iff]
    exact ⟨c, d, hv, rfl, by simpa using hlic, fun y hy => by simpa using hc y hy⟩
  obtain ⟨lastRecord, hlast, hdel⟩ :=
    deleteSailing_of_split s.sailingID
      { isOpen := true, recs := st.sailings.recs, pos := a.length + 1 } a b s rfl hs rfl
      (fun y hy => by rw [hsid]; exact ha y hy)
  refine ⟨_, swapDelete_perm a b s lastRecord hlast, ?_⟩
  simp only [deleteReservation.release, sailingReset, vehicleReset, RecFile.reset, hso, hvo,
    if_true, hscanS, hscanV, hdel, writeSailing, RecFile.put, List.take_zero, List.nil_append,
    Nat.zero_add]

theorem key_pred_iff (r : Reservation) (sailingID vehicleLicence : String) :
    (decide (r.sailingID = sailingID) && decide (r.vehicleLicence = vehicleLicence)) = true ↔
      r.key = (sailingID, vehicleLicence) := by
  simp [Reservation.key, Prod.ext_iff]

theorem deleteReservation_of_split (sailingID vehicleLicence : String) (st : Sys)
    (a b : List Reservation) (r : Reservation) (hopen : st.reservations.isOpen = true)
    (hl : st.reservations.recs = a ++ r :: b) (hr : r.key = (sailingID, vehicleLicence))
    (ha : ∀ y ∈ a, y.key ≠ (sailingID, vehicleLicence)) :
    ∃ lastRecord, (a ++ r :: b).get? ((a ++ r :: b).length - 1) = some lastRecord ∧
      deleteReservation sailingID vehicleLicence st =
        match deleteReservation.release sailingID vehicleLicence
            { st with reservations :=
                { isOpen := true,
                  recs := (a ++ r :: b).take a.length ++
                    lastRecord :: (a ++ r :: b).drop (a.length + 1),
                  pos := a.length + 1 } } with
        | (.error e, st) => (.error e, st)
        | (.ok _, st) =>
          (.ok (), { st with
            reservations := st.reservations.truncateReopen (a ++ r :: b).length }) := by
  have hscan : scanFor (fun temp : Reservation => decide (temp.sailingID = sailingID) &&
      decide (temp.vehicleLicence = vehicleLicence)) st.reservations.recs = some (a.length, r) := by
    rw [scanFor_eq_some_iff]
    refine ⟨a, b, hl, rfl, (key_pred_iff r _ _).mpr hr, fun y hy => ?_⟩
    exact Bool.eq_false_iff.mpr (mt (key_pred_iff y _ _).mp (ha y hy))
  have hlen : st.reservations.recs.length ≠ 0 := by simp [hl]
  obtain ⟨lastRecord, hlast⟩ :
      ∃ x, st.reservations.recs.get? (st.reservations.recs.length - 1) = some x := by
    rw [List.get?_eq_getElem?]
    exact ⟨_, List.getElem?_eq_getElem (by omega)⟩
  refine ⟨lastRecord, by rw [← hl]; exact hlast, ?_⟩
  simp only [deleteReservation, hopen, if_true, hlen, if_false, hscan, hlast,
    RecFile.overwriteWithLast, RecFile.put]
  rw [hl]

theorem deleteReservation_of_absent (sailingID vehicleLicence : String) (st : Sys)
    (h : ∀ y ∈ st.reservations.recs, y.key ≠ (sailingID, vehicleLicence)) :
    ∃ e st', deleteReservation sailingID vehicleLicence st = (.error e, st') ∧
      st'.reservations.recs = st.reservations.recs ∧ st'.sailings = st.sailings ∧
      st'.vehicles = st.vehicles ∧ st'.vessels = st.vessels := by
  have hscan : scanFor (fun temp : Reservation => decide (temp.sailingID = sailingID) &&
      decide (temp.vehicleLicence = vehicleLicence)) st.reservations.recs = none := by
    rw [scanFor_eq_none_iff]
    intro y hy
    exact Bool.eq_false_iff.mpr (mt (key_pred_iff y _ _).mp (h y hy))
  by_cases hopen : st.reservations.isOpen = true
  · by_cases hlen : st.reservations.recs.length = 0
    · have heq : deleteReservation sailingID vehicleLicence st = (.error .noRecords,
          { st with reservations := { st.reservations with pos := st.reservations.recs.length } }) := by
        simp only [deleteReservation, hopen, if_true, hlen]
      exact ⟨_, _, heq, rfl, rfl, rfl, rfl⟩
    · have heq : deleteReservation sailingID vehicleLicence st = (.error .notFound,
          { st with reservations := { st.reservations with pos := st.reservations.recs.length } }) := by
        simp only [deleteReservation, hopen, if_true, hlen, if_false, hscan]
      exact ⟨_, _, heq, rfl, rfl, rfl, rfl⟩
  · have heq : deleteReservation sailingID vehicleLicence st = (.error .notOpen, st) := by
      simp only [deleteReservation, hopen]
      rfl
    exact ⟨_, _, heq, rfl, rfl, rfl, rfl⟩

theorem split_first {α : Type} (p : α → Bool) (l : List α) (h : ∃ x ∈ l, p x = true) :
    ∃ a x b, l = a ++ x :: b ∧ p x = true ∧ ∀ y ∈ a, p y = false := by
  cases hs : scanFor p l with
  | none =>
    obtain ⟨x, hx, hpx⟩ := h
    have := (scanFor_eq_none_iff p l).mp hs x hx
    simp [this] at hpx
  | some ix =>
    obtain ⟨i, x⟩ := ix
    obtain ⟨a, b, hl, -, hx, ha⟩ := (scanFor_eq_some_iff p l i x).mp hs
    exact ⟨a, x, b, hl, hx, ha⟩

/-- **C7.** When the store is empty or holds no record with the given key, `deleteSailing`
and `deleteReservation` each fail with an error and leave the sequence of records of their
store exactly as it was. -/
theorem delete_missing_key_fails (K : String) (f : RecFile Sailing)
    (sailingID vehicleLicence : String) (st : Sys)
    (hf : f.recs = [] ∨ ∀ s ∈ f.recs, s.sailingID ≠ K)
    (hst : st.reservations.recs = [] ∨
      ∀ r ∈ st.reservations.recs, r.key ≠ (sailingID, vehicleLicence)) :
    (∃ e f', deleteSailing K f = (.error e, f') ∧ f'.recs = f.recs) ∧
    (∃ e st', deleteReservation sailingID vehicleLicence st = (.error e, st') ∧
      st'.reservations.recs = st.reservations.recs) := by
  constructor
  · have h : ∀ s ∈ f.recs, s.sailingID ≠ K := by
      rcases hf with h | h
      · simp [h]
      · exact h
    obtain ⟨e, f', h1, h2, -⟩ := deleteSailing_of_absent K f h
    exact ⟨e, f', h1, h2⟩
  · have h : ∀ r ∈ st.reservations.recs, r.key ≠ (sailingID, vehicleLicence) := by
      rcases hst with h | h
      · simp [h]
      · exact h
    obtain ⟨e, st', h1, h2, -⟩ := deleteReservation_of_absent sailingID vehicleLicence st h
    exact ⟨e, st', h1, h2⟩

/-- Witness for C7: a sailing ID that `fleet` does not hold, and a licence without a
reservation in `booked`. -/
theorem delete_missing_key_fails_witness :
    (fleet.recs = [] ∨ ∀ s ∈ fleet.recs, s.sailingID ≠ "ZZZ-09-09") ∧
    (booked.reservations.recs = [] ∨
      ∀ r ∈ booked.reservations.recs, r.key ≠ ("ABC-01-08", "NOPE000")) ∧
    (∃ e f', deleteSailing "ZZZ-09-09" fleet = (.error e, f') ∧ f'.recs = fleet.recs) ∧
    (∃ e st', deleteReservation "ABC-01-08" "NOPE000" booked = (.error e, st') ∧
      st'.reservations.recs = booked.reservations.recs) :=
  have h1 : fleet.recs = [] ∨ ∀ s ∈ fleet.recs, s.sailingID ≠ "ZZZ-09-09" :=
    Or.inr (by decide)
  have h2 : booked.reservations.recs = [] ∨
      ∀ r ∈ booked.reservations.recs, r.key ≠ ("ABC-01-08", "NOPE000") :=
    Or.inr (by decide)
  ⟨h1, h2, delete_missing_key_fails "ZZZ-09-09" fleet "ABC-01-08" "NOPE000" booked h1 h2⟩

/-- Counterexample to C6 as stated: in `orphaned` the reservation store holds N = 2 records
with distinct keys, one of them (ABC-01-08, XYZ123), and the sailing store holds no sailing
ABC-01-08.  `deleteReservation` throws "Failed getting sailing" after it has overwritten the
slot and before it truncates: the store still holds 2 records, not N − 1 = 1, and the last
record occurs twice.  In `vehicleMissing` the sailing is on file and the vehicle is not: the
throw is "Failed getting vehicle information for cancellation", with the same outcome. -/
theorem deleteReservation_orphaned_counterexample :
    (orphaned.reservations.recs.map Reservation.key).Nodup ∧
    ("ABC-01-08", "XYZ123") ∈ orphaned.reservations.recs.map Reservation.key ∧
    (deleteReservation "ABC-01-08" "XYZ123" orphaned).1 = .error .failedGettingSailing ∧
    (deleteReservation "ABC-01-08" "XYZ123" orphaned).2.reservations.recs =
      [⟨"ABC-01-08", "QRS789", false, false⟩, ⟨"ABC-01-08", "QRS789", false, false⟩] ∧
    (deleteReservation "ABC-01-08" "XYZ123" orphaned).2.reservations.recs.length ≠
      orphaned.reservations.recs.length - 1 ∧
    (vehicleMissing.reservations.recs.map Reservation.key).Nodup ∧
    ("ABC-01-08", "XYZ123") ∈ vehicleMissing.reservations.recs.map Reservation.key ∧
    (deleteReservation "ABC-01-08" "XYZ123" vehicleMissing).1 = .error .failedGettingVehicle ∧
    (deleteReservation "ABC-01-08" "XYZ123" vehicleMissing).2.reservations.recs =
      [⟨"ABC-01-08", "QRS789", false, false⟩, ⟨"ABC-01-08", "QRS789", false, false⟩] := by
  exact ⟨by decide, by decide, rfl, by decide, by decide, by decide, by decide, rfl, by decide⟩

/-- **C6 (amended).** On an open reservation store whose records have pairwise-distinct
(sailingID, vehicleLicence) keys and hold the key `K` (so N ≥ 1), with the sailing store open
and holding a sailing with `K`'s sailingID and the vehicle store open and holding a vehicle with
`K`'s licence, `deleteReservation K` succeeds and leaves N − 1 reservation records: up to order
exactly the original records whose key is not `K`, each once, with pairwise-distinct keys, `K`
absent. -/
theorem deleteReservation_swap_delete (sailingID vehicleLicence : String) (st : Sys)
    (hopen : st.reservations.isOpen = true)
    (hnd : (st.reservations.recs.map Reservation.key).Nodup)
    (hK : (sailingID, vehicleLicence) ∈ st.reservations.recs.map Reservation.key)
    (hso : st.sailings.isOpen = true)
    (hs : sailingID ∈ st.sailings.recs.map Sailing.sailingID)
    (hvo : st.vehicles.isOpen = true)
    (hv : vehicleLicence ∈ st.vehicles.recs.map Vehicle.vehicleLicence) :
    ∃ st', deleteReservation sailingID vehicleLicence st = (.ok (), st') ∧
      1 ≤ st.reservations.recs.length ∧
      st'.reservations.recs.length = st.reservations.recs.length - 1 ∧
      st'.reservations.recs.Perm
        (st.reservations.recs.filter
          (fun r => decide (r.key ≠ (sailingID, vehicleLicence)))) ∧
      (st'.reservations.recs.map Reservation.key).Nodup ∧
      (sailingID, vehicleLicence) ∉ st'.reservations.recs.map Reservation.key ∧
      (∀ k, k ∈ st'.reservations.recs.map Reservation.key ↔
        k ∈ st.reservations.recs.map Reservation.key ∧ k ≠ (sailingID, vehicleLicence)) := by
  obtain ⟨a, r, b, hl, hr, ha, hb⟩ :=
    split_of_key_mem Reservation.key st.reservations.recs _ hnd hK
  obtain ⟨lastRecord, hlast, hdel⟩ :=
    deleteReservation_of_split sailingID vehicleLicence st a b r hopen hl hr ha
  obtain ⟨sa, s, sb, hsl, hsid, hsa⟩ :=
    split_first (fun t : Sailing => decide (t.sailingID = sailingID)) st.sailings.recs
      (by obtain ⟨s, hs1, hs2⟩ := List.mem_map.mp hs; exact ⟨s, hs1, by simpa using hs2⟩)
  obtain ⟨va, v, vb, hvl, hlic, hva⟩ :=
    split_first (fun t : Vehicle => decide (t.vehicleLicence = vehicleLicence)) st.vehicles.recs
      (by obtain ⟨v, hv1, hv2⟩ := List.mem_map.mp hv; exact ⟨v, hv1, by simpa using hv2⟩)
  obtain ⟨R, -, hrel⟩ := release_of_split sailingID vehicleLicence
    { st with reservations :=
        { isOpen := true,
          recs := (a ++ r :: b).take a.length ++ lastRecord :: (a ++ r :: b).drop (a.length + 1),
          pos := a.length + 1 } }
    sa sb s va vb v hso hvo hsl (by simpa using hsid)
    (fun y hy => by simpa using hsa y hy) hvl (by simpa using hlic)
    (fun y hy => by simpa using hva y hy)
  rw [hrel] at hdel
  have hperm := swapDelete_perm a b r lastRecord hlast
  have hfilter := filter_ne_of_split Reservation.key a b r _ hr ha hb
  have hrecs : ∀ k, k ∈ (List.take ((a ++ r :: b).length - 1)
      (List.take a.length (a ++ r :: b) ++
        lastRecord :: List.drop (a.length + 1) (a ++ r :: b))).map Reservation.key ↔
      k ∈ st.reservations.recs.map Reservation.key ∧ k ≠ (sailingID, vehicleLicence) := by
    intro k
    rw [(hperm.map Reservation.key).mem_iff, ← hfilter, ← hl]
    simp only [List.mem_map, List.mem_filter, decide_eq_true_eq]
    constructor
    · rintro ⟨x, ⟨hx, hne⟩, rfl⟩
      exact ⟨⟨x, hx, rfl⟩, hne⟩
    · rintro ⟨⟨x, hx, rfl⟩, hne⟩
      exact ⟨x, ⟨hx, hne⟩, rfl⟩
  refine ⟨_, hdel, by simp [hl]; omega, ?_, ?_, ?_, ?_, hrecs⟩
  · simp only [RecFile.truncateReopen]
    rw [hperm.length_eq, hl]
    simp
  · simp only [RecFile.truncateReopen]
    rw [hl, hfilter]
    exact hperm
  · simp only [RecFile.truncateReopen]
    have hsub : (a ++ b).Sublist (a ++ r :: b) :=
      List.Sublist.append_left (List.sublist_cons_self r b) a
    have : ((a ++ b).map Reservation.key).Nodup := (hl ▸ hnd).sublist (hsub.map _)
    exact ((hperm.map Reservation.key).nodup_iff).mpr this
  · simp only [RecFile.truncateReopen]
    intro hmem
    exact ((hrecs _).mp hmem).2 rfl

/-- Witness for the amended C6: cancelling (ABC-01-08, XYZ123) in `booked`. -/
theorem deleteReservation_swap_delete_witness :
    booked.reservations.isOpen = true ∧
    (booked.reservations.recs.map Reservation.key).Nodup ∧
    ("ABC-01-08", "XYZ123") ∈ booked.reservations.recs.map Reservation.key ∧
    booked.sailings.isOpen = true ∧
    "ABC-01-08" ∈ booked.sailings.recs.map Sailing.sailingID ∧
    booked.vehicles.isOpen = true ∧
    "XYZ123" ∈ booked.vehicles.recs.map Vehicle.vehicleLicence ∧
    ∃ st', deleteReservation "ABC-01-08" "XYZ123" booked = (.ok (), st') ∧
      1 ≤ booked.reservations.recs.length ∧
      st'.reservations.recs.length = booked.reservations.recs.length - 1 ∧
      st'.reservations.recs.Perm
        (booked.reservations.recs.filter
          (fun r => decide (r.key ≠ ("ABC-01-08", "XYZ123")))) ∧
      (st'.reservations.recs.map Reservation.key).Nodup ∧
      ("ABC-01-08", "XYZ123") ∉ st'.reservations.recs.map Reservation.key ∧
      (∀ k, k ∈ st'.reservations.recs.map Reservation.key ↔
        k ∈ booked.reservations.recs.map Reservation.key ∧ k ≠ ("ABC-01-08", "XYZ123")) :=
  ⟨rfl, by decide, by decide, rfl, by decide, rfl, by decide,
    deleteReservation_swap_delete "ABC-01-08" "XYZ123" booked rfl (by decide) (by decide) rfl
      (by decide) rfl (by decide)⟩

/-! ## createReservation: the sailing loop and the rewrite -/

theorem sailingLoop_ok (sailingID : String) (isLRL : Bool) (L : ℚ) (l : List Sailing) :
    ∀ (acc : List Sailing) (found : Bool) (f : RecFile Sailing) (out : List Sailing)
      (found' : Bool) (f' : RecFile Sailing),
      createReservation.sailingLoop sailingID isLRL L l acc found f = (.ok (out, found'), f') →
      ∃ l', out = acc ++ l' ∧
        List.Forall₂ (fun s s' =>
          if s.sailingID = sailingID then createReservation.charge isLRL L s = .ok s'
          else s' = s) l l' ∧
        found' = (found || l.any (fun s => decide (s.sailingID = sailingID))) ∧
        f' = { f with pos := f.pos + l.length } := by
  induction l with
  | nil =>
    intro acc found f out found' f' h
    simp only [createReservation.sailingLoop, Prod.mk.injEq, Except.ok.injEq] at h
    obtain ⟨⟨rfl, rfl⟩, rfl⟩ := h
    exact ⟨[], by simp, List.Forall₂.nil, by simp, rfl⟩
  | cons s rest ih =>
    intro acc found f out found' f' h
    by_cases hs : s.sailingID = sailingID
    · cases hc : createReservation.charge isLRL L s with
      | error e => simp [createReservation.sailingLoop, hs, hc] at h
      | ok s' =>
        simp only [createReservation.sailingLoop, hs, if_true, hc] at h
        obtain ⟨l', rfl, hall, rfl, rfl⟩ := ih _ _ _ _ _ _ h
        refine ⟨s' :: l', by simp, List.Forall₂.cons (by simp [hs, hc]) hall, by simp [hs], ?_⟩
        simp [Nat.add_assoc, Nat.add_comm 1]
    · simp only [createReservation.sailingLoop, hs, if_false] at h
      obtain ⟨l', rfl, hall, rfl, rfl⟩ := ih _ _ _ _ _ _ h
      refine ⟨s :: l', by simp, List.Forall₂.cons (by simp [hs]) hall, by simp [hs], ?_⟩
      simp [Nat.add_assoc, Nat.add_comm 1]

theorem sailingLoop_error (sailingID : String) (isLRL : Bool) (L : ℚ) (l : List Sailing)
    (hbad : ∃ s ∈ l, s.sailingID = sailingID ∧
      ∃ e, createReservation.charge isLRL L s = .error e) :
    ∀ (acc : List Sailing) (found : Bool) (f : RecFile Sailing),
      ∃ e f', createReservation.sailingLoop sailingID isLRL L l acc found f = (.error e, f') ∧
        f'.recs = f.recs ∧ f'.isOpen = f.isOpen := by
  induction l with
  | nil => simp at hbad
  | cons s rest ih =>
    intro acc found f
    by_cases hs : s.sailingID = sailingID
    · cases hc : createReservation.charge isLRL L s with
      | error e =>
        have heq : createReservation.sailingLoop sailingID isLRL L (s :: rest) acc found f =
            (.error e, { f with pos := f.pos + 1 }) := by
          simp only [createReservation.sailingLoop, hs, if_true, hc]
        exact ⟨e, _, heq, rfl, rfl⟩
      | ok s' =>
        have hrest : ∃ t ∈ rest, t.sailingID = sailingID ∧
            ∃ e, createReservation.charge isLRL L t = .error e := by
          obtain ⟨t, ht, htid, e, hte⟩ := hbad
          rcases List.mem_cons.mp ht with rfl | ht
          · rw [hc] at hte
            cases hte
          · exact ⟨t, ht, htid, e, hte⟩
        obtain ⟨e, f', h1, h2, h3⟩ := ih hrest (acc ++ [s']) true { f with pos := f.pos + 1 }
        exact ⟨e, f', by simp only [createReservation.sailingLoop, hs, if_true, hc, h1], h2, h3⟩
    · have hrest : ∃ t ∈ rest, t.sailingID = sailingID ∧
          ∃ e, createReservation.charge isLRL L t = .error e := by
        obtain ⟨t, ht, htid, e, hte⟩ := hbad
        rcases List.mem_cons.mp ht with rfl | ht
        · exact absurd htid hs
        · exact ⟨t, ht, htid, e, hte⟩
      obtain ⟨e, f', h1, h2, h3⟩ := ih hrest (acc ++ [s]) found { f with pos := f.pos + 1 }
      exact ⟨e, f', by simp only [createReservation.sailingLoop, hs, if_false, h1], h2, h3⟩

theorem sailingLoop_succeeds (sailingID : String) (isLRL : Bool) (L : ℚ) (l : List Sailing)
    (hgood : ∀ s ∈ l, s.sailingID = sailingID →
      ∃ s', createReservation.charge isLRL L s = .ok s') :
    ∀ (acc : List Sailing) (found : Bool) (f : RecFile Sailing),
      ∃ out found' f',
        createReservation.sailingLoop sailingID isLRL L l acc found f = (.ok (out, found'), f') := by
  induction l with
  | nil =>
    intro acc found f
    exact ⟨_, _, _, rfl⟩
  | cons s rest ih =>
    intro acc found f
    have hrest : ∀ t ∈ rest, t.sailingID = sailingID →
        ∃ t', createReservation.charge isLRL L t = .ok t' :=
      fun t ht => hgood t (List.mem_cons_of_mem _ ht)
    by_cases hs : s.sailingID = sailingID
    · obtain ⟨s', hc⟩ := hgood s (List.mem_cons_self _ _) hs
      obtain ⟨out, found', f', h⟩ := ih hrest (acc ++ [s']) true { f with pos := f.pos + 1 }
      exact ⟨out, found', f', by simp only [createReservation.sailingLoop, hs, if_true, hc, h]⟩
    · obtain ⟨out, found', f', h⟩ := ih hrest (acc ++ [s]) found { f with pos := f.pos + 1 }
      exact ⟨out, found', f', by simp only [createReservation.sailingLoop, hs, if_false, h]⟩

theorem writeSailings_open (l : List Sailing) :
    ∀ (acc : List Sailing),
      writeSailings l { isOpen := true, recs := acc, pos := acc.length } =
        (.ok (), { isOpen := true, recs := acc ++ l, pos := (acc ++ l).length }) := by
  induction l with
  | nil => intro acc; simp [writeSailings]
  | cons s rest ih =>
    intro acc
    have h1 : List.take acc.length acc ++ s :: List.drop (acc.length + 1) acc = acc ++ [s] := by
      simp
    simp only [writeSailings, writeSailing, RecFile.put, if_true, h1]
    rw [show acc.length + 1 = (acc ++ [s]).length by simp, ih (acc ++ [s])]
    simp

theorem rewriteSailings_open (l : List Sailing) (f : RecFile Sailing) (hopen : f.isOpen = true) :
    rewriteSailings l f = (.ok (), { isOpen := true, recs := l, pos := l.length }) := by
  have := writeSailings_open l []
  simpa [rewriteSailings, sailingClose, RecFile.close, hopen, RecFile.recreate] using this

/-! ## createReservation: the vehicle loop -/

theorem writeReservation_append (r : Reservation) (f : RecFile Reservation)
    (hopen : f.isOpen = true) :
    writeReservation r false f =
      (.ok (), { isOpen := true, recs := f.recs ++ [r], pos := f.recs.length + 1 }) := by
  simp [writeReservation, hopen, RecFile.put]

theorem writeReservation_closed (r : Reservation) (b : Bool) (f : RecFile Reservation)
    (hopen : f.isOpen = false) :
    writeReservation r b f = (.error .notOpen, f) := by
  simp [writeReservation, hopen]

theorem vehicleLoop_frame (sailingID vehicleLicence : String) (input : Nat → RepeatInput)
    (l : List Vehicle) :
    ∀ (loc : BookingLocals) (st : Sys),
      (createReservation.vehicleLoop sailingID vehicleLicence input l loc st).2.sailings
          = st.sailings ∧
      (createReservation.vehicleLoop sailingID vehicleLicence input l loc st).2.vessels
          = st.vessels ∧
      (createReservation.vehicleLoop sailingID vehicleLicence input l loc st).2.vehicles.recs
          = st.vehicles.recs ∧
      (createReservation.vehicleLoop sailingID vehicleLicence input l loc st).2.vehicles.isOpen
          = st.vehicles.isOpen ∧
      (createReservation.vehicleLoop sailingID vehicleLicence input l loc st).2.reservations.isOpen
          = st.reservations.isOpen := by
  induction l with
  | nil => intro loc st; simp [createReservation.vehicleLoop]
  | cons v rest ih =>
    intro loc st
    by_cases hv : v.vehicleLicence = vehicleLicence
    · cases hopen : st.reservations.isOpen with
      | false =>
        simp [createReservation.vehicleLoop, hv, writeReservation_closed _ _ _ hopen, hopen]
      | true =>
        cases hin : createReservationRepeat (input loc.asked) with
        | error e =>
          simp [createReservation.vehicleLoop, hv, writeReservation_append _ _ hopen, hin]
        | ok u =>
          simp only [createReservation.vehicleLoop, hv, if_true,
            writeReservation_append _ _ hopen, hin]
          exact ih _ _
    · simp only [createReservation.vehicleLoop, hv, if_false]
      exact ih _ _

theorem vehicleLoop_absent (sailingID vehicleLicence : String) (input : Nat → RepeatInput)
    (l : List Vehicle) (h : ∀ w ∈ l, w.vehicleLicence ≠ vehicleLicence) :
    ∀ (loc : BookingLocals) (st : Sys),
      createReservation.vehicleLoop sailingID vehicleLicence input l loc st =
        (.ok { loc with v := l.getLast?.getD loc.v },
          { st with vehicles := { st.vehicles with pos := st.vehicles.pos + l.length } }) := by
  induction l with
  | nil => intro loc st; simp [createReservation.vehicleLoop]
  | cons v rest ih =>
    intro loc st
    have hv : v.vehicleLicence ≠ vehicleLicence := h v (List.mem_cons_self _ _)
    simp only [createReservation.vehicleLoop, hv, if_false]
    rw [ih (fun w hw => h w (List.mem_cons_of_mem _ hw))]
    simp only [List.length_cons, List.getLast?_cons, Prod.mk.injEq, Except.ok.injEq]
    refine ⟨?_, ?_⟩
    · cases rest.getLast? <;> rfl
    · simp [Nat.add_assoc, Nat.add_comm 1]

theorem vehicleLoop_append (sailingID vehicleLicence : String) (input : Nat → RepeatInput)
    (l₁ l₂ : List Vehicle) :
    ∀ (loc : BookingLocals) (st : Sys),
      createReservation.vehicleLoop sailingID vehicleLicence input (l₁ ++ l₂) loc st =
        match createReservation.vehicleLoop sailingID vehicleLicence input l₁ loc st with
        | (.ok loc₁, st₁) =>
          createReservation.vehicleLoop sailingID vehicleLicence input l₂ loc₁ st₁
        | (.error e, st₁) => (.error e, st₁) := by
  induction l₁ with
  | nil => intro loc st; simp [createReservation.vehicleLoop]
  | cons v rest ih =>
    intro loc st
    by_cases hv : v.vehicleLicence = vehicleLicence
    · cases hw : writeReservation
          { sailingID := sailingID, vehicleLicence := vehicleLicence, onBoard := false,
            isLRL := decide (v.vehicleHeight ≤ 2) || decide (v.vehicleLength ≤ 7) }
          false st.reservations with
      | mk res rf =>
        cases res with
        | error e => simp [createReservation.vehicleLoop, hv, hw]
        | ok u =>
          cases hin : createReservationRepeat (input loc.asked) with
          | error e => simp [createReservation.vehicleLoop, hv, hw, hin]
          | ok u' =>
            simp only [List.cons_append, createReservation.vehicleLoop, hv, if_true, hw, hin]
            exact ih _ _
    · simp only [List.cons_append, createReservation.vehicleLoop, hv, if_false]
      exact ih _ _

theorem vehicleLoop_ok_last (sailingID vehicleLicence : String) (input : Nat → RepeatInput)
    (pre post : List Vehicle) (v : Vehicle) (loc loc' : BookingLocals) (st st' : Sys)
    (hv : v.vehicleLicence = vehicleLicence)
    (hpost : ∀ w ∈ post, w.vehicleLicence ≠ vehicleLicence)
    (h : createReservation.vehicleLoop sailingID vehicleLicence input (pre ++ v :: post) loc st
      = (.ok loc', st')) :
    loc'.vehicleLength = v.vehicleLength ∧ loc'.vehicleHeight = v.vehicleHeight ∧
      loc'.vehExists = true ∧ st'.reservations.isOpen = true ∧
      (∃ r ∈ st'.reservations.recs, r.key = (sailingID, vehicleLicence)) := by
  rw [vehicleLoop_append] at h
  cases h1 : createReservation.vehicleLoop sailingID vehicleLicence input pre loc st with
  | mk res st₁ =>
    cases res with
    | error e => simp [h1] at h
    | ok loc₁ =>
      simp only [h1] at h
      cases hopen : st₁.reservations.isOpen with
      | false =>
        simp [createReservation.vehicleLoop, hv, writeReservation_closed _ _ _ hopen] at h
      | true =>
        cases hin : createReservationRepeat (input loc₁.asked) with
        | error e =>
          simp [createReservation.vehicleLoop, hv, writeReservation_append _ _ hopen, hin] at h
        | ok u =>
          simp only [createReservation.vehicleLoop, hv, if_true,
            writeReservation_append _ _ hopen, hin] at h
          rw [vehicleLoop_absent _ _ _ post hpost] at h
          simp only [Prod.mk.injEq, Except.ok.injEq] at h
          obtain ⟨rfl, rfl⟩ := h
          exact ⟨rfl, rfl, rfl, rfl,
            ⟨⟨sailingID, vehicleLicence, false,
              decide (v.vehicleHeight ≤ 2) || decide (v.vehicleLength ≤ 7)⟩, by simp, rfl⟩⟩

theorem vehicleLoop_succeeds (sailingID vehicleLicence : String) (input : Nat → RepeatInput)
    (hin : ∀ k, input k = .N) (l : List Vehicle) :
    ∀ (loc : BookingLocals) (st : Sys), st.reservations.isOpen = true →
      ∃ loc' st', createReservation.vehicleLoop sailingID vehicleLicence input l loc st
        = (.ok loc', st') := by
  induction l with
  | nil => intro loc st _; exact ⟨_, _, rfl⟩
  | cons v rest ih =>
    intro loc st hopen
    by_cases hv : v.vehicleLicence = vehicleLicence
    · simp only [createReservation.vehicleLoop, hv, if_true, writeReservation_append _ _ hopen,
        hin, createReservationRepeat]
      exact ih _ _ rfl
    · simp only [createReservation.vehicleLoop, hv, if_false]
      exact ih _ _ hopen

/-! ## createReservation: the phases -/

theorem rewriteSailings_mk (l r : List Sailing) (p : Nat) :
    rewriteSailings l { isOpen := true, recs := r, pos := p } =
      (.ok (), { isOpen := true, recs := l, pos := l.length }) :=
  rewriteSailings_open l _ rfl

theorem updateSailing_ok (sailingID vehicleLicence : String) (loc : BookingLocals)
    (st st' : Sys) (newRes : Reservation)
    (h : createReservation.updateSailing sailingID vehicleLicence loc st = (.ok newRes, st')) :
    newRes = { sailingID := sailingID, vehicleLicence := vehicleLicence, onBoard := false,
               isLRL := decide (loc.vehicleHeight ≤ 2) && decide (loc.vehicleLength ≤ 7) } ∧
    st.sailings.isOpen = true ∧
    (∃ s ∈ st.sailings.recs, s.sailingID = sailingID) ∧
    ∃ l', st' = { st with sailings := { isOpen := true, recs := l', pos := l'.length } } ∧
      List.Forall₂ (fun s s' =>
        if s.sailingID = sailingID then
          createReservation.charge
            (decide (loc.vehicleHeight ≤ 2) && decide (loc.vehicleLength ≤ 7))
            loc.vehicleLength s = .ok s'
        else s' = s) st.sailings.recs l' := by
  cases hopen : st.sailings.isOpen with
  | false => simp [createReservation.updateSailing, sailingReset, RecFile.reset, hopen] at h
  | true =>
    simp only [createReservation.updateSailing, sailingReset, RecFile.reset, hopen, if_true] at h
    cases hloop : createReservation.sailingLoop sailingID
        (decide (loc.vehicleHeight ≤ 2) && decide (loc.vehicleLength ≤ 7)) loc.vehicleLength
        st.sailings.recs [] false { isOpen := true, recs := st.sailings.recs, pos := 0 } with
    | mk res sf =>
      cases res with
      | error e => simp [hloop] at h
      | ok p =>
        obtain ⟨out, found⟩ := p
        obtain ⟨l', hout, hall, hfound, hsf⟩ := sailingLoop_ok _ _ _ _ _ _ _ _ _ _ hloop
        rw [List.nil_append] at hout
        rw [Bool.false_or] at hfound
        subst hout hsf
        simp only [hloop] at h
        cases hany : st.sailings.recs.any (fun s => decide (s.sailingID = sailingID)) with
        | false => simp [hfound, hany] at h
        | true =>
          simp only [hfound, hany, if_true, rewriteSailings_mk, Prod.mk.injEq,
            Except.ok.injEq] at h
          obtain ⟨h1, h2⟩ := h
          refine ⟨h1.symm, rfl, ?_, out, h2.symm, hall⟩
          simpa using hany

theorem updateSailing_error (sailingID vehicleLicence : String) (loc : BookingLocals) (st : Sys)
    (hbad : ∃ s ∈ st.sailings.recs, s.sailingID = sailingID ∧
      ∃ e, createReservation.charge
        (decide (loc.vehicleHeight ≤ 2) && decide (loc.vehicleLength ≤ 7))
        loc.vehicleLength s = .error e) :
    ∃ e st', createReservation.updateSailing sailingID vehicleLicence loc st = (.error e, st') := by
  cases hr : createReservation.updateSailing sailingID vehicleLicence loc st with
  | mk res st' =>
    cases res with
    | error e => exact ⟨e, st', rfl⟩
    | ok newRes =>
      obtain ⟨-, -, -, l', -, hall⟩ := updateSailing_ok _ _ _ _ _ _ hr
      obtain ⟨s, hs, hsid, e, he⟩ := hbad
      exfalso
      clear hr
      generalize st.sailings.recs = l at hall hs
      induction hall with
      | nil => simp at hs
      | cons hab _ ih =>
        rcases List.mem_cons.mp hs with rfl | hs
        · simp [hsid, he] at hab
        · exact ih hs

theorem updateSailing_succeeds (sailingID vehicleLicence : String) (loc : BookingLocals)
    (st : Sys) (hopen : st.sailings.isOpen = true)
    (hfound : ∃ s ∈ st.sailings.recs, s.sailingID = sailingID)
    (hgood : ∀ s ∈ st.sailings.recs, s.sailingID = sailingID →
      ∃ s', createReservation.charge
        (decide (loc.vehicleHeight ≤ 2) && decide (loc.vehicleLength ≤ 7))
        loc.vehicleLength s = .ok s') :
    ∃ newRes st',
      createReservation.updateSailing sailingID vehicleLicence loc st = (.ok newRes, st') := by
  obtain ⟨out, found', f', hloop⟩ := sailingLoop_succeeds sailingID _ _ _ hgood [] false
    { isOpen := true, recs := st.sailings.recs, pos := 0 }
  obtain ⟨l', -, -, hfound', hsf⟩ := sailingLoop_ok _ _ _ _ _ _ _ _ _ _ hloop
  have hany : st.sailings.recs.any (fun s => decide (s.sailingID = sailingID)) = true := by
    simpa using hfound
  rw [Bool.false_or, hany] at hfound'
  subst hfound' hsf
  simp only [createReservation.updateSailing, sailingReset, RecFile.reset, hopen, if_true,
    hloop, rewriteSailings_mk]
  exact ⟨_, _, rfl⟩

theorem createReservation_ok_phases (sailingID vehicleLicence : String) (con : Console)
    (v₀ : Vehicle) (st st' : Sys)
    (h : createReservation sailingID vehicleLicence con v₀ st = (.ok (), st')) :
    st.vehicles.isOpen = true ∧
    ∃ loc₁ st₁ loc₂ st₂ newRes st₃,
      createReservation.vehicleLoop sailingID vehicleLicence con.input st.vehicles.recs
        { v := v₀, phoneNumber := "", vehicleLength := 0, vehicleHeight := 0,
          vehExists := false, asked := 0 }
        { st with vehicles := { isOpen := true, recs := st.vehicles.recs, pos := 0 } }
          = (.ok loc₁, st₁) ∧
      createReservation.newVehicle vehicleLicence con loc₁ st₁ = (.ok loc₂, st₂) ∧
      createReservation.updateSailing sailingID vehicleLicence loc₂ st₂ = (.ok newRes, st₃) ∧
      createReservation.finish con loc₂ newRes st₃ = (.ok (), st') := by
  cases hopen : st.vehicles.isOpen with
  | false => simp [createReservation, vehicleReset, RecFile.reset, hopen] at h
  | true =>
    simp only [createReservation, vehicleReset, RecFile.reset, hopen, if_true] at h
    refine ⟨rfl, ?_⟩
    cases h1 : createReservation.vehicleLoop sailingID vehicleLicence con.input st.vehicles.recs
        { v := v₀, phoneNumber := "", vehicleLength := 0, vehicleHeight := 0,
          vehExists := false, asked := 0 }
        { st with vehicles := { isOpen := true, recs := st.vehicles.recs, pos := 0 } } with
    | mk res₁ st₁ =>
      cases res₁ with
      | error e => simp [h1] at h
      | ok loc₁ =>
        simp only [h1] at h
        cases h2 : createReservation.newVehicle vehicleLicence con loc₁ st₁ with
        | mk res₂ st₂ =>
          cases res₂ with
          | error e => simp [h2] at h
          | ok loc₂ =>
            simp only [h2] at h
            cases h3 : createReservation.updateSailing sailingID vehicleLicence loc₂ st₂ with
            | mk res₃ st₃ =>
              cases res₃ with
              | error e => simp [h3] at h
              | ok newRes =>
                simp only [h3] at h
                exact ⟨loc₁, st₁, loc₂, st₂, newRes, st₃, rfl, h2, h3, h⟩

theorem newVehicle_ok (vehicleLicence : String) (con : Console) (loc loc' : BookingLocals)
    (st st' : Sys) (h : createReservation.newVehicle vehicleLicence con loc st = (.ok loc', st')) :
    st'.sailings = st.sailings ∧ st'.vessels = st.vessels ∧
    st'.reservations = st.reservations ∧ loc'.vehExists = loc.vehExists ∧ loc'.v = loc.v ∧
    loc'.asked = loc.asked ∧ st'.vehicles.isOpen = st.vehicles.isOpen ∧
    ((loc.vehExists = true ∧ loc' = loc ∧ st' = st) ∨
     (loc.vehExists = false ∧ st.vehicles.isOpen = true ∧
      loc'.vehicleLength = con.vehicleLength ∧ loc'.vehicleHeight = con.vehicleHeight ∧
      st'.vehicles.recs = st.vehicles.recs.take st.vehicles.pos ++
        { vehicleLicence := vehicleLicence, phone := con.phoneNumber,
          vehicleHeight := con.vehicleHeight, vehicleLength := con.vehicleLength } ::
        st.vehicles.recs.drop (st.vehicles.pos + 1) ∧
      st'.vehicles.pos = st.vehicles.pos + 1)) := by
  cases hex : loc.vehExists with
  | true =>
    simp only [createReservation.newVehicle, hex, if_true, Prod.mk.injEq, Except.ok.injEq] at h
    obtain ⟨rfl, rfl⟩ := h
    simp [hex]
  | false =>
    cases hopen : st.vehicles.isOpen with
    | false => simp [createReservation.newVehicle, hex, writeVehicle, hopen] at h
    | true =>
      simp only [createReservation.newVehicle, hex, writeVehicle, hopen, if_true, RecFile.put,
        Prod.mk.injEq, Except.ok.injEq] at h
      obtain ⟨rfl, rfl⟩ := h
      simp [hex]

theorem finish_ok (con : Console) (loc : BookingLocals) (newRes : Reservation) (st st' : Sys)
    (h : createReservation.finish con loc newRes st = (.ok (), st')) :
    st'.sailings = st.sailings ∧ st'.vessels = st.vessels ∧
    ((loc.vehExists = true ∧ st' = st) ∨
     (loc.vehExists = false ∧ st.reservations.isOpen = true ∧ st.vehicles.isOpen = true ∧
      con.input loc.asked = .N ∧
      st'.reservations =
        { isOpen := true, recs := st.reservations.recs ++ [newRes],
          pos := st.reservations.recs.length + 1 } ∧
      st'.vehicles = st.vehicles.put loc.v)) := by
  cases hex : loc.vehExists with
  | true =>
    simp only [createReservation.finish, hex, if_true, Prod.mk.injEq, Except.ok.injEq] at h
    obtain ⟨-, rfl⟩ := h
    simp
  | false =>
    cases hro : st.reservations.isOpen with
    | false =>
      simp [createReservation.finish, hex, writeReservation_closed _ _ _ hro] at h
    | true =>
      cases hvo : st.vehicles.isOpen with
      | false =>
        simp [createReservation.finish, hex, writeReservation_append _ _ hro, writeVehicle,
          hvo] at h
      | true =>
        cases hin : con.input loc.asked with
        | neither =>
          simp [createReservation.finish, hex, writeReservation_append _ _ hro, writeVehicle,
            hvo, hin, createReservationRepeat] at h
        | N =>
          simp only [createReservation.finish, hex, writeReservation_append _ _ hro,
            writeVehicle, hvo, if_true, hin, createReservationRepeat, Prod.mk.injEq] at h
          obtain ⟨-, rfl⟩ := h
          simp

theorem put_at_end {α : Type} (l : List α) (r : α) (n : Nat) (hn : n = l.length) :
    l.take n ++ r :: l.drop (n + 1) = l ++ [r] := by
  subst hn
  simp

theorem createReservation_ok_present (sailingID vehicleLicence : String) (con : Console)
    (v₀ : Vehicle) (st st' : Sys) (pre post : List Vehicle) (v : Vehicle)
    (h : createReservation sailingID vehicleLicence con v₀ st = (.ok (), st'))
    (hrecs : st.vehicles.recs = pre ++ v :: post) (hv : v.vehicleLicence = vehicleLicence)
    (hpost : ∀ w ∈ post, w.vehicleLicence ≠ vehicleLicence) :
    st.sailings.isOpen = true ∧ (∃ s ∈ st.sailings.recs, s.sailingID = sailingID) ∧
    (∃ l', st'.sailings = { isOpen := true, recs := l', pos := l'.length } ∧
      List.Forall₂ (fun s s' =>
        if s.sailingID = sailingID then
          createReservation.charge
            (decide (v.vehicleHeight ≤ 2) && decide (v.vehicleLength ≤ 7)) v.vehicleLength s
              = .ok s'
        else s' = s) st.sailings.recs l') ∧
    st'.vehicles.recs = st.vehicles.recs ∧ st'.vehicles.isOpen = true ∧
    st'.vessels = st.vessels ∧
    st'.reservations.isOpen = true ∧
    (∃ r ∈ st'.reservations.recs, r.key = (sailingID, vehicleLicence)) := by
  obtain ⟨hvo, loc₁, st₁, loc₂, st₂, newRes, st₃, h1, h2, h3, h4⟩ :=
    createReservation_ok_phases _ _ _ _ _ _ h
  have hframe := vehicleLoop_frame sailingID vehicleLicence con.input st.vehicles.recs
    { v := v₀, phoneNumber := "", vehicleLength := 0, vehicleHeight := 0,
      vehExists := false, asked := 0 }
    { st with vehicles := { isOpen := true, recs := st.vehicles.recs, pos := 0 } }
  rw [h1] at hframe
  obtain ⟨hf1, hf2, hf3, hf4, -⟩ := hframe
  have h1' := h1
  rw [hrecs] at h1'
  obtain ⟨hL, hH, hex, hro, hres⟩ := vehicleLoop_ok_last _ _ _ _ _ _ _ _ _ _ hv hpost h1'
  obtain ⟨-, -, -, -, -, -, -, hnv⟩ := newVehicle_ok _ _ _ _ _ _ h2
  rcases hnv with ⟨-, rfl, rfl⟩ | ⟨hcontra, -⟩
  · obtain ⟨-, hso, hfound, l', hst₃, hall⟩ := updateSailing_ok _ _ _ _ _ _ h3
    obtain ⟨hs4, hv4, hfin⟩ := finish_ok _ _ _ _ _ h4
    rcases hfin with ⟨-, rfl⟩ | ⟨hcontra, -⟩
    · subst hst₃
      rw [hL, hH, hf1] at hall
      exact ⟨by rw [← hf1]; exact hso, by rw [← hf1]; exact hfound, ⟨l', rfl, hall⟩, hf3, hf4,
        hf2, hro, hres⟩
    · rw [hex] at hcontra
      cases hcontra
  · rw [hex] at hcontra
    cases hcontra

theorem createReservation_ok_absent (sailingID vehicleLicence : String) (con : Console)
    (v₀ : Vehicle) (st st' : Sys)
    (h : createReservation sailingID vehicleLicence con v₀ st = (.ok (), st'))
    (habs : ∀ w ∈ st.vehicles.recs, w.vehicleLicence ≠ vehicleLicence) :
    st.sailings.isOpen = true ∧ (∃ s ∈ st.sailings.recs, s.sailingID = sailingID) ∧
    (∃ l', st'.sailings = { isOpen := true, recs := l', pos := l'.length } ∧
      List.Forall₂ (fun s s' =>
        if s.sailingID = sailingID then
          createReservation.charge
            (decide (con.vehicleHeight ≤ 2) && decide (con.vehicleLength ≤ 7))
            con.vehicleLength s = .ok s'
        else s' = s) st.sailings.recs l') ∧
    st'.vehicles.recs = st.vehicles.recs ++
      [{ vehicleLicence := vehicleLicence, phone := con.phoneNumber,
         vehicleHeight := con.vehicleHeight, vehicleLength := con.vehicleLength },
       st.vehicles.recs.getLast?.getD v₀] ∧
    st'.vehicles.isOpen = true ∧
    st'.vessels = st.vessels ∧
    st'.reservations =
      { isOpen := true,
        recs := st.reservations.recs ++
          [{ sailingID := sailingID, vehicleLicence := vehicleLicence, onBoard := false,
             isLRL := decide (con.vehicleHeight ≤ 2) && decide (con.vehicleLength ≤ 7) }],
        pos := st.reservations.recs.length + 1 } := by
  obtain ⟨hvo, loc₁, st₁, loc₂, st₂, newRes, st₃, h1, h2, h3, h4⟩ :=
    createReservation_ok_phases _ _ _ _ _ _ h
  rw [vehicleLoop_absent _ _ _ _ habs] at h1
  simp only [Prod.mk.injEq, Except.ok.injEq] at h1
  obtain ⟨rfl, rfl⟩ := h1
  obtain ⟨hs2, hv2, hr2, hex2, hv2', -, ho2, hnv⟩ := newVehicle_ok _ _ _ _ _ _ h2
  rcases hnv with ⟨hcontra, -⟩ | ⟨-, -, hL, hH, hrecs2, hpos2⟩
  · cases hcontra
  · obtain ⟨hnew, hso, hfound, l', hst₃, hall⟩ := updateSailing_ok _ _ _ _ _ _ h3
    obtain ⟨hs4, hv4, hfin⟩ := finish_ok _ _ _ _ _ h4
    rcases hfin with ⟨hcontra, -⟩ | ⟨-, -, -, -, hres, hveh⟩
    · rw [hex2] at hcontra
      cases hcontra
    · subst hst₃
      rw [hL, hH, hs2] at hall
      simp only [Nat.zero_add] at hrecs2 hpos2
      rw [put_at_end _ _ _ rfl] at hrecs2
      refine ⟨by rw [hs2] at hso; exact hso, by rw [hs2] at hfound; exact hfound,
        ⟨l', hs4, hall⟩, ?_, ?_, ?_, ?_⟩
      · rw [hveh]
        simp only [RecFile.put, hrecs2, hpos2, hv2']
        rw [put_at_end _ _ _ (by simp)]
        simp
      · rw [hveh]
        simp only [RecFile.put]
        rw [ho2]
      · rw [hv4, hv2]
      · rw [hres, hnew, hL, hH, hr2]

theorem createReservation_ok_sailings (sailingID vehicleLicence : String) (con : Console)
    (v₀ : Vehicle) (st st' : Sys) (L hgt : ℚ)
    (h : createReservation sailingID vehicleLicence con v₀ st = (.ok (), st'))
    (hb : BookedVehicle st.vehicles.recs vehicleLicence con L hgt) :
    st.sailings.isOpen = true ∧ (∃ s ∈ st.sailings.recs, s.sailingID = sailingID) ∧
    ∃ l', st'.sailings = { isOpen := true, recs := l', pos := l'.length } ∧
      List.Forall₂ (fun s s' =>
        if s.sailingID = sailingID then
          createReservation.charge (decide (hgt ≤ 2) && decide (L ≤ 7)) L s = .ok s'
        else s' = s) st.sailings.recs l' := by
  rcases hb with ⟨pre, v, post, hrecs, hv, hpost, rfl, rfl⟩ | ⟨habs, rfl, rfl⟩
  · obtain ⟨h1, h2, h3, -⟩ := createReservation_ok_present _ _ _ _ _ _ _ _ _ h hrecs hv hpost
    exact ⟨h1, h2, h3⟩
  · obtain ⟨h1, h2, h3, -⟩ := createReservation_ok_absent _ _ _ _ _ _ h habs
    exact ⟨h1, h2, h3⟩

theorem forall₂_charge_error (sailingID : String) (b : Bool) (L : ℚ) (l l' : List Sailing)
    (hall : List.Forall₂ (fun s s' =>
      if s.sailingID = sailingID then createReservation.charge b L s = .ok s'
      else s' = s) l l')
    (hbad : ∃ s ∈ l, s.sailingID = sailingID ∧ ∃ e, createReservation.charge b L s = .error e) :
    False := by
  obtain ⟨s, hs, hsid, e, he⟩ := hbad
  induction hall with
  | nil => simp at hs
  | cons hab _ ih =>
    rcases List.mem_cons.mp hs with rfl | hs
    · simp [hsid, he] at hab
    · exact ih hs

theorem createReservation_no_space (sailingID vehicleLicence : String) (con : Console)
    (v₀ : Vehicle) (st : Sys) (L hgt : ℚ)
    (hb : BookedVehicle st.vehicles.recs vehicleLicence con L hgt)
    (hbad : ∃ s ∈ st.sailings.recs, s.sailingID = sailingID ∧
      ∃ e, createReservation.charge (decide (hgt ≤ 2) && decide (L ≤ 7)) L s = .error e) :
    ∃ e st', createReservation sailingID vehicleLicence con v₀ st = (.error e, st') := by
  cases hr : createReservation sailingID vehicleLicence con v₀ st with
  | mk res st' =>
    cases res with
    | error e => exact ⟨e, st', rfl⟩
    | ok u =>
      obtain ⟨-, -, l', -, hall⟩ := createReservation_ok_sailings _ _ _ _ _ _ _ _ hr hb
      exact (forall₂_charge_error _ _ _ _ _ hall hbad).elim

theorem newVehicle_succeeds (vehicleLicence : String) (con : Console) (loc : BookingLocals)
    (st : Sys) (hvo : st.vehicles.isOpen = true) :
    ∃ loc' st', createReservation.newVehicle vehicleLicence con loc st = (.ok loc', st') := by
  cases hex : loc.vehExists with
  | true => exact ⟨loc, st, by simp only [createReservation.newVehicle, hex, if_true]⟩
  | false =>
    simp only [createReservation.newVehicle, hex, writeVehicle, hvo, if_true]
    exact ⟨_, _, rfl⟩

theorem finish_succeeds (con : Console) (loc : BookingLocals) (newRes : Reservation) (st : Sys)
    (hro : st.reservations.isOpen = true) (hvo : st.vehicles.isOpen = true)
    (hin : con.input loc.asked = .N) :
    ∃ st', createReservation.finish con loc newRes st = (.ok (), st') := by
  cases hex : loc.vehExists with
  | true => exact ⟨st, by simp only [createReservation.finish, hex, if_true]⟩
  | false =>
    simp only [createReservation.finish, hex, writeReservation_append _ _ hro, writeVehicle,
      hvo, if_true, hin, createReservationRepeat]
    exact ⟨_, rfl⟩

theorem createReservation_succeeds (sailingID vehicleLicence : String) (con : Console)
    (v₀ : Vehicle) (st : Sys) (L hgt : ℚ)
    (hb : BookedVehicle st.vehicles.recs vehicleLicence con L hgt)
    (hvo : st.vehicles.isOpen = true) (hso : st.sailings.isOpen = true)
    (hro : st.reservations.isOpen = true) (hin : ∀ k, con.input k = .N)
    (hfound : ∃ s ∈ st.sailings.recs, s.sailingID = sailingID)
    (hgood : ∀ s ∈ st.sailings.recs, s.sailingID = sailingID →
      ∃ s', createReservation.charge (decide (hgt ≤ 2) && decide (L ≤ 7)) L s = .ok s') :
    ∃ st', createReservation sailingID vehicleLicence con v₀ st = (.ok (), st') := by
  obtain ⟨loc₁, st₁, h1⟩ := vehicleLoop_succeeds sailingID vehicleLicence con.input hin
    st.vehicles.recs
    { v := v₀, phoneNumber := "", vehicleLength := 0, vehicleHeight := 0,
      vehExists := false, asked := 0 }
    { st with vehicles := { isOpen := true, recs := st.vehicles.recs, pos := 0 } } hro
  have hframe := vehicleLoop_frame sailingID vehicleLicence con.input st.vehicles.recs
    { v := v₀, phoneNumber := "", vehicleLength := 0, vehicleHeight := 0,
      vehExists := false, asked := 0 }
    { st with vehicles := { isOpen := true, recs := st.vehicles.recs, pos := 0 } }
  rw [h1] at hframe
  obtain ⟨hf1, hf2, hf3, hf4, hf5⟩ := hframe
  obtain ⟨loc₂, st₂, h2⟩ := newVehicle_succeeds vehicleLicence con loc₁ st₁ hf4
  obtain ⟨hs2, -, hr2, -, -, -, ho2, hnv⟩ := newVehicle_ok _ _ _ _ _ _ h2
  have hdims : loc₂.vehicleLength = L ∧ loc₂.vehicleHeight = hgt := by
    rcases hb with ⟨pre, v, post, hrecs, hv, hpost, rfl, rfl⟩ | ⟨habs, rfl, rfl⟩
    · have h1' := h1
      rw [hrecs] at h1'
      obtain ⟨hL, hH, hex, -⟩ := vehicleLoop_ok_last _ _ _ _ _ _ _ _ _ _ hv hpost h1'
      rcases hnv with ⟨-, rfl, -⟩ | ⟨hcontra, -⟩
      · exact ⟨hL, hH⟩
      · rw [hex] at hcontra
        cases hcontra
    · rw [vehicleLoop_absent _ _ _ _ habs] at h1
      simp only [Prod.mk.injEq, Except.ok.injEq] at h1
      obtain ⟨rfl, rfl⟩ := h1
      rcases hnv with ⟨hcontra, -⟩ | ⟨-, -, hL, hH, -⟩
      · cases hcontra
      · exact ⟨hL, hH⟩
  obtain ⟨newRes, st₃, h3⟩ := updateSailing_succeeds sailingID vehicleLicence loc₂ st₂
    (by rw [hs2, hf1]; exact hso) (by rw [hs2, hf1]; exact hfound)
    (by rw [hs2, hf1, hdims.1, hdims.2]; exact hgood)
  obtain ⟨-, -, -, l', hst₃, -⟩ := updateSailing_ok _ _ _ _ _ _ h3
  obtain ⟨st', h4⟩ := finish_succeeds con loc₂ newRes st₃
    (by rw [hst₃]; show st₂.reservations.isOpen = true; rw [hr2, hf5]; exact hro)
    (by rw [hst₃]; show st₂.vehicles.isOpen = true; rw [ho2]; exact hf4) (hin _)
  refine ⟨st', ?_⟩
  simp only [createReservation, vehicleReset, RecFile.reset, hvo, if_true, h1, h2, h3, h4]

/-! ## createReservation: the sailing store in every outcome -/

theorem sailingLoop_recs (sailingID : String) (isLRL : Bool) (L : ℚ) (l : List Sailing) :
    ∀ (acc : List Sailing) (found : Bool) (f : RecFile Sailing),
      (createReservation.sailingLoop sailingID isLRL L l acc found f).2.recs = f.recs := by
  induction l with
  | nil => intro acc found f; rfl
  | cons s rest ih =>
    intro acc found f
    by_cases hs : s.sailingID = sailingID
    · cases hc : createReservation.charge isLRL L s with
      | error e => simp only [createReservation.sailingLoop, hs, if_true, hc]
      | ok s' =>
        simp only [createReservation.sailingLoop, hs, if_true, hc]
        exact ih _ _ _
    · simp only [createReservation.sailingLoop, hs, if_false]
      exact ih _ _ _

theorem updateSailing_error_recs (sailingID vehicleLicence : String) (loc : BookingLocals)
    (st st' : Sys) (e : Error)
    (h : createReservation.updateSailing sailingID vehicleLicence loc st = (.error e, st')) :
    st'.sailings.recs = st.sailings.recs := by
  cases hopen : st.sailings.isOpen with
  | false =>
    simp only [createReservation.updateSailing, sailingReset, RecFile.reset, hopen,
      Bool.false_eq_true, if_false, Prod.mk.injEq] at h
    rw [← h.2]
  | true =>
    simp only [createReservation.updateSailing, sailingReset, RecFile.reset, hopen, if_true] at h
    have hrecs := sailingLoop_recs sailingID
        (decide (loc.vehicleHeight ≤ 2) && decide (loc.vehicleLength ≤ 7)) loc.vehicleLength
        st.sailings.recs [] false { isOpen := true, recs := st.sailings.recs, pos := 0 }
    cases hloop : createReservation.sailingLoop sailingID
        (decide (loc.vehicleHeight ≤ 2) && decide (loc.vehicleLength ≤ 7)) loc.vehicleLength
        st.sailings.recs [] false { isOpen := true, recs := st.sailings.recs, pos := 0 } with
    | mk res sf =>
      rw [hloop] at hrecs
      cases res with
      | error e' =>
        simp only [hloop, Prod.mk.injEq] at h
        rw [← h.2]
        exact hrecs
      | ok p =>
        obtain ⟨out, found⟩ := p
        obtain ⟨l', -, -, -, hsf⟩ := sailingLoop_ok _ _ _ _ _ _ _ _ _ _ hloop
        subst hsf
        simp only [hloop, rewriteSailings_mk] at h
        cases found with
        | true => simp at h
        | false =>
          simp only [Bool.false_eq_true, if_false, Prod.mk.injEq] at h
          rw [← h.2]

theorem finish_sailings (con : Console) (loc : BookingLocals) (newRes : Reservation) (st : Sys) :
    (createReservation.finish con loc newRes st).2.sailings = st.sailings := by
  unfold createReservation.finish
  repeat' split
  all_goals rfl

theorem newVehicle_sailings (vehicleLicence : String) (con : Console) (loc : BookingLocals)
    (st : Sys) :
    (createReservation.newVehicle vehicleLicence con loc st).2.sailings = st.sailings := by
  cases hex : loc.vehExists <;> cases hvo : st.vehicles.isOpen <;>
    simp [createReservation.newVehicle, hex, writeVehicle, hvo]

theorem front_dims (sailingID vehicleLicence : String) (con : Console) (recs : List Vehicle)
    (loc₀ loc₁ loc₂ : BookingLocals) (st₀ st₁ st₂ : Sys) (L hgt : ℚ)
    (h1 : createReservation.vehicleLoop sailingID vehicleLicence con.input recs loc₀ st₀
      = (.ok loc₁, st₁))
    (hloc₀ : loc₀.vehExists = false)
    (h2 : createReservation.newVehicle vehicleLicence con loc₁ st₁ = (.ok loc₂, st₂))
    (hb : BookedVehicle recs vehicleLicence con L hgt) :
    loc₂.vehicleLength = L ∧ loc₂.vehicleHeight = hgt := by
  obtain ⟨-, -, -, -, -, -, -, hnv⟩ := newVehicle_ok _ _ _ _ _ _ h2
  rcases hb with ⟨pre, v, post, hrecs, hv, hpost, rfl, rfl⟩ | ⟨habs, rfl, rfl⟩
  · rw [hrecs] at h1
    obtain ⟨hL, hH, hex, -⟩ := vehicleLoop_ok_last _ _ _ _ _ _ _ _ _ _ hv hpost h1
    rcases hnv with ⟨-, rfl, -⟩ | ⟨hcontra, -⟩
    · exact ⟨hL, hH⟩
    · rw [hex] at hcontra
      cases hcontra
  · rw [vehicleLoop_absent _ _ _ _ habs] at h1
    simp only [Prod.mk.injEq, Except.ok.injEq] at h1
    obtain ⟨rfl, rfl⟩ := h1
    rcases hnv with ⟨hcontra, -⟩ | ⟨-, -, hL, hH, -⟩
    · simp only [hloc₀] at hcontra
      cases hcontra
    · exact ⟨hL, hH⟩

theorem createReservation_sailings_any (sailingID vehicleLicence : String) (con : Console)
    (v₀ : Vehicle) (st : Sys) (L hgt : ℚ)
    (hb : BookedVehicle st.vehicles.recs vehicleLicence con L hgt) :
    (createReservation sailingID vehicleLicence con v₀ st).2.sailings.recs = st.sailings.recs ∨
    List.Forall₂ (fun s s' =>
      if s.sailingID = sailingID then
        createReservation.charge (decide (hgt ≤ 2) && decide (L ≤ 7)) L s = .ok s'
      else s' = s) st.sailings.recs
      (createReservation sailingID vehicleLicence con v₀ st).2.sailings.recs := by
  cases hopen : st.vehicles.isOpen with
  | false =>
    left
    simp [createReservation, vehicleReset, RecFile.reset, hopen]
  | true =>
    simp only [createReservation, vehicleReset, RecFile.reset, hopen, if_true]
    have hframe := vehicleLoop_frame sailingID vehicleLicence con.input st.vehicles.recs
      { v := v₀, phoneNumber := "", vehicleLength := 0, vehicleHeight := 0,
        vehExists := false, asked := 0 }
      { st with vehicles := { isOpen := true, recs := st.vehicles.recs, pos := 0 } }
    cases h1 : createReservation.vehicleLoop sailingID vehicleLicence con.input st.vehicles.recs
        { v := v₀, phoneNumber := "", vehicleLength := 0, vehicleHeight := 0,
          vehExists := false, asked := 0 }
        { st with vehicles := { isOpen := true, recs := st.vehicles.recs, pos := 0 } } with
    | mk res₁ st₁ =>
      rw [h1] at hframe
      have hs1 : st₁.sailings = st.sailings := hframe.1
      cases res₁ with
      | error e =>
        left
        show st₁.sailings.recs = st.sailings.recs
        rw [hs1]
      | ok loc₁ =>
        dsimp only
        have hnv := newVehicle_sailings vehicleLicence con loc₁ st₁
        cases h2 : createReservation.newVehicle vehicleLicence con loc₁ st₁ with
        | mk res₂ st₂ =>
          rw [h2] at hnv
          have hs2 : st₂.sailings = st.sailings := by rw [← hs1]; exact hnv
          cases res₂ with
          | error e =>
            left
            show st₂.sailings.recs = st.sailings.recs
            rw [hs2]
          | ok loc₂ =>
            dsimp only
            cases h3 : createReservation.updateSailing sailingID vehicleLicence loc₂ st₂ with
            | mk res₃ st₃ =>
              cases res₃ with
              | error e =>
                left
                show st₃.sailings.recs = st.sailings.recs
                rw [updateSailing_error_recs _ _ _ _ _ _ h3, hs2]
              | ok newRes =>
                right
                show List.Forall₂ _ _
                  (createReservation.finish con loc₂ newRes st₃).2.sailings.recs
                rw [finish_sailings]
                obtain ⟨hL, hH⟩ := front_dims _ _ _ _ _ _ _ _ _ _ _ _ h1 rfl h2 hb
                obtain ⟨-, -, -, l', hst₃, hall⟩ := updateSailing_ok _ _ _ _ _ _ h3
                subst hst₃
                rw [hL, hH, hs2] at hall
                exact hall

/-! ## The lane-capacity claims -/

theorem charge_lrl_ok (L : ℚ) (s s' : Sailing)
    (h : createReservation.charge true L s = .ok s') :
    (L ≤ s.lowRemainingLength ∧
      s' = { s with lowRemainingLength := f32 (s.lowRemainingLength - L) }) ∨
    (¬ L ≤ s.lowRemainingLength ∧ L ≤ s.highRemainingLength ∧
      s' = { s with highRemainingLength := f32 (s.highRemainingLength - L) }) := by
  unfold createReservation.charge at h
  simp only [if_true] at h
  split at h
  · left
    rename_i h1
    exact ⟨h1, by cases h; rfl⟩
  · split at h
    · right
      rename_i h1 h2
      exact ⟨h1, h2, by cases h; rfl⟩
    · cases h

theorem charge_high_ok (L : ℚ) (s s' : Sailing)
    (h : createReservation.charge false L s = .ok s') :
    L ≤ s.highRemainingLength ∧
      s' = { s with highRemainingLength := f32 (s.highRemainingLength - L) } := by
  unfold createReservation.charge at h
  simp only [Bool.false_eq_true, if_false] at h
  split at h
  · rename_i h1
    exact ⟨h1, by cases h; rfl⟩
  · cases h

/-- **C1 (amended).** A low-roof-eligible vehicle (height ≤ 2 and length ≤ 7) of length `L`
booked by `createReservation`: when the booking succeeds, every sailing with the given ID that
had `L ≤ lowRemainingLength` has its low lane set to the float nearest to
`lowRemainingLength - L`, which is that difference when the difference is a float, and its high
lane unchanged, every other such sailing had `L ≤ highRemainingLength` and has its high lane set
to the float nearest to `highRemainingLength - L` and its low lane unchanged, and the sailings
with another ID are unchanged; when a
sailing with the given ID has room in neither lane the booking fails; and with the stores open,
the answer N, and a sailing with the ID whose low or high lane holds at least `L` (an exact fit
included) the booking does succeed. -/
theorem createReservation_low_roof_eligible (sailingID vehicleLicence : String) (con : Console)
    (v₀ : Vehicle) (st : Sys) (L hgt : ℚ)
    (hb : BookedVehicle st.vehicles.recs vehicleLicence con L hgt)
    (hh : hgt ≤ 2) (hL : L ≤ 7) :
    (∀ st', createReservation sailingID vehicleLicence con v₀ st = (.ok (), st') →
      List.Forall₂ (fun s s' =>
        if s.sailingID = sailingID then
          (L ≤ s.lowRemainingLength →
            s'.lowRemainingLength = f32 (s.lowRemainingLength - L) ∧
            s'.highRemainingLength = s.highRemainingLength ∧
            (IsFloat (s.lowRemainingLength - L) →
              s'.lowRemainingLength = s.lowRemainingLength - L)) ∧
          (¬ L ≤ s.lowRemainingLength →
            L ≤ s.highRemainingLength ∧
            s'.highRemainingLength = f32 (s.highRemainingLength - L) ∧
            s'.lowRemainingLength = s.lowRemainingLength ∧
            (IsFloat (s.highRemainingLength - L) →
              s'.highRemainingLength = s.highRemainingLength - L))
        else s' = s) st.sailings.recs st'.sailings.recs) ∧
    (∀ s ∈ st.sailings.recs, s.sailingID = sailingID →
      ¬ L ≤ s.lowRemainingLength → ¬ L ≤ s.highRemainingLength →
      ∃ e st', createReservation sailingID vehicleLicence con v₀ st = (.error e, st')) ∧
    (st.vehicles.isOpen = true → st.sailings.isOpen = true → st.reservations.isOpen = true →
      (∀ k, con.input k = .N) →
      (∃ s ∈ st.sailings.recs, s.sailingID = sailingID) →
      (∀ s ∈ st.sailings.recs, s.sailingID = sailingID →
        L ≤ s.lowRemainingLength ∨ L ≤ s.highRemainingLength) →
      ∃ st', createReservation sailingID vehicleLicence con v₀ st = (.ok (), st')) := by
  have hlrl : (decide (hgt ≤ 2) && decide (L ≤ 7)) = true := by simp [hh, hL]
  refine ⟨?_, ?_, ?_⟩
  · intro st' hok
    obtain ⟨-, -, l', hs', hall⟩ := createReservation_ok_sailings _ _ _ _ _ _ _ _ hok hb
    rw [hs']
    rw [hlrl] at hall
    refine hall.imp ?_
    intro s s' hrel
    by_cases hs : s.sailingID = sailingID
    · simp only [hs, if_true] at hrel ⊢
      rcases charge_lrl_ok L s s' hrel with ⟨h1, rfl⟩ | ⟨h1, h2, rfl⟩
      · exact ⟨fun _ => ⟨rfl, rfl, fun hf => f32_of_isFloat _ hf⟩, fun hn => absurd h1 hn⟩
      · exact ⟨fun hp => absurd hp h1, fun _ => ⟨h2, rfl, rfl, fun hf => f32_of_isFloat _ hf⟩⟩
    · simpa only [hs, if_false] using hrel
  · intro s hs hsid hlow hhigh
    refine createReservation_no_space _ _ _ _ _ _ _ hb ⟨s, hs, hsid, .insufficientSpace, ?_⟩
    rw [hlrl]
    simp [createReservation.charge, hlow, hhigh]
  · intro hvo hso hro hin hfound hfit
    refine createReservation_succeeds _ _ _ _ _ _ _ hb hvo hso hro hin hfound ?_
    intro s hs hsid
    rw [hlrl]
    by_cases hlow : L ≤ s.lowRemainingLength
    · simp only [createReservation.charge, if_true, hlow]
      exact ⟨_, rfl⟩
    · have hhigh : L ≤ s.highRemainingLength := (hfit s hs hsid).resolve_left hlow
      simp only [createReservation.charge, if_true, hlow, if_false, hhigh]
      exact ⟨_, rfl⟩

/-- Witness for the amended C1 (scenario A): low = 100, high = 200, a new vehicle of length 5
and height 1.5 is booked and the sailing is left with low = 95, high = 200. -/
theorem createReservation_low_roof_eligible_witness :
    BookedVehicle scenarioA.vehicles.recs "XYZ123" consoleA 5 (3 / 2) ∧
    (3 / 2 : ℚ) ≤ 2 ∧ (5 : ℚ) ≤ 7 ∧
    ∃ st', createReservation "ABC-01-08" "XYZ123" consoleA junk scenarioA = (.ok (), st') ∧
      st'.sailings.recs.map (fun s => (s.lowRemainingLength, s.highRemainingLength))
        = [(95, 200)] := by
  have hb : BookedVehicle scenarioA.vehicles.recs "XYZ123" consoleA 5 (3 / 2) :=
    Or.inr ⟨by simp [scenarioA], rfl, rfl⟩
  have T := createReservation_low_roof_eligible "ABC-01-08" "XYZ123" consoleA junk scenarioA
    5 (3 / 2) hb (by norm_num) (by norm_num)
  obtain ⟨st', hst'⟩ := T.2.2 rfl rfl rfl (fun _ => rfl)
    ⟨_, List.mem_singleton_self _, rfl⟩ (by simp [scenarioA]; norm_num)
  refine ⟨hb, by norm_num, by norm_num, st', hst', ?_⟩
  have hall := T.1 st' hst'
  simp only [scenarioA, List.forall₂_cons_left_iff, List.forall₂_nil_left_iff, if_true]
    at hall
  obtain ⟨s', u, ⟨h1, -⟩, rfl, hrecs⟩ := hall
  obtain ⟨hlow, hhigh, -⟩ := h1 (by norm_num)
  rw [hrecs]
  simp only [List.map_cons, List.map_nil, hlow, hhigh]
  norm_num [f32_95]

theorem forall₂_charge_high_low (sailingID : String) (L : ℚ) (l l' : List Sailing)
    (h : List.Forall₂ (fun s s' =>
      if s.sailingID = sailingID then createReservation.charge false L s = .ok s'
      else s' = s) l l') :
    l'.map Sailing.lowRemainingLength = l.map Sailing.lowRemainingLength := by
  induction h with
  | nil => rfl
  | @cons s s' l₁ l₂ hrel _ ih =>
    simp only [List.map_cons, ih, List.cons.injEq, and_true]
    by_cases hs : s.sailingID = sailingID
    · simp only [hs, if_true] at hrel
      rw [(charge_high_ok L s s' hrel).2]
    · simp only [hs, if_false] at hrel
      rw [hrel]

/-- **C2 (amended).** A vehicle that is not low-roof eligible (height > 2 or length > 7) of
length `L` booked by `createReservation`: whatever the outcome, no sailing's lowRemainingLength
changes; when the booking succeeds, every sailing with the given ID had
`L ≤ highRemainingLength` and has its high lane set to the float nearest to
`highRemainingLength - L`, which is that difference when the difference is a float, and the
other sailings are unchanged; when a sailing
with the given ID has `L > highRemainingLength` the booking fails; and with the stores open, the
answer N and a sailing with the ID whose high lane holds at least `L` the booking does
succeed. -/
theorem createReservation_high_roof_only (sailingID vehicleLicence : String) (con : Console)
    (v₀ : Vehicle) (st : Sys) (L hgt : ℚ)
    (hb : BookedVehicle st.vehicles.recs vehicleLicence con L hgt)
    (hnot : 2 < hgt ∨ 7 < L) :
    ((createReservation sailingID vehicleLicence con v₀ st).2.sailings.recs.map
        Sailing.lowRemainingLength = st.sailings.recs.map Sailing.lowRemainingLength) ∧
    (∀ st', createReservation sailingID vehicleLicence con v₀ st = (.ok (), st') →
      List.Forall₂ (fun s s' =>
        if s.sailingID = sailingID then
          L ≤ s.highRemainingLength ∧
          s'.highRemainingLength = f32 (s.highRemainingLength - L) ∧
          s'.lowRemainingLength = s.lowRemainingLength ∧
          (IsFloat (s.highRemainingLength - L) →
            s'.highRemainingLength = s.highRemainingLength - L)
        else s' = s) st.sailings.recs st'.sailings.recs) ∧
    (∀ s ∈ st.sailings.recs, s.sailingID = sailingID → ¬ L ≤ s.highRemainingLength →
      ∃ e st', createReservation sailingID vehicleLicence con v₀ st = (.error e, st')) ∧
    (st.vehicles.isOpen = true → st.sailings.isOpen = true → st.reservations.isOpen = true →
      (∀ k, con.input k = .N) →
      (∃ s ∈ st.sailings.recs, s.sailingID = sailingID) →
      (∀ s ∈ st.sailings.recs, s.sailingID = sailingID → L ≤ s.highRemainingLength) →
      ∃ st', createReservation sailingID vehicleLicence con v₀ st = (.ok (), st')) := by
  have hlrl : (decide (hgt ≤ 2) && decide (L ≤ 7)) = false := by
    rcases hnot with h | h
    · simp [not_le.mpr h]
    · simp [not_le.mpr h]
  refine ⟨?_, ?_, ?_, ?_⟩
  · rcases createReservation_sailings_any sailingID vehicleLicence con v₀ st L hgt hb with h | h
    · rw [h]
    · rw [hlrl] at h
      exact forall₂_charge_high_low _ _ _ _ h
  · intro st' hok
    obtain ⟨-, -, l', hs', hall⟩ := createReservation_ok_sailings _ _ _ _ _ _ _ _ hok hb
    rw [hs']
    rw [hlrl] at hall
    refine hall.imp ?_
    intro s s' hrel
    by_cases hs : s.sailingID = sailingID
    · simp only [hs, if_true] at hrel ⊢
      obtain ⟨h1, rfl⟩ := charge_high_ok L s s' hrel
      exact ⟨h1, rfl, rfl, fun hf => f32_of_isFloat _ hf⟩
    · simpa only [hs, if_false] using hrel
  · intro s hs hsid hhigh
    refine createReservation_no_space _ _ _ _ _ _ _ hb ⟨s, hs, hsid, .insufficientSpace, ?_⟩
    rw [hlrl]
    simp [createReservation.charge, hhigh]
  · intro hvo hso hro hin hfound hfit
    refine createReservation_succeeds _ _ _ _ _ _ _ hb hvo hso hro hin hfound ?_
    intro s hs hsid
    rw [hlrl]
    simp only [createReservation.charge, Bool.false_eq_true, if_false, hfit s hs hsid, if_true]
    exact ⟨_, rfl⟩

/-- Witness for the amended C2: high = 200, a new vehicle of length 50 and height 3 is booked
and the sailing is left with high = 150 and low = 100 as before. -/
theorem createReservation_high_roof_only_witness :
    BookedVehicle scenarioA.vehicles.recs "QRS789" consoleB 50 3 ∧
    ((2 : ℚ) < 3 ∨ (7 : ℚ) < 50) ∧
    ∃ st', createReservation "ABC-01-08" "QRS789" consoleB junk scenarioA = (.ok (), st') ∧
      st'.sailings.recs.map (fun s => (s.lowRemainingLength, s.highRemainingLength))
        = [(100, 150)] := by
  have hb : BookedVehicle scenarioA.vehicles.recs "QRS789" consoleB 50 3 :=
    Or.inr ⟨by simp [scenarioA], rfl, rfl⟩
  have T := createReservation_high_roof_only "ABC-01-08" "QRS789" consoleB junk scenarioA
    50 3 hb (Or.inl (by norm_num))
  obtain ⟨st', hst'⟩ := T.2.2.2 rfl rfl rfl (fun _ => rfl)
    ⟨_, List.mem_singleton_self _, rfl⟩ (by simp [scenarioA]; norm_num)
  refine ⟨hb, Or.inl (by norm_num), st', hst', ?_⟩
  have hall := T.2.1 st' hst'
  simp only [scenarioA, List.forall₂_cons_left_iff, List.forall₂_nil_left_iff, if_true]
    at hall
  obtain ⟨s', u, ⟨-, hhigh, hlow, -⟩, rfl, hrecs⟩ := hall
  rw [hrecs]
  simp only [List.map_cons, List.map_nil, hlow, hhigh]
  norm_num [f32_150]

/-! ## createResAtCheckin -/

theorem checkinLoop_ok (sailingID : String) (L : ℚ) (l : List Sailing) :
    ∀ (acc : List Sailing) (f : RecFile Sailing) (out : List Sailing) (f' : RecFile Sailing),
      createResAtCheckin.sailingLoop sailingID L l acc f = (.ok out, f') →
      ∃ l', out = acc ++ l' ∧
        List.Forall₂ (fun s s' =>
          if s.sailingID = sailingID then createResAtCheckin.charge L s = .ok s'
          else s' = s) l l' ∧
        f' = { f with pos := f.pos + l.length } := by
  induction l with
  | nil =>
    intro acc f out f' h
    simp only [createResAtCheckin.sailingLoop, Prod.mk.injEq, Except.ok.injEq] at h
    obtain ⟨rfl, rfl⟩ := h
    exact ⟨[], by simp, List.Forall₂.nil, rfl⟩
  | cons s rest ih =>
    intro acc f out f' h
    by_cases hs : s.sailingID = sailingID
    · cases hc : createResAtCheckin.charge L s with
      | error e => simp [createResAtCheckin.sailingLoop, hs, hc] at h
      | ok s' =>
        simp only [createResAtCheckin.sailingLoop, hs, if_true, hc] at h
        obtain ⟨l', rfl, hall, rfl⟩ := ih _ _ _ _ h
        refine ⟨s' :: l', by simp, List.Forall₂.cons (by simp [hs, hc]) hall, ?_⟩
        simp [Nat.add_assoc, Nat.add_comm 1]
    · simp only [createResAtCheckin.sailingLoop, hs, if_false] at h
      obtain ⟨l', rfl, hall, rfl⟩ := ih _ _ _ _ h
      refine ⟨s :: l', by simp, List.Forall₂.cons (by simp [hs]) hall, ?_⟩
      simp [Nat.add_assoc, Nat.add_comm 1]

theorem createResAtCheckin_ok (sailingID vehicleLicence : String) (con : Console)
    (st st' : Sys)
    (h : createResAtCheckin sailingID vehicleLicence con st = (.ok (), st')) :
    ∃ l', st'.sailings = { isOpen := true, recs := l', pos := l'.length } ∧
      List.Forall₂ (fun s s' =>
        if s.sailingID = sailingID then createResAtCheckin.charge con.vehicleLength s = .ok s'
        else s' = s) st.sailings.recs l' := by
  cases hvo : st.vehicles.isOpen with
  | false => simp [createResAtCheckin, vehicleReset, RecFile.reset, hvo] at h
  | true =>
    cases hso : st.sailings.isOpen with
    | false =>
      simp [createResAtCheckin, vehicleReset, sailingReset, RecFile.reset, hvo, hso] at h
    | true =>
      simp only [createResAtCheckin, vehicleReset, sailingReset, RecFile.reset, hvo, hso,
        if_true] at h
      cases hloop : createResAtCheckin.sailingLoop sailingID con.vehicleLength st.sailings.recs
          [] { isOpen := true, recs := st.sailings.recs, pos := 0 } with
      | mk res sf =>
        cases res with
        | error e => simp [hloop] at h
        | ok out =>
          obtain ⟨l', hout, hall, hsf⟩ := checkinLoop_ok _ _ _ _ _ _ _ hloop
          rw [List.nil_append] at hout
          subst hout hsf
          simp only [hloop, rewriteSailings_mk] at h
          cases hro : st.reservations.isOpen with
          | false => simp [writeReservation_closed _ _ _ hro] at h
          | true =>
            simp only [writeReservation_append _ _ hro, writeVehicle, if_true,
              Prod.mk.injEq] at h
            obtain ⟨-, rfl⟩ := h
            exact ⟨out, rfl, hall⟩

theorem checkin_charge_ok (L : ℚ) (s s' : Sailing)
    (h : createResAtCheckin.charge L s = .ok s') :
    (L ≤ s.lowRemainingLength ∧
      s' = { s with lowRemainingLength := f32 (s.lowRemainingLength - L) }) ∨
    (¬ L ≤ s.lowRemainingLength ∧ L ≤ s.highRemainingLength ∧
      s' = { s with highRemainingLength := f32 (s.highRemainingLength - L) }) := by
  unfold createResAtCheckin.charge at h
  split at h
  · left
    rename_i h1
    exact ⟨h1, by cases h; rfl⟩
  · split at h
    · right
      rename_i h1 h2
      exact ⟨h1, h2, by cases h; rfl⟩
    · cases h

theorem charge_ok_cases (b : Bool) (L : ℚ) (s s' : Sailing)
    (h : createReservation.charge b L s = .ok s') :
    (L ≤ s.lowRemainingLength ∧
      s' = { s with lowRemainingLength := f32 (s.lowRemainingLength - L) }) ∨
    (L ≤ s.highRemainingLength ∧
      s' = { s with highRemainingLength := f32 (s.highRemainingLength - L) }) := by
  cases b with
  | true =>
    rcases charge_lrl_ok L s s' h with ⟨h1, h2⟩ | ⟨-, h1, h2⟩
    · exact Or.inl ⟨h1, h2⟩
    · exact Or.inr ⟨h1, h2⟩
  | false => exact Or.inr (charge_high_ok L s s' h)

theorem chargedWithin_nonneg (L : ℚ) (s s' : Sailing) (h : ChargedWithin L s s')
    (hs : 0 ≤ s.lowRemainingLength ∧ 0 ≤ s.highRemainingLength) :
    0 ≤ s'.lowRemainingLength ∧ 0 ≤ s'.highRemainingLength := by
  rcases h with rfl | ⟨h1, h2, h3⟩ | ⟨h1, h2, h3⟩
  · exact hs
  · rw [h2, h3]
    exact ⟨f32_nonneg _ (sub_nonneg.mpr h1), hs.2⟩
  · rw [h2, h3]
    exact ⟨hs.1, f32_nonneg _ (sub_nonneg.mpr h1)⟩

theorem forall₂_nonneg (L : ℚ) (l l' : List Sailing)
    (hall : List.Forall₂ (ChargedWithin L) l l')
    (hnn : ∀ s ∈ l, 0 ≤ s.lowRemainingLength ∧ 0 ≤ s.highRemainingLength) :
    ∀ s' ∈ l', 0 ≤ s'.lowRemainingLength ∧ 0 ≤ s'.highRemainingLength := by
  induction hall with
  | nil => simp
  | @cons s s' l₁ l₂ hrel _ ih =>
    intro t ht
    rcases List.mem_cons.mp ht with rfl | ht
    · exact chargedWithin_nonneg L s _ hrel (hnn s (List.mem_cons_self _ _))
    · exact ih (fun x hx => hnn x (List.mem_cons_of_mem _ hx)) t ht

/-- **C3.** When every sailing has non-negative lowRemainingLength and highRemainingLength,
a booking that succeeds, through `createReservation` or through `createResAtCheckin` (the
implicit booking of check-in), leaves every sailing with both lengths non-negative: each
sailing is unchanged or has the vehicle's length subtracted, as floats are, from one lane that
held at least that length beforehand. -/
theorem booking_keeps_lanes_nonnegative (sailingID vehicleLicence : String) (con : Console)
    (v₀ : Vehicle) (st : Sys) (L hgt : ℚ)
    (hb : BookedVehicle st.vehicles.recs vehicleLicence con L hgt)
    (hnn : ∀ s ∈ st.sailings.recs, 0 ≤ s.lowRemainingLength ∧ 0 ≤ s.highRemainingLength) :
    (∀ st', createReservation sailingID vehicleLicence con v₀ st = (.ok (), st') →
      (∀ s' ∈ st'.sailings.recs, 0 ≤ s'.lowRemainingLength ∧ 0 ≤ s'.highRemainingLength) ∧
      List.Forall₂ (ChargedWithin L) st.sailings.recs st'.sailings.recs) ∧
    (∀ st', createResAtCheckin sailingID vehicleLicence con st = (.ok (), st') →
      (∀ s' ∈ st'.sailings.recs, 0 ≤ s'.lowRemainingLength ∧ 0 ≤ s'.highRemainingLength) ∧
      List.Forall₂ (ChargedWithin con.vehicleLength) st.sailings.recs st'.sailings.recs) := by
  constructor
  · intro st' hok
    obtain ⟨-, -, l', hs', hall⟩ := createReservation_ok_sailings _ _ _ _ _ _ _ _ hok hb
    have hcw : List.Forall₂ (ChargedWithin L) st.sailings.recs l' := by
      refine hall.imp ?_
      intro s s' hrel
      by_cases hs : s.sailingID = sailingID
      · simp only [hs, if_true] at hrel
        rcases charge_ok_cases _ L s s' hrel with ⟨h1, rfl⟩ | ⟨h1, rfl⟩
        · exact Or.inr (Or.inl ⟨h1, rfl, rfl⟩)
        · exact Or.inr (Or.inr ⟨h1, rfl, rfl⟩)
      · simp only [hs, if_false] at hrel
        exact Or.inl hrel
    rw [hs']
    exact ⟨forall₂_nonneg L _ _ hcw hnn, hcw⟩
  · intro st' hok
    obtain ⟨l', hs', hall⟩ := createResAtCheckin_ok _ _ _ _ _ hok
    have hcw : List.Forall₂ (ChargedWithin con.vehicleLength) st.sailings.recs l' := by
      refine hall.imp ?_
      intro s s' hrel
      by_cases hs : s.sailingID = sailingID
      · simp only [hs, if_true] at hrel
        rcases checkin_charge_ok _ s s' hrel with ⟨h1, rfl⟩ | ⟨-, h1, rfl⟩
        · exact Or.inr (Or.inl ⟨h1, rfl, rfl⟩)
        · exact Or.inr (Or.inr ⟨h1, rfl, rfl⟩)
      · simp only [hs, if_false] at hrel
        exact Or.inl hrel
    rw [hs']
    exact ⟨forall₂_nonneg _ _ _ hcw hnn, hcw⟩

/-- Witness for C3: in scenario A both bookings of the length-5 vehicle succeed and leave the
lanes non-negative. -/
theorem booking_keeps_lanes_nonnegative_witness :
    BookedVehicle scenarioA.vehicles.recs "XYZ123" consoleA 5 (3 / 2) ∧
    (∀ s ∈ scenarioA.sailings.recs,
      0 ≤ s.lowRemainingLength ∧ 0 ≤ s.highRemainingLength) ∧
    (∃ st', createReservation "ABC-01-08" "XYZ123" consoleA junk scenarioA = (.ok (), st') ∧
      ∀ s' ∈ st'.sailings.recs, 0 ≤ s'.lowRemainingLength ∧ 0 ≤ s'.highRemainingLength) ∧
    (∃ st', createResAtCheckin "ABC-01-08" "XYZ123" consoleA scenarioA = (.ok (), st') ∧
      ∀ s' ∈ st'.sailings.recs, 0 ≤ s'.lowRemainingLength ∧ 0 ≤ s'.highRemainingLength) := by
  have hb : BookedVehicle scenarioA.vehicles.recs "XYZ123" consoleA 5 (3 / 2) :=
    Or.inr ⟨by simp [scenarioA], rfl, rfl⟩
  have hnn : ∀ s ∈ scenarioA.sailings.recs,
      0 ≤ s.lowRemainingLength ∧ 0 ≤ s.highRemainingLength := by
    simp [scenarioA]
  have T := booking_keeps_lanes_nonnegative "ABC-01-08" "XYZ123" consoleA junk scenarioA
    5 (3 / 2) hb hnn
  obtain ⟨st₁, h₁⟩ := createReservation_succeeds "ABC-01-08" "XYZ123" consoleA junk scenarioA
    5 (3 / 2) hb rfl rfl rfl (fun _ => rfl) ⟨_, List.mem_singleton_self _, rfl⟩
    (by simp [scenarioA, createReservation.charge]; norm_num)
  have h₂ : ∃ st₂, createResAtCheckin "ABC-01-08" "XYZ123" consoleA scenarioA = (.ok (), st₂) := by
    norm_num [createResAtCheckin, scenarioA, consoleA, vehicleReset, sailingReset,
      RecFile.reset, createResAtCheckin.sailingLoop, createResAtCheckin.charge,
      rewriteSailings_mk, writeReservation, writeVehicle]
  obtain ⟨st₂, h₂⟩ := h₂
  exact ⟨hb, hnn, ⟨st₁, h₁, (T.1 st₁ h₁).1⟩, ⟨st₂, h₂, (T.2 st₂ h₂).1⟩⟩

/-! ## Booking followed by cancellation -/

theorem split_last {α : Type} (p : α → Bool) (l : List α) (h : ∃ x ∈ l, p x = true) :
    ∃ a x b, l = a ++ x :: b ∧ p x = true ∧ ∀ y ∈ b, p y = false := by
  obtain ⟨a, x, b, hl, hx, hb⟩ := split_first p l.reverse (by simpa using h)
  refine ⟨b.reverse, x, a.reverse, ?_, hx, fun y hy => hb y (by simpa using hy)⟩
  have := congrArg List.reverse hl
  simpa using this

theorem forall₂_split {α : Type} (R : α → α → Prop) (a : List α) (x : α) (b l' : List α)
    (h : List.Forall₂ R (a ++ x :: b) l') :
    ∃ a' x' b', l' = a' ++ x' :: b' ∧ List.Forall₂ R a a' ∧ R x x' ∧ List.Forall₂ R b b' := by
  induction a generalizing l' with
  | nil =>
    cases h with
    | cons hx hb => exact ⟨[], _, _, rfl, List.Forall₂.nil, hx, hb⟩
  | cons y a ih =>
    cases h with
    | cons hy hrest =>
      obtain ⟨a', x', b', rfl, ha, hx, hb⟩ := ih _ hrest
      exact ⟨_ :: a', x', b', rfl, List.Forall₂.cons hy ha, hx, hb⟩

theorem forall₂_unmatched (sailingID : String) (Q : Sailing → Sailing → Prop)
    (a a' : List Sailing)
    (h : List.Forall₂ (fun s s' => if s.sailingID = sailingID then Q s s' else s' = s) a a')
    (ha : ∀ y ∈ a, y.sailingID ≠ sailingID) : a' = a := by
  induction h with
  | nil => rfl
  | @cons s s' l₁ l₂ hrel _ ih =>
    have hs : s.sailingID ≠ sailingID := ha s (List.mem_cons_self _ _)
    simp only [hs, if_false] at hrel
    rw [hrel, ih (fun y hy => ha y (List.mem_cons_of_mem _ hy))]

theorem charge_sailingID (b : Bool) (L : ℚ) (s s' : Sailing)
    (h : createReservation.charge b L s = .ok s') : s'.sailingID = s.sailingID := by
  rcases charge_ok_cases b L s s' h with ⟨-, rfl⟩ | ⟨-, rfl⟩ <;> rfl

theorem createReservation_scenarioA :
    createReservation "ABC-01-08" "XYZ123" consoleA junk scenarioA = (.ok (), bookedA) := by
  norm_num [createReservation, scenarioA, consoleA, bookedA, junk, vehicleReset, RecFile.reset,
    createReservation.vehicleLoop, createReservation.newVehicle, writeVehicle, RecFile.put,
    createReservation.updateSailing, sailingReset, createReservation.sailingLoop,
    createReservation.charge, rewriteSailings_mk, createReservation.finish, writeReservation,
    createReservationRepeat]

/-! ## Where the code departs from the claims -/

/-- **C4 (code at the failing input).** For a vehicle on file that is 3 high and 5 long,
`createReservation` succeeds, charges the high lane (100/200 becomes 100/195) and appends a
reservation whose isLRL flag is true, although height ≤ 2 and length ≤ 7 do not both hold: the
flag written on the vehicle-on-file path is `height <= 2 || length <= 7`. -/
theorem createReservation_on_file_flag :
    (createReservation "ABC-01-08" "TALL001" consoleA junk tallOnFile).1 = .ok () ∧
    (createReservation "ABC-01-08" "TALL001" consoleA junk tallOnFile).2.reservations.recs
      = [⟨"ABC-01-08", "TALL001", false, true⟩] ∧
    (createReservation "ABC-01-08" "TALL001" consoleA junk tallOnFile).2.sailings.recs
      = [⟨"ABC-01-08", "Spirit", 100, 195⟩] ∧
    ¬ ((3 : ℚ) ≤ 2 ∧ (5 : ℚ) ≤ 7) := by
  have h : createReservation "ABC-01-08" "TALL001" consoleA junk tallOnFile =
      (.ok (),
        { vessels := { isOpen := true, recs := [⟨"Spirit", 200, 100⟩], pos := 0 },
          sailings := { isOpen := true, recs := [⟨"ABC-01-08", "Spirit", 100, 195⟩], pos := 1 },
          vehicles := { isOpen := true, recs := [⟨"TALL001", "6045550102", 3, 5⟩], pos := 1 },
          reservations :=
            { isOpen := true, recs := [⟨"ABC-01-08", "TALL001", false, true⟩], pos := 1 } }) := by
    norm_num [createReservation, tallOnFile, consoleA, junk, vehicleReset, RecFile.reset,
      createReservation.vehicleLoop, createReservation.newVehicle, writeVehicle, RecFile.put,
      createReservation.updateSailing, sailingReset, createReservation.sailingLoop,
      createReservation.charge, rewriteSailings_mk, createReservation.finish, writeReservation,
      createReservationRepeat]
  rw [h]
  exact ⟨rfl, rfl, rfl, by norm_num⟩

/-- **C9 (code at the failing input).** In scenario A a new vehicle of length 10 and height
1.5 is booked: it is not low-roof eligible, so the high lane is charged (100/200 becomes
100/190).  Cancelling that reservation credits the low lane, because the height is at most 2:
the sailing ends at 110/190 and neither lane has its value from before the booking. -/
theorem book_then_cancel_moves_length :
    (createReservation "ABC-01-08" "LONG001" consoleC junk scenarioA).1 = .ok () ∧
    (createReservation "ABC-01-08" "LONG001" consoleC junk scenarioA).2.sailings.recs
      = [⟨"ABC-01-08", "Spirit", 100, 190⟩] ∧
    (deleteReservation "ABC-01-08" "LONG001"
      (createReservation "ABC-01-08" "LONG001" consoleC junk scenarioA).2).1 = .ok () ∧
    (deleteReservation "ABC-01-08" "LONG001"
      (createReservation "ABC-01-08" "LONG001" consoleC junk scenarioA).2).2.sailings.recs
      = [⟨"ABC-01-08", "Spirit", 110, 190⟩] := by
  have h : createReservation "ABC-01-08" "LONG001" consoleC junk scenarioA =
      (.ok (),
        { vessels := { isOpen := true, recs := [⟨"Spirit", 200, 100⟩], pos := 0 },
          sailings := { isOpen := true, recs := [⟨"ABC-01-08", "Spirit", 100, 190⟩], pos := 1 },
          vehicles :=
            { isOpen := true, recs := [⟨"LONG001", "6045550103", 3 / 2, 10⟩, junk], pos := 2 },
          reservations :=
            { isOpen := true, recs := [⟨"ABC-01-08", "LONG001", false, false⟩], pos := 1 } }) := by
    norm_num [createReservation, scenarioA, consoleC, junk, vehicleReset, RecFile.reset,
      createReservation.vehicleLoop, createReservation.newVehicle, writeVehicle, RecFile.put,
      createReservation.updateSailing, sailingReset, createReservation.sailingLoop,
      createReservation.charge, rewriteSailings_mk, createReservation.finish, writeReservation,
      createReservationRepeat]
  rw [h]
  refine ⟨rfl, rfl, ?_, ?_⟩ <;>
    norm_num [deleteReservation, deleteReservation.release, deleteReservation.credit, scanFor,
      deleteSailing, sailingReset, vehicleReset, writeSailing, RecFile.reset, RecFile.put,
      RecFile.overwriteWithLast, RecFile.truncateReopen, junk]

/-- **C10 (code at the failing input).** The reservation of `flagged false` carries
isLRL = false, yet `deleteReservation` adds the vehicle's length 10 to lowRemainingLength
(100/190 becomes 110/190), because the vehicle's height 1.5 is at most 2; with the flag set to
true instead the outcome is the same: the stored flag is not read. -/
theorem deleteReservation_ignores_flag :
    (deleteReservation "ABC-01-08" "LONG001" (flagged false)).1 = .ok () ∧
    (deleteReservation "ABC-01-08" "LONG001" (flagged false)).2.sailings.recs
      = [⟨"ABC-01-08", "Spirit", 110, 190⟩] ∧
    (deleteReservation "ABC-01-08" "LONG001" (flagged true)).2.sailings.recs
      = [⟨"ABC-01-08", "Spirit", 110, 190⟩] := by
  refine ⟨?_, ?_, ?_⟩ <;>
    norm_num [flagged, deleteReservation, deleteReservation.release, deleteReservation.credit,
      scanFor, deleteSailing, sailingReset, vehicleReset, writeSailing, RecFile.reset,
      RecFile.put, RecFile.overwriteWithLast, RecFile.truncateReopen]

/-! ## The capacity invariant over a sequence of calls -/

theorem createSailing_harbour :
    createSailing 1 "Spirit" "ABC-01-08" junkVessel harbour = some (.ok (), harbourSailing) := by
  simp [createSailing, createSailing.findVessel, harbour, harbourSailing, junkVessel,
    vesselReset, getNextVessel, RecFile.reset, RecFile.getNext, checkSailingExists,
    sailingReset, scanFor, writeSailing, RecFile.put]

/-- **C11 (code at the failing input).** `createSailing` makes the sailing ABC-01-08 from the
vessel "Spirit" (LCLL 100, HCLL 200) with low = 100 and high = 200.  A new vehicle of length 10
and height 1.5 is booked (high lane charged: 100/190) and the reservation is cancelled
(low lane credited): the sailing is at low = 110, above the vessel's LCLL of 100. -/
theorem capacity_exceeded_after_cancel :
    createSailing 1 "Spirit" "ABC-01-08" junkVessel harbour = some (.ok (), harbourSailing) ∧
    harbourSailing.sailings.recs = [⟨"ABC-01-08", "Spirit", 100, 200⟩] ∧
    (createReservation "ABC-01-08" "LONG001" consoleC junk harbourSailing).1 = .ok () ∧
    (deleteReservation "ABC-01-08" "LONG001"
      (createReservation "ABC-01-08" "LONG001" consoleC junk harbourSailing).2).1 = .ok () ∧
    (deleteReservation "ABC-01-08" "LONG001"
      (createReservation "ABC-01-08" "LONG001" consoleC junk harbourSailing).2).2.sailings.recs
      = [⟨"ABC-01-08", "Spirit", 110, 190⟩] ∧
    ¬ ((110 : ℚ) ≤ 100) := by
  have h : createReservation "ABC-01-08" "LONG001" consoleC junk harbourSailing =
      (.ok (),
        { vessels := { isOpen := true, recs := [⟨"Spirit", 200, 100⟩], pos := 1 },
          sailings := { isOpen := true, recs := [⟨"ABC-01-08", "Spirit", 100, 190⟩], pos := 1 },
          vehicles :=
            { isOpen := true, recs := [⟨"LONG001", "6045550103", 3 / 2, 10⟩, junk], pos := 2 },
          reservations :=
            { isOpen := true, recs := [⟨"ABC-01-08", "LONG001", false, false⟩], pos := 1 } }) := by
    norm_num [createReservation, harbourSailing, consoleC, junk, vehicleReset, RecFile.reset,
      createReservation.vehicleLoop, createReservation.newVehicle, writeVehicle, RecFile.put,
      createReservation.updateSailing, sailingReset, createReservation.sailingLoop,
      createReservation.charge, rewriteSailings_mk, createReservation.finish, writeReservation,
      createReservationRepeat]
  rw [h]
  refine ⟨createSailing_harbour, rfl, rfl, ?_, ?_, by norm_num⟩ <;>
    norm_num [deleteReservation, deleteReservation.release, deleteReservation.credit, scanFor,
      deleteSailing, sailingReset, vehicleReset, writeSailing, RecFile.reset, RecFile.put,
      RecFile.overwriteWithLast, RecFile.truncateReopen, junk]

/-! ## createReservation: what a failed booking has written -/

theorem vehicleLoop_error_kind (sailingID vehicleLicence : String) (input : Nat → RepeatInput)
    (l : List Vehicle) :
    ∀ (loc : BookingLocals) (st st' : Sys) (e : Error),
      createReservation.vehicleLoop sailingID vehicleLicence input l loc st = (.error e, st') →
      e = .notOpen ∨ e = .inputNeitherYNorN := by
  induction l with
  | nil => intro loc st st' e h; simp [createReservation.vehicleLoop] at h
  | cons v rest ih =>
    intro loc st st' e h
    by_cases hv : v.vehicleLicence = vehicleLicence
    · cases hopen : st.reservations.isOpen with
      | false =>
        simp only [createReservation.vehicleLoop, hv, if_true,
          writeReservation_closed _ _ _ hopen, Prod.mk.injEq, Except.error.injEq] at h
        exact Or.inl h.1.symm
      | true =>
        cases hin : input loc.asked with
        | neither =>
          simp only [createReservation.vehicleLoop, hv, if_true,
            writeReservation_append _ _ hopen, hin, createReservationRepeat, Prod.mk.injEq,
            Except.error.injEq] at h
          exact Or.inr h.1.symm
        | N =>
          simp only [createReservation.vehicleLoop, hv, if_true,
            writeReservation_append _ _ hopen, hin, createReservationRepeat] at h
          exact ih _ _ _ _ h
    · simp only [createReservation.vehicleLoop, hv, if_false] at h
      exact ih _ _ _ _ h

theorem newVehicle_error_kind (vehicleLicence : String) (con : Console) (loc : BookingLocals)
    (st st' : Sys) (e : Error)
    (h : createReservation.newVehicle vehicleLicence con loc st = (.error e, st')) :
    e = .notOpen := by
  cases hex : loc.vehExists <;> cases hvo : st.vehicles.isOpen <;>
    simp [createReservation.newVehicle, hex, writeVehicle, hvo] at h
  all_goals exact h.1.symm

theorem finish_error_kind (con : Console) (loc : BookingLocals) (newRes : Reservation)
    (st st' : Sys) (e : Error)
    (h : createReservation.finish con loc newRes st = (.error e, st')) :
    e = .notOpen ∨ e = .inputNeitherYNorN := by
  cases hex : loc.vehExists with
  | true => simp [createReservation.finish, hex] at h
  | false =>
    cases hro : st.reservations.isOpen with
    | false =>
      simp only [createReservation.finish, hex, writeReservation_closed _ _ _ hro,
        Bool.false_eq_true, if_false, Prod.mk.injEq, Except.error.injEq] at h
      exact Or.inl h.1.symm
    | true =>
      cases hvo : st.vehicles.isOpen with
      | false =>
        simp only [createReservation.finish, hex, writeReservation_append _ _ hro,
          writeVehicle, hvo, Bool.false_eq_true, if_false, Prod.mk.injEq,
          Except.error.injEq] at h
        exact Or.inl h.1.symm
      | true =>
        cases hin : con.input loc.asked with
        | N =>
          simp [createReservation.finish, hex, writeReservation_append _ _ hro, writeVehicle,
            hvo, hin, createReservationRepeat] at h
        | neither =>
          simp only [createReservation.finish, hex, writeReservation_append _ _ hro,
            writeVehicle, hvo, hin, createReservationRepeat, Bool.false_eq_true, if_false,
            if_true, Prod.mk.injEq, Except.error.injEq] at h
          exact Or.inr h.1.symm

theorem updateSailing_frame (sailingID vehicleLicence : String) (loc : BookingLocals)
    (st : Sys) :
    (createReservation.updateSailing sailingID vehicleLicence loc st).2.vehicles = st.vehicles ∧
    (createReservation.updateSailing sailingID vehicleLicence loc st).2.reservations
      = st.reservations ∧
    (createReservation.updateSailing sailingID vehicleLicence loc st).2.vessels = st.vessels := by
  cases hopen : st.sailings.isOpen with
  | false => simp [createReservation.updateSailing, sailingReset, RecFile.reset, hopen]
  | true =>
    simp only [createReservation.updateSailing, sailingReset, RecFile.reset, hopen, if_true]
    cases hloop : createReservation.sailingLoop sailingID
        (decide (loc.vehicleHeight ≤ 2) && decide (loc.vehicleLength ≤ 7)) loc.vehicleLength
        st.sailings.recs [] false { isOpen := true, recs := st.sailings.recs, pos := 0 } with
    | mk res sf =>
      cases res with
      | error e => exact ⟨rfl, rfl, rfl⟩
      | ok p =>
        obtain ⟨out, found⟩ := p
        obtain ⟨l', -, -, -, hsf⟩ := sailingLoop_ok _ _ _ _ _ _ _ _ _ _ hloop
        subst hsf
        cases found with
        | true => simp [rewriteSailings_mk]
        | false => exact ⟨rfl, rfl, rfl⟩

theorem createReservation_insufficient_phases (sailingID vehicleLicence : String)
    (con : Console) (v₀ : Vehicle) (st st' : Sys)
    (h : createReservation sailingID vehicleLicence con v₀ st = (.error .insufficientSpace, st')) :
    st.vehicles.isOpen = true ∧
    ∃ loc₁ st₁ loc₂ st₂,
      createReservation.vehicleLoop sailingID vehicleLicence con.input st.vehicles.recs
        { v := v₀, phoneNumber := "", vehicleLength := 0, vehicleHeight := 0,
          vehExists := false, asked := 0 }
        { st with vehicles := { isOpen := true, recs := st.vehicles.recs, pos := 0 } }
          = (.ok loc₁, st₁) ∧
      createReservation.newVehicle vehicleLicence con loc₁ st₁ = (.ok loc₂, st₂) ∧
      createReservation.updateSailing sailingID vehicleLicence loc₂ st₂
        = (.error .insufficientSpace, st') := by
  cases hopen : st.vehicles.isOpen with
  | false => simp [createReservation, vehicleReset, RecFile.reset, hopen] at h
  | true =>
    simp only [createReservation, vehicleReset, RecFile.reset, hopen, if_true] at h
    refine ⟨rfl, ?_⟩
    cases h1 : createReservation.vehicleLoop sailingID vehicleLicence con.input st.vehicles.recs
        { v := v₀, phoneNumber := "", vehicleLength := 0, vehicleHeight := 0,
          vehExists := false, asked := 0 }
        { st with vehicles := { isOpen := true, recs := st.vehicles.recs, pos := 0 } } with
    | mk res₁ st₁ =>
      cases res₁ with
      | error e =>
        simp only [h1, Prod.mk.injEq, Except.error.injEq] at h
        rcases vehicleLoop_error_kind _ _ _ _ _ _ _ _ h1 with he | he <;>
          rw [he] at h <;> exact absurd h.1 (by decide)
      | ok loc₁ =>
        simp only [h1] at h
        cases h2 : createReservation.newVehicle vehicleLicence con loc₁ st₁ with
        | mk res₂ st₂ =>
          cases res₂ with
          | error e =>
            simp only [h2, Prod.mk.injEq, Except.error.injEq] at h
            rw [newVehicle_error_kind _ _ _ _ _ _ h2] at h
            exact absurd h.1 (by decide)
          | ok loc₂ =>
            simp only [h2] at h
            cases h3 : createReservation.updateSailing sailingID vehicleLicence loc₂ st₂ with
            | mk res₃ st₃ =>
              cases res₃ with
              | error e =>
                simp only [h3, Prod.mk.injEq, Except.error.injEq] at h
                obtain ⟨he, hst⟩ := h
                rw [he, hst] at h3
                exact ⟨loc₁, st₁, loc₂, st₂, rfl, h2, h3⟩
              | ok newRes =>
                simp only [h3] at h
                rcases finish_error_kind _ _ _ _ _ _ h with he | he <;> cases he

/-- **C12 (amended).** When `createReservation` fails because the vehicle does not fit (the
exception "Insufficient space in both low and high roof lanes"), the records of the sailing
store are exactly what they were before the call; for a vehicle that was not on file the
reservation store is unchanged too and the vehicle store holds its previous records followed by
the record of the new vehicle; for a vehicle on file the vehicle store is unchanged. -/
theorem createReservation_no_space_writes (sailingID vehicleLicence : String) (con : Console)
    (v₀ : Vehicle) (st st' : Sys)
    (h : createReservation sailingID vehicleLicence con v₀ st = (.error .insufficientSpace, st')) :
    st'.sailings.recs = st.sailings.recs ∧
    ((∀ w ∈ st.vehicles.recs, w.vehicleLicence ≠ vehicleLicence) →
      st'.reservations.recs = st.reservations.recs ∧
      st'.vehicles.recs = st.vehicles.recs ++
        [{ vehicleLicence := vehicleLicence, phone := con.phoneNumber,
           vehicleHeight := con.vehicleHeight, vehicleLength := con.vehicleLength }]) ∧
    ((∃ w ∈ st.vehicles.recs, w.vehicleLicence = vehicleLicence) →
      st'.vehicles.recs = st.vehicles.recs) := by
  obtain ⟨hvo, loc₁, st₁, loc₂, st₂, h1, h2, h3⟩ :=
    createReservation_insufficient_phases _ _ _ _ _ _ h
  have hframe := vehicleLoop_frame sailingID vehicleLicence con.input st.vehicles.recs
    { v := v₀, phoneNumber := "", vehicleLength := 0, vehicleHeight := 0,
      vehExists := false, asked := 0 }
    { st with vehicles := { isOpen := true, recs := st.vehicles.recs, pos := 0 } }
  rw [h1] at hframe
  obtain ⟨hf1, -, hf3, -, -⟩ := hframe
  obtain ⟨hs2, -, hr2, -, -, -, -, hnv⟩ := newVehicle_ok _ _ _ _ _ _ h2
  have hu := updateSailing_frame sailingID vehicleLicence loc₂ st₂
  rw [h3] at hu
  obtain ⟨hu1, hu2, -⟩ := hu
  have hsail : st'.sailings.recs = st.sailings.recs := by
    rw [updateSailing_error_recs _ _ _ _ _ _ h3, hs2, hf1]
  refine ⟨hsail, ?_, ?_⟩
  · intro habs
    rw [vehicleLoop_absent _ _ _ _ habs] at h1
    simp only [Prod.mk.injEq, Except.ok.injEq] at h1
    obtain ⟨rfl, rfl⟩ := h1
    rcases hnv with ⟨hcontra, -⟩ | ⟨-, -, -, -, hrecs2, -⟩
    · cases hcontra
    · simp only [Nat.zero_add] at hrecs2
      rw [put_at_end _ _ _ rfl] at hrecs2
      exact ⟨by show st'.reservations.recs = _; rw [hu2, hr2],
        by show st'.vehicles.recs = _; rw [hu1, hrecs2]⟩
  · intro hex
    obtain ⟨pre, v, post, hrecs, hv, hpost⟩ :=
      split_last (fun x : Vehicle => decide (x.vehicleLicence = vehicleLicence)) _
        (by obtain ⟨w, hw1, hw2⟩ := hex; exact ⟨w, hw1, by simpa using hw2⟩)
    simp only [decide_eq_true_eq, decide_eq_false_iff_not] at hv hpost
    have h1' := h1
    rw [hrecs] at h1'
    obtain ⟨-, -, hvex, -⟩ := vehicleLoop_ok_last _ _ _ _ _ _ _ _ _ _ hv hpost h1'
    rcases hnv with ⟨-, -, hst⟩ | ⟨hcontra, -⟩
    · show st'.vehicles.recs = _
      rw [hu1, hst]
      exact hf3
    · rw [hvex] at hcontra
      cases hcontra

theorem createReservation_nearlyFull_new :
    createReservation "ABC-01-08" "NEW0001" consoleA junk nearlyFull =
      (.error .insufficientSpace,
        { vessels := { isOpen := true, recs := [⟨"Skiff", 3, 7⟩], pos := 0 },
          sailings := { isOpen := true, recs := [⟨"ABC-01-08", "Skiff", 2, 3⟩], pos := 1 },
          vehicles :=
            { isOpen := true,
              recs := [⟨"XYZ123", "6045550100", 3 / 2, 5⟩, ⟨"QRS789", "6045550101", 3 / 2, 5⟩,
                       ⟨"NEW0001", "6045550100", 3 / 2, 5⟩],
              pos := 3 },
          reservations :=
            { isOpen := true, recs := [⟨"ABC-01-08", "XYZ123", false, true⟩], pos := 0 } }) := by
  have h1 : ¬ ("XYZ123" = "NEW0001") := by decide
  have h2 : ¬ ("QRS789" = "NEW0001") := by decide
  have h3 : ¬ ("XYZ123" = "QRS789") := by decide
  norm_num [createReservation, nearlyFull, consoleA, junk, vehicleReset, RecFile.reset,
    createReservation.vehicleLoop, createReservation.newVehicle, writeVehicle, RecFile.put,
    createReservation.updateSailing, sailingReset, createReservation.sailingLoop,
    createReservation.charge, rewriteSailings_mk, createReservation.finish, writeReservation,
    createReservationRepeat, h1, h2, h3]

theorem createReservation_nearlyFull_onFile :
    createReservation "ABC-01-08" "QRS789" consoleA junk nearlyFull =
      (.error .insufficientSpace,
        { vessels := { isOpen := true, recs := [⟨"Skiff", 3, 7⟩], pos := 0 },
          sailings := { isOpen := true, recs := [⟨"ABC-01-08", "Skiff", 2, 3⟩], pos := 1 },
          vehicles :=
            { isOpen := true,
              recs := [⟨"XYZ123", "6045550100", 3 / 2, 5⟩, ⟨"QRS789", "6045550101", 3 / 2, 5⟩],
              pos := 2 },
          reservations :=
            { isOpen := true,
              recs := [⟨"ABC-01-08", "XYZ123", false, true⟩,
                       ⟨"ABC-01-08", "QRS789", false, true⟩],
              pos := 2 } }) := by
  have h1 : ¬ ("XYZ123" = "NEW0001") := by decide
  have h2 : ¬ ("QRS789" = "NEW0001") := by decide
  have h3 : ¬ ("XYZ123" = "QRS789") := by decide
  norm_num [createReservation, nearlyFull, consoleA, junk, vehicleReset, RecFile.reset,
    createReservation.vehicleLoop, createReservation.newVehicle, writeVehicle, RecFile.put,
    createReservation.updateSailing, sailingReset, createReservation.sailingLoop,
    createReservation.charge, rewriteSailings_mk, createReservation.finish, writeReservation,
    createReservationRepeat, h1, h2, h3]

/-- Counterexample to C12 as stated: the sailing of `nearlyFull` has 2 and 3 left and the
vehicle is 5 long, so the booking fails with "Insufficient space".  For the new licence NEW0001
the vehicle store has gained the record of the new vehicle by then (it is written before the
lanes are tested); for QRS789, which is on file, the reservation store has gained a record for
(ABC-01-08, QRS789). -/
theorem createReservation_no_space_counterexample :
    (createReservation "ABC-01-08" "NEW0001" consoleA junk nearlyFull).1
      = .error .insufficientSpace ∧
    (createReservation "ABC-01-08" "NEW0001" consoleA junk nearlyFull).2.vehicles.recs
      = nearlyFull.vehicles.recs ++ [⟨"NEW0001", "6045550100", 3 / 2, 5⟩] ∧
    (createReservation "ABC-01-08" "NEW0001" consoleA junk nearlyFull).2.vehicles.recs
      ≠ nearlyFull.vehicles.recs ∧
    (createReservation "ABC-01-08" "QRS789" consoleA junk nearlyFull).1
      = .error .insufficientSpace ∧
    (createReservation "ABC-01-08" "QRS789" consoleA junk nearlyFull).2.reservations.recs
      = nearlyFull.reservations.recs ++ [⟨"ABC-01-08", "QRS789", false, true⟩] ∧
    (createReservation "ABC-01-08" "QRS789" consoleA junk nearlyFull).2.reservations.recs
      ≠ nearlyFull.reservations.recs := by
  rw [createReservation_nearlyFull_new, createReservation_nearlyFull_onFile]
  refine ⟨rfl, rfl, ?_, rfl, rfl, ?_⟩
  · simp [nearlyFull]
  · simp [nearlyFull]

/-- Witness for the amended C12: the failed booking of the new licence NEW0001 in
`nearlyFull`. -/
theorem createReservation_no_space_writes_witness :
    createReservation "ABC-01-08" "NEW0001" consoleA junk nearlyFull
      = (.error .insufficientSpace,
          (createReservation "ABC-01-08" "NEW0001" consoleA junk nearlyFull).2) ∧
    (createReservation "ABC-01-08" "NEW0001" consoleA junk nearlyFull).2.sailings.recs
      = nearlyFull.sailings.recs ∧
    ((∀ w ∈ nearlyFull.vehicles.recs, w.vehicleLicence ≠ "NEW0001") →
      (createReservation "ABC-01-08" "NEW0001" consoleA junk nearlyFull).2.reservations.recs
        = nearlyFull.reservations.recs ∧
      (createReservation "ABC-01-08" "NEW0001" consoleA junk nearlyFull).2.vehicles.recs
        = nearlyFull.vehicles.recs ++
          [{ vehicleLicence := "NEW0001", phone := consoleA.phoneNumber,
             vehicleHeight := consoleA.vehicleHeight,
             vehicleLength := consoleA.vehicleLength }]) ∧
    ((∃ w ∈ nearlyFull.vehicles.recs, w.vehicleLicence = "NEW0001") →
      (createReservation "ABC-01-08" "NEW0001" consoleA junk nearlyFull).2.vehicles.recs
        = nearlyFull.vehicles.recs) :=
  have h : createReservation "ABC-01-08" "NEW0001" consoleA junk nearlyFull
      = (.error .insufficientSpace,
          (createReservation "ABC-01-08" "NEW0001" consoleA junk nearlyFull).2) := by
    rw [createReservation_nearlyFull_new]
  ⟨h, createReservation_no_space_writes "ABC-01-08" "NEW0001" consoleA junk nearlyFull _ h⟩

/-! ## createReservation: the reservation records of a successful booking -/

theorem vehicleLoop_ok_single (sailingID vehicleLicence : String) (input : Nat → RepeatInput)
    (pre post : List Vehicle) (v : Vehicle) (loc loc' : BookingLocals) (st st' : Sys)
    (hv : v.vehicleLicence = vehicleLicence)
    (hpre : ∀ w ∈ pre, w.vehicleLicence ≠ vehicleLicence)
    (hpost : ∀ w ∈ post, w.vehicleLicence ≠ vehicleLicence)
    (h : createReservation.vehicleLoop sailingID vehicleLicence input (pre ++ v :: post) loc st
      = (.ok loc', st')) :
    loc'.vehExists = true ∧
    st'.reservations.recs = st.reservations.recs ++
      [{ sailingID := sailingID, vehicleLicence := vehicleLicence, onBoard := false,
         isLRL := decide (v.vehicleHeight ≤ 2) || decide (v.vehicleLength ≤ 7) }] := by
  rw [vehicleLoop_append, vehicleLoop_absent _ _ _ pre hpre] at h
  simp only at h
  cases hopen : st.reservations.isOpen with
  | false =>
    have hw := writeReservation_closed
      { sailingID := sailingID, vehicleLicence := vehicleLicence, onBoard := false,
        isLRL := decide (v.vehicleHeight ≤ 2) || decide (v.vehicleLength ≤ 7) }
      false st.reservations hopen
    simp [createReservation.vehicleLoop, hv, hw] at h
  | true =>
    have hw := writeReservation_append
      { sailingID := sailingID, vehicleLicence := vehicleLicence, onBoard := false,
        isLRL := decide (v.vehicleHeight ≤ 2) || decide (v.vehicleLength ≤ 7) }
      st.reservations hopen
    cases hin : createReservationRepeat (input loc.asked) with
    | error e => simp [createReservation.vehicleLoop, hv, hw, hin] at h
    | ok u =>
      simp only [createReservation.vehicleLoop, hv, if_true, hw, hin,
        vehicleLoop_absent _ _ _ post hpost, Prod.mk.injEq, Except.ok.injEq] at h
      obtain ⟨rfl, rfl⟩ := h
      exact ⟨rfl, rfl⟩

theorem createReservation_ok_single (sailingID vehicleLicence : String) (con : Console)
    (v₀ : Vehicle) (st st' : Sys) (pre post : List Vehicle) (v : Vehicle)
    (h : createReservation sailingID vehicleLicence con v₀ st = (.ok (), st'))
    (hrecs : st.vehicles.recs = pre ++ v :: post) (hv : v.vehicleLicence = vehicleLicence)
    (hpre : ∀ w ∈ pre, w.vehicleLicence ≠ vehicleLicence)
    (hpost : ∀ w ∈ post, w.vehicleLicence ≠ vehicleLicence) :
    st'.reservations.recs = st.reservations.recs ++
      [{ sailingID := sailingID, vehicleLicence := vehicleLicence, onBoard := false,
         isLRL := decide (v.vehicleHeight ≤ 2) || decide (v.vehicleLength ≤ 7) }] := by
  obtain ⟨-, loc₁, st₁, loc₂, st₂, newRes, st₃, h1, h2, h3, h4⟩ :=
    createReservation_ok_phases _ _ _ _ _ _ h
  rw [hrecs] at h1
  obtain ⟨hex, hr1⟩ := vehicleLoop_ok_single _ _ _ _ _ _ _ _ _ _ hv hpre hpost h1
  obtain ⟨-, -, hr2, hex2, -, -, -, -⟩ := newVehicle_ok _ _ _ _ _ _ h2
  obtain ⟨-, -, -, l', hst₃, -⟩ := updateSailing_ok _ _ _ _ _ _ h3
  rw [hex] at hex2
  rcases (finish_ok _ _ _ _ _ h4).2.2 with ⟨-, hst'⟩ | ⟨hno, -⟩
  · rw [hst', hst₃]
    show st₂.reservations.recs = _
    rw [hr2, hr1]
  · rw [hex2] at hno
    cases hno

theorem filter_le_one_split {α : Type} (p : α → Bool) (l : List α)
    (h : (l.filter p).length ≤ 1) :
    (∀ x ∈ l, p x = false) ∨
    ∃ a x b, l = a ++ x :: b ∧ p x = true ∧ (∀ y ∈ a, p y = false) ∧ (∀ y ∈ b, p y = false) := by
  by_cases hex : ∃ x ∈ l, p x = true
  · right
    obtain ⟨a, x, b, rfl, hx, ha⟩ := split_first p l hex
    refine ⟨a, x, b, rfl, hx, ha, ?_⟩
    rw [List.filter_append, List.filter_cons, hx] at h
    simp only [if_true, List.length_append, List.length_cons] at h
    have hb : (b.filter p).length = 0 := by omega
    have hb' : b.filter p = [] := List.length_eq_zero.mp hb
    intro y hy
    have := List.filter_eq_nil_iff.mp hb' y hy
    simpa using this
  · left
    intro x hx
    cases hp : p x with
    | false => rfl
    | true => exact absurd ⟨x, hx, hp⟩ hex

theorem filter_key_append_new (recs : List Reservation) (r : Reservation) (K : String × String)
    (hnone : ∀ x ∈ recs, x.key ≠ K) (hr : r.key = K) :
    (recs ++ [r]).filter (fun x => decide (x.key = K)) = [r] := by
  rw [List.filter_append]
  have h1 : recs.filter (fun x => decide (x.key = K)) = [] :=
    List.filter_eq_nil_iff.mpr (fun x hx => by simpa using hnone x hx)
  rw [h1]
  simp [hr]

theorem createReservation_ok_has_record (sailingID vehicleLicence : String) (con : Console)
    (v₀ : Vehicle) (st st' : Sys)
    (h : createReservation sailingID vehicleLicence con v₀ st = (.ok (), st')) :
    ∃ r ∈ st'.reservations.recs, r.key = (sailingID, vehicleLicence) := by
  by_cases hex : ∃ x ∈ st.vehicles.recs, decide (x.vehicleLicence = vehicleLicence) = true
  · obtain ⟨pre, v, post, hrecs, hv, hpost⟩ :=
      split_last (fun x : Vehicle => decide (x.vehicleLicence = vehicleLicence)) _ hex
    simp only [decide_eq_true_eq, decide_eq_false_iff_not] at hv hpost
    exact (createReservation_ok_present _ _ _ _ _ _ _ _ _ h hrecs hv hpost).2.2.2.2.2.2.2
  · have habs : ∀ w ∈ st.vehicles.recs, w.vehicleLicence ≠ vehicleLicence := by
      intro w hw hlic
      exact hex ⟨w, hw, by simp [hlic]⟩
    have hres := (createReservation_ok_absent _ _ _ _ _ _ h habs).2.2.2.2.2.2
    rw [hres]
    exact ⟨{ sailingID := sailingID, vehicleLicence := vehicleLicence, onBoard := false,
             isLRL := decide (con.vehicleHeight ≤ 2) && decide (con.vehicleLength ≤ 7) },
      by simp, rfl⟩

/-- When `createReservation` succeeds for a pair that had no reservation and the licence has at
most one record in the vehicle store, the reservation store afterwards is the previous sequence
of records followed by exactly one new record, whose sailingID and vehicleLicence are the given
ones and whose onBoard is false; it is the only record for the pair. -/
theorem createReservation_appends_one (sailingID vehicleLicence : String) (con : Console)
    (v₀ : Vehicle) (st st' : Sys)
    (h : createReservation sailingID vehicleLicence con v₀ st = (.ok (), st'))
    (hnone : ∀ r ∈ st.reservations.recs, r.key ≠ (sailingID, vehicleLicence))
    (huniq : (st.vehicles.recs.filter
      (fun w => decide (w.vehicleLicence = vehicleLicence))).length ≤ 1) :
    ∃ r : Reservation, st'.reservations.recs = st.reservations.recs ++ [r] ∧
      r.sailingID = sailingID ∧ r.vehicleLicence = vehicleLicence ∧ r.onBoard = false ∧
      st'.reservations.recs.filter (fun x => decide (x.key = (sailingID, vehicleLicence)))
        = [r] := by
  rcases filter_le_one_split _ _ huniq with habs | ⟨pre, v, post, hrecs, hv, hpre, hpost⟩
  · simp only [decide_eq_false_iff_not] at habs
    have hres := (createReservation_ok_absent _ _ _ _ _ _ h habs).2.2.2.2.2.2
    refine ⟨_, by rw [hres], rfl, rfl, rfl, ?_⟩
    rw [hres]
    exact filter_key_append_new _ _ _ hnone rfl
  · simp only [decide_eq_true_eq, decide_eq_false_iff_not] at hv hpre hpost
    have hres := createReservation_ok_single _ _ _ _ _ _ _ _ _ h hrecs hv hpre hpost
    refine ⟨_, hres, rfl, rfl, rfl, ?_⟩
    rw [hres]
    exact filter_key_append_new _ _ _ hnone rfl

theorem createReservation_bookedA :
    createReservation "ABC-01-08" "XYZ123" consoleA junk bookedA =
      (.ok (),
        { vessels := { isOpen := true, recs := [⟨"Spirit", 200, 100⟩], pos := 0 },
          sailings := { isOpen := true, recs := [⟨"ABC-01-08", "Spirit", 90, 200⟩], pos := 1 },
          vehicles :=
            { isOpen := true, recs := [⟨"XYZ123", "6045550100", 3 / 2, 5⟩, junk], pos := 2 },
          reservations :=
            { isOpen := true,
              recs := [⟨"ABC-01-08", "XYZ123", false, true⟩,
                       ⟨"ABC-01-08", "XYZ123", false, true⟩],
              pos := 2 } }) := by
  have h1 : ¬ ("" = "XYZ123") := by decide
  norm_num [createReservation, consoleA, bookedA, junk, vehicleReset, RecFile.reset,
    createReservation.vehicleLoop, createReservation.newVehicle, writeVehicle, RecFile.put,
    createReservation.updateSailing, sailingReset, createReservation.sailingLoop,
    createReservation.charge, rewriteSailings_mk, createReservation.finish, writeReservation,
    createReservationRepeat, h1]

/-- Counterexample to C13 as stated: in scenario A the first booking of (ABC-01-08, XYZ123)
gives `bookedA` (one record, low = 95, high = 200); the same call again succeeds, and then the
reservation store holds two records for the pair and the sailing has low = 90. -/
theorem createReservation_twice_counterexample :
    createReservation "ABC-01-08" "XYZ123" consoleA junk scenarioA = (.ok (), bookedA) ∧
    (createReservation "ABC-01-08" "XYZ123" consoleA junk bookedA).1 = .ok () ∧
    (createReservation "ABC-01-08" "XYZ123" consoleA junk bookedA).2.reservations.recs
      = [⟨"ABC-01-08", "XYZ123", false, true⟩, ⟨"ABC-01-08", "XYZ123", false, true⟩] ∧
    bookedA.sailings.recs = [⟨"ABC-01-08", "Spirit", 95, 200⟩] ∧
    (createReservation "ABC-01-08" "XYZ123" consoleA junk bookedA).2.sailings.recs
      = [⟨"ABC-01-08", "Spirit", 90, 200⟩] := by
  rw [createReservation_bookedA]
  exact ⟨createReservation_scenarioA, rfl, rfl, rfl, rfl⟩

/-- **C13 (amended).** `createReservation` does not look for an existing reservation.  When two
calls with the same (sailingID, vehicleLicence) both succeed, the licence having one record `v`
in the vehicle store after the first, the second call appends one more Reservation record for
the pair, so that the store holds at least two of them, and it charges every sailing with the
given ID again: one lane that held at least `v.vehicleLength` is set to the float nearest to
its length less `v.vehicleLength`, the other lane and the other sailings staying as they were
after the first call. -/
theorem createReservation_twice_books_twice (sailingID vehicleLicence : String)
    (con₁ con₂ : Console) (v₀ v₁ : Vehicle) (st st₁ st₂ : Sys)
    (pre post : List Vehicle) (v : Vehicle)
    (h1 : createReservation sailingID vehicleLicence con₁ v₀ st = (.ok (), st₁))
    (h2 : createReservation sailingID vehicleLicence con₂ v₁ st₁ = (.ok (), st₂))
    (hrecs : st₁.vehicles.recs = pre ++ v :: post) (hv : v.vehicleLicence = vehicleLicence)
    (hpre : ∀ w ∈ pre, w.vehicleLicence ≠ vehicleLicence)
    (hpost : ∀ w ∈ post, w.vehicleLicence ≠ vehicleLicence) :
    st₂.reservations.recs = st₁.reservations.recs ++
      [{ sailingID := sailingID, vehicleLicence := vehicleLicence, onBoard := false,
         isLRL := decide (v.vehicleHeight ≤ 2) || decide (v.vehicleLength ≤ 7) }] ∧
    2 ≤ (st₂.reservations.recs.filter
      (fun x => decide (x.key = (sailingID, vehicleLicence)))).length ∧
    (∃ s ∈ st₁.sailings.recs, s.sailingID = sailingID) ∧
    List.Forall₂ (fun s s' =>
      if s.sailingID = sailingID then
        (v.vehicleLength ≤ s.lowRemainingLength ∧
          s' = { s with lowRemainingLength := f32 (s.lowRemainingLength - v.vehicleLength) }) ∨
        (v.vehicleLength ≤ s.highRemainingLength ∧
          s' = { s with highRemainingLength := f32 (s.highRemainingLength - v.vehicleLength) })
      else s' = s) st₁.sailings.recs st₂.sailings.recs := by
  have hres := createReservation_ok_single _ _ _ _ _ _ _ _ _ h2 hrecs hv hpre hpost
  obtain ⟨r, hr, hkey⟩ := createReservation_ok_has_record _ _ _ _ _ _ h1
  obtain ⟨-, hfound, ⟨l', hs', hall⟩, -⟩ :=
    createReservation_ok_present _ _ _ _ _ _ _ _ _ h2 hrecs hv hpost
  refine ⟨hres, ?_, hfound, ?_⟩
  · obtain ⟨a, b, hab⟩ := List.append_of_mem hr
    rw [hres, hab]
    have hk : r.sailingID = sailingID ∧ r.vehicleLicence = vehicleLicence := by
      simpa [Reservation.key] using hkey
    simp [List.filter_append, List.filter_cons, hk.1, hk.2, Reservation.key]
    omega
  · rw [hs']
    refine List.Forall₂.imp ?_ hall
    intro s s' hrel
    by_cases hs : s.sailingID = sailingID
    · rw [if_pos hs] at hrel
      rw [if_pos hs]
      exact charge_ok_cases _ _ _ _ hrel
    · rw [if_neg hs] at hrel
      rw [if_neg hs]
      exact hrel

/-- Witness for the amended C13: the two bookings of (ABC-01-08, XYZ123) from scenario A. -/
theorem createReservation_twice_books_twice_witness :
    createReservation "ABC-01-08" "XYZ123" consoleA junk scenarioA = (.ok (), bookedA) ∧
    2 ≤ ((createReservation "ABC-01-08" "XYZ123" consoleA junk bookedA).2.reservations.recs.filter
      (fun x => decide (x.key = ("ABC-01-08", "XYZ123")))).length :=
  ⟨createReservation_scenarioA,
    (createReservation_twice_books_twice "ABC-01-08" "XYZ123" consoleA consoleA junk junk
      scenarioA bookedA (createReservation "ABC-01-08" "XYZ123" consoleA junk bookedA).2
      [] [junk] ⟨"XYZ123", "6045550100", 3 / 2, 5⟩
      createReservation_scenarioA (by rw [createReservation_bookedA]) rfl rfl
      (by simp) (by simp [junk])).2.1⟩

/-! ## checkIn and createResAtCheckin on concrete states -/

/-- **C15.** `createResAtCheckin` does not charge the lanes as `createReservation` does.  In
scenario A (low = 100, high = 200) a vehicle of length 50 and height 3, not low-roof eligible,
is charged to the high lane by `createReservation` (low = 100, high = 150) and to the low lane
by `createResAtCheckin` (low = 50, high = 200); and for a sailing ID that is not on file
`createReservation` fails with "SailingID not found" where `createResAtCheckin` succeeds. -/
theorem createResAtCheckin_differs_from_create :
    (createReservation "ABC-01-08" "QRS789" consoleB junk scenarioA).1 = .ok () ∧
    (createReservation "ABC-01-08" "QRS789" consoleB junk scenarioA).2.sailings.recs
      = [⟨"ABC-01-08", "Spirit", 100, 150⟩] ∧
    (createResAtCheckin "ABC-01-08" "QRS789" consoleB scenarioA).1 = .ok () ∧
    (createResAtCheckin "ABC-01-08" "QRS789" consoleB scenarioA).2.sailings.recs
      = [⟨"ABC-01-08", "Spirit", 50, 200⟩] ∧
    (createReservation "DEF-02-09" "QRS789" consoleB junk scenarioA).1
      = .error .sailingIDNotFound ∧
    (createResAtCheckin "DEF-02-09" "QRS789" consoleB scenarioA).1 = .ok () := by
  have h1 : ¬ ("ABC-01-08" = "DEF-02-09") := by decide
  norm_num [createReservation, createResAtCheckin, scenarioA, consoleB, junk, vehicleReset,
    RecFile.reset, createReservation.vehicleLoop, createReservation.newVehicle, writeVehicle,
    RecFile.put, createReservation.updateSailing, sailingReset, createReservation.sailingLoop,
    createReservation.charge, createResAtCheckin.sailingLoop, createResAtCheckin.charge,
    rewriteSailings_mk, createReservation.finish, writeReservation, createReservationRepeat, h1]

/-- **C16.** `checkIn` does not write the flag of a reservation that existed.  In `booked` the
check-in of (ABC-01-08, XYZ123) returns the fare 14 and leaves the records of the reservation
store as they were: the record of the pair still has onBoard = false, and no record of the pair
has onBoard = true. -/
theorem checkIn_keeps_onBoard_false :
    (checkIn "ABC-01-08" "XYZ123" consoleA 8 3 junkReservation booked).1 = .ok 14 ∧
    (checkIn "ABC-01-08" "XYZ123" consoleA 8 3 junkReservation booked).2.reservations.recs
      = booked.reservations.recs ∧
    ∀ r ∈ (checkIn "ABC-01-08" "XYZ123" consoleA 8 3 junkReservation booked).2.reservations.recs,
      r.key = ("ABC-01-08", "XYZ123") → r.onBoard = false := by
  have h1 : ¬ ("QRS789" = "XYZ123") := by decide
  norm_num [checkIn, checkIn.fare, checkIn.search, booked, reservationReset, getNextReservation,
    RecFile.reset, RecFile.getNext, Reservation.key, h1]

/-- **C17.** `checkIn` books again when the reservation of the pair is the last record of the
store.  In `bookedA` the only reservation is that of (ABC-01-08, XYZ123), low = 95; after the
check-in of that pair the store holds two records for it, the sailing has low = 90, and the
vehicle store has a second record for XYZ123. -/
theorem checkIn_books_again_when_last :
    bookedA.reservations.recs = [⟨"ABC-01-08", "XYZ123", false, true⟩] ∧
    bookedA.sailings.recs = [⟨"ABC-01-08", "Spirit", 95, 200⟩] ∧
    (checkIn "ABC-01-08" "XYZ123" consoleA 8 3 junkReservation bookedA).1 = .ok 14 ∧
    (checkIn "ABC-01-08" "XYZ123" consoleA 8 3 junkReservation bookedA).2.reservations.recs
      = [⟨"ABC-01-08", "XYZ123", false, true⟩, ⟨"ABC-01-08", "XYZ123", true, true⟩] ∧
    (checkIn "ABC-01-08" "XYZ123" consoleA 8 3 junkReservation bookedA).2.sailings.recs
      = [⟨"ABC-01-08", "Spirit", 90, 200⟩] ∧
    (checkIn "ABC-01-08" "XYZ123" consoleA 8 3 junkReservation bookedA).2.vehicles.recs
      = [⟨"XYZ123", "6045550100", 3 / 2, 5⟩, junk, ⟨"XYZ123", "6045550100", 3 / 2, 5⟩] := by
  norm_num [checkIn, checkIn.fare, checkIn.search, bookedA, consoleA, junk, reservationReset,
    getNextReservation, RecFile.reset, RecFile.getNext, createResAtCheckin, vehicleReset,
    sailingReset, createResAtCheckin.sailingLoop, createResAtCheckin.charge, rewriteSailings_mk,
    writeReservation, writeVehicle, RecFile.put]

/-- **C18.** `checkIn` of a pair whose reservation is on file with isLRL = true need not return
14.  In `nearlyFull` the reservation of (ABC-01-08, XYZ123) has isLRL = true and is the last
record; the check-in books again, the sailing has 2 and 3 left for a vehicle of length 5, and
the call fails with "Insufficient space" without any fare. -/
theorem checkIn_lrl_fails_when_last :
    (∃ r ∈ nearlyFull.reservations.recs, r.key = ("ABC-01-08", "XYZ123") ∧ r.isLRL = true) ∧
    (checkIn "ABC-01-08" "XYZ123" consoleA 8 3 junkReservation nearlyFull).1
      = .error .insufficientSpace := by
  refine ⟨⟨⟨"ABC-01-08", "XYZ123", false, true⟩, by simp [nearlyFull], rfl, rfl⟩, ?_⟩
  norm_num [checkIn, checkIn.fare, checkIn.search, nearlyFull, consoleA, reservationReset,
    getNextReservation, RecFile.reset, RecFile.getNext, createResAtCheckin, vehicleReset,
    sailingReset, createResAtCheckin.sailingLoop, createResAtCheckin.charge, rewriteSailings_mk,
    writeReservation, writeVehicle, RecFile.put]

/-! ## checkIn: the fare -/

theorem search_of_split (sailingID vehicleLicence : String) (a b : List Reservation)
    (x : Reservation) (hx : x.sailingID = sailingID ∧ x.vehicleLicence = vehicleLicence)
    (ha : ∀ y ∈ a, ¬ (y.sailingID = sailingID ∧ y.vehicleLicence = vehicleLicence)) :
    ∀ (r : Reservation) (p : Nat),
      checkIn.search sailingID vehicleLicence (a ++ x :: b) r p
        = ({ x with onBoard := true }, p + a.length + 1) := by
  induction a with
  | nil => intro r p; simp [checkIn.search, hx]
  | cons y a ih =>
    intro r p
    have hy := ha y (List.mem_cons_self _ _)
    simp only [List.cons_append, checkIn.search, hy, if_false, List.length_cons,
      List.append_eq]
    rw [ih (fun z hz => ha z (List.mem_cons_of_mem _ hz))]
    simp [Nat.add_assoc, Nat.add_comm 1]

theorem get?_after_split {α : Type} (a : List α) (x : α) (b : List α) :
    (a ++ x :: b).get? (a.length + 1) = b.head? := by
  induction a with
  | nil => cases b <;> simp
  | cons y a ih => simpa using ih

theorem fare_of_split (sailingID vehicleLicence : String) (length height : ℚ)
    (r : Reservation) (st : Sys) (a b : List Reservation) (x : Reservation)
    (hopen : st.reservations.isOpen = true) (hrecs : st.reservations.recs = a ++ x :: b)
    (hx : x.sailingID = sailingID ∧ x.vehicleLicence = vehicleLicence)
    (ha : ∀ y ∈ a, ¬ (y.sailingID = sailingID ∧ y.vehicleLicence = vehicleLicence)) :
    checkIn.fare sailingID vehicleLicence length height r st =
      (.ok (if x.isLRL = true then 14 else f32 (f32 (length * 2) + f32 (height * 3))),
        { st with reservations := { st.reservations with pos := a.length + 1 } }) := by
  simp only [checkIn.fare, reservationReset, RecFile.reset, hopen, if_true, hrecs,
    search_of_split _ _ _ _ _ hx ha, Nat.zero_add]
  split <;> rfl

theorem createResAtCheckin_ok_reservations (sailingID vehicleLicence : String) (con : Console)
    (st st' : Sys)
    (h : createResAtCheckin sailingID vehicleLicence con st = (.ok (), st')) :
    st'.reservations.isOpen = true ∧
    st'.reservations.recs = st.reservations.recs ++
      [{ sailingID := sailingID, vehicleLicence := vehicleLicence, onBoard := true,
         isLRL := decide (con.vehicleHeight ≤ 2) && decide (con.vehicleLength ≤ 7) }] := by
  cases hvo : st.vehicles.isOpen with
  | false => simp [createResAtCheckin, vehicleReset, RecFile.reset, hvo] at h
  | true =>
    cases hso : st.sailings.isOpen with
    | false =>
      simp [createResAtCheckin, vehicleReset, sailingReset, RecFile.reset, hvo, hso] at h
    | true =>
      simp only [createResAtCheckin, vehicleReset, sailingReset, RecFile.reset, hvo, hso,
        if_true] at h
      cases hloop : createResAtCheckin.sailingLoop sailingID con.vehicleLength st.sailings.recs
          [] { isOpen := true, recs := st.sailings.recs, pos := 0 } with
      | mk res sf =>
        cases res with
        | error e => simp [hloop] at h
        | ok out =>
          obtain ⟨l', hout, -, hsf⟩ := checkinLoop_ok _ _ _ _ _ _ _ hloop
          rw [List.nil_append] at hout
          subst hout hsf
          simp only [hloop, rewriteSailings_mk] at h
          cases hro : st.reservations.isOpen with
          | false => simp [writeReservation_closed _ _ _ hro] at h
          | true =>
            simp only [writeReservation_append _ _ hro, writeVehicle, if_true] at h
            simp only [Prod.mk.injEq, Except.ok.injEq, true_and] at h
            subst h
            exact ⟨rfl, rfl⟩

theorem checkIn_of_split_not_last (sailingID vehicleLicence : String) (con : Console)
    (length height : ℚ) (r₀ : Reservation) (st : Sys) (a b : List Reservation)
    (x y : Reservation)
    (hopen : st.reservations.isOpen = true) (hrecs : st.reservations.recs = a ++ x :: y :: b)
    (hx : x.sailingID = sailingID ∧ x.vehicleLicence = vehicleLicence)
    (ha : ∀ z ∈ a, ¬ (z.sailingID = sailingID ∧ z.vehicleLicence = vehicleLicence)) :
    checkIn sailingID vehicleLicence con length height r₀ st =
      (.ok (if x.isLRL = true then 14 else f32 (f32 (length * 2) + f32 (height * 3))),
        { st with reservations := { st.reservations with pos := a.length + 1 } }) := by
  obtain ⟨vs, sf, vf, ⟨o, recs, pos⟩⟩ := st
  simp only at hopen hrecs
  subst hopen hrecs
  simp only [checkIn, reservationReset, RecFile.reset, if_true, getNextReservation,
    RecFile.getNext, search_of_split _ _ _ _ _ hx ha, Nat.zero_add, get?_after_split,
    List.head?_cons]
  rw [fare_of_split _ _ _ _ _ _ a (y :: b) x rfl rfl hx ha]

theorem checkIn_of_split_last_fare (sailingID vehicleLicence : String) (con : Console)
    (length height : ℚ) (r₀ : Reservation) (st st' : Sys) (a : List Reservation)
    (x : Reservation) (fare : ℚ)
    (hrecs : st.reservations.recs = a ++ [x])
    (hx : x.sailingID = sailingID ∧ x.vehicleLicence = vehicleLicence)
    (ha : ∀ z ∈ a, ¬ (z.sailingID = sailingID ∧ z.vehicleLicence = vehicleLicence))
    (h : checkIn sailingID vehicleLicence con length height r₀ st = (.ok fare, st')) :
    fare = (if x.isLRL = true then 14 else f32 (f32 (length * 2) + f32 (height * 3))) ∧
    st'.reservations.recs = st.reservations.recs ++
      [{ sailingID := sailingID, vehicleLicence := vehicleLicence, onBoard := true,
         isLRL := decide (con.vehicleHeight ≤ 2) && decide (con.vehicleLength ≤ 7) }] := by
  obtain ⟨vs, sf, vf, ⟨o, recs, pos⟩⟩ := st
  simp only at hrecs
  subst hrecs
  cases o with
  | false => simp [checkIn, reservationReset, RecFile.reset] at h
  | true =>
    have hget : (a ++ [x]).get? (a.length + 1) = none := by
      rw [get?_after_split]
      rfl
    simp only [checkIn, reservationReset, RecFile.reset, if_true, getNextReservation,
      RecFile.getNext, search_of_split _ _ _ _ _ hx ha, Nat.zero_add, hget] at h
    cases hc : createResAtCheckin sailingID vehicleLicence con
        { vessels := vs, sailings := sf, vehicles := vf,
          reservations := { isOpen := true, recs := a ++ [x], pos := a.length + 1 } } with
    | mk res st₁ =>
      cases res with
      | error e => simp [hc] at h
      | ok u =>
        simp only [hc] at h
        obtain ⟨ho₁, hr₁⟩ := createResAtCheckin_ok_reservations _ _ _ _ _ hc
        simp only [List.append_assoc, List.singleton_append] at hr₁
        rw [fare_of_split _ _ _ _ _ _ a _ x ho₁ hr₁ hx ha] at h
        simp only [Prod.mk.injEq, Except.ok.injEq] at h
        obtain ⟨hf, hst⟩ := h
        refine ⟨hf.symm, ?_⟩
        rw [← hst]
        simp [hr₁]

/-! ## deleteReservations: the records that are kept -/

theorem writeReservations_at_end (l : List Reservation) :
    ∀ (recs : List Reservation),
      writeReservations l { isOpen := true, recs := recs, pos := recs.length } =
        (.ok (), { isOpen := true, recs := recs ++ l, pos := (recs ++ l).length }) := by
  induction l with
  | nil => intro recs; simp [writeReservations]
  | cons r rest ih =>
    intro recs
    simp only [writeReservations, writeReservation, if_true, RecFile.put,
      put_at_end recs r recs.length rfl]
    have h := ih (recs ++ [r])
    simp only [List.length_append, List.length_singleton, List.append_assoc,
      List.singleton_append] at h
    rw [h]
    simp

/-- **C20.** For an open reservation store holding at least one record whose sailingID equals
the argument, `deleteReservations(sailingID)` succeeds and leaves the store open and holding
exactly the original records whose sailingID differs from the argument, in their original
relative order, and no record with that sailingID; `removeReservations`, which calls it first,
leaves the same records in the reservation store. -/
theorem deleteReservations_keeps_others (sailingID : String) (f : RecFile Reservation)
    (st : Sys) (hopen : f.isOpen = true) (hex : ∃ r ∈ f.recs, r.sailingID = sailingID)
    (hst : st.reservations = f) :
    (∃ f', deleteReservations sailingID f = (.ok (), f') ∧ f'.isOpen = true ∧
      f'.recs = f.recs.filter (fun r => decide (r.sailingID ≠ sailingID))) ∧
    (∀ r ∈ (deleteReservations sailingID f).2.recs, r.sailingID ≠ sailingID) ∧
    (deleteReservations sailingID f).2.recs.Sublist f.recs ∧
    (removeReservations sailingID st).2.reservations.recs
      = f.recs.filter (fun r => decide (r.sailingID ≠ sailingID)) := by
  have hany : f.recs.any (fun rec => decide (rec.sailingID = sailingID)) = true := by
    obtain ⟨r, hr, hsid⟩ := hex
    exact List.any_eq_true.mpr ⟨r, hr, by simp [hsid]⟩
  have hfilter : f.recs.filter (fun rec => !decide (rec.sailingID = sailingID))
      = f.recs.filter (fun r => decide (r.sailingID ≠ sailingID)) := by
    congr 1
    funext r
    simp
  have hdel : deleteReservations sailingID f =
      (.ok (), { isOpen := true,
                 recs := f.recs.filter (fun r => decide (r.sailingID ≠ sailingID)),
                 pos := (f.recs.filter (fun r => decide (r.sailingID ≠ sailingID))).length }) := by
    simp only [deleteReservations, reservationReset, RecFile.reset, hopen, if_true,
      reservationClose, RecFile.close, List.drop_zero, hany, RecFile.recreate,
      Bool.false_eq_true, if_false, hfilter]
    have h := writeReservations_at_end
      (f.recs.filter (fun r => decide (r.sailingID ≠ sailingID))) []
    simpa using h
  refine ⟨⟨_, hdel, rfl, rfl⟩, ?_, ?_, ?_⟩
  · rw [hdel]
    intro r hr
    simpa using (List.mem_filter.mp hr).2
  · rw [hdel]
    exact List.filter_sublist _
  · subst hst
    simp only [removeReservations, hdel]
    cases deleteSailing sailingID st.sailings with
    | mk res sf => cases res <;> rfl

/-- Witness for C20: the store `mixed` holds two records of ABC-01-08 and two of DEF-02-09;
`deleteReservations` of ABC-01-08 leaves the two records of DEF-02-09, in their order. -/
theorem deleteReservations_keeps_others_witness :
    (deleteReservations "ABC-01-08" mixed).2.recs
      = [⟨"DEF-02-09", "XYZ123", false, true⟩, ⟨"DEF-02-09", "TALL001", true, false⟩] := by
  obtain ⟨f', h, -, hrecs⟩ :=
    (deleteReservations_keeps_others "ABC-01-08" mixed
      { vessels := scenarioA.vessels, sailings := scenarioA.sailings,
        vehicles := scenarioA.vehicles, reservations := mixed }
      rfl ⟨⟨"ABC-01-08", "XYZ123", false, true⟩, by simp [mixed], rfl⟩ rfl).1
  rw [h]
  simp only [hrecs]
  have h1 : ¬ ("DEF-02-09" = "ABC-01-08") := by decide
  simp [mixed, List.filter, h1]

/-! ## Uniqueness of licences and sailing IDs -/

/-- **C21.** A successful `createReservation` for a new licence adds two records to the vehicle
store, not one: the new vehicle (line 258) and then the content of the local `v` (line 333),
which is the last record the vehicle loop read.  In `tallOnFile` the store holds TALL001 only;
after the booking of the new licence XYZ123 it holds TALL001, XYZ123 and TALL001 again, so the
licences are no longer pairwise distinct. -/
theorem createReservation_duplicates_last_vehicle :
    (tallOnFile.vehicles.recs.map Vehicle.vehicleLicence).Nodup ∧
    (∀ w ∈ tallOnFile.vehicles.recs, w.vehicleLicence ≠ "XYZ123") ∧
    (createReservation "ABC-01-08" "XYZ123" consoleA junk tallOnFile).1 = .ok () ∧
    (createReservation "ABC-01-08" "XYZ123" consoleA junk tallOnFile).2.vehicles.recs
      = [⟨"TALL001", "6045550102", 3, 5⟩, ⟨"XYZ123", "6045550100", 3 / 2, 5⟩,
         ⟨"TALL001", "6045550102", 3, 5⟩] ∧
    ¬ ((createReservation "ABC-01-08" "XYZ123" consoleA junk tallOnFile).2.vehicles.recs.map
        Vehicle.vehicleLicence).Nodup := by
  have h1 : ¬ ("TALL001" = "XYZ123") := by decide
  have h : createReservation "ABC-01-08" "XYZ123" consoleA junk tallOnFile =
      (.ok (),
        { vessels := { isOpen := true, recs := [⟨"Spirit", 200, 100⟩], pos := 0 },
          sailings := { isOpen := true, recs := [⟨"ABC-01-08", "Spirit", 95, 200⟩], pos := 1 },
          vehicles :=
            { isOpen := true,
              recs := [⟨"TALL001", "6045550102", 3, 5⟩, ⟨"XYZ123", "6045550100", 3 / 2, 5⟩,
                       ⟨"TALL001", "6045550102", 3, 5⟩],
              pos := 3 },
          reservations :=
            { isOpen := true, recs := [⟨"ABC-01-08", "XYZ123", false, true⟩], pos := 1 } }) := by
    norm_num [createReservation, tallOnFile, consoleA, junk, vehicleReset, RecFile.reset,
      createReservation.vehicleLoop, createReservation.newVehicle, writeVehicle, RecFile.put,
      createReservation.updateSailing, sailingReset, createReservation.sailingLoop,
      createReservation.charge, rewriteSailings_mk, createReservation.finish, writeReservation,
      createReservationRepeat, h1]
  rw [h]
  refine ⟨by simp [tallOnFile], by simp [tallOnFile, h1], rfl, rfl, by simp⟩

/-- **C22.** `createSailing` with a sailing ID that is already stored does not fail: the
exception "ID already exists" is thrown inside the `try` whose `catch` discards it, and the
record is written at the position `checkSailingExists` left, behind the match.  In
`twoSailings` (ABC-01-08, DEF-02-09) the call for ABC-01-08 succeeds and leaves two records
with the ID ABC-01-08, the record of DEF-02-09 being overwritten. -/
theorem createSailing_accepts_stored_id :
    (twoSailings.sailings.recs.map Sailing.sailingID).Nodup ∧
    (∃ s ∈ twoSailings.sailings.recs, s.sailingID = "ABC-01-08") ∧
    (∃ st, createSailing 1 "Spirit" "ABC-01-08" junkVessel twoSailings = some (.ok (), st) ∧
      st.sailings.recs
        = [⟨"ABC-01-08", "Spirit", 95, 200⟩, ⟨"ABC-01-08", "Spirit", 100, 200⟩] ∧
      st.sailings.recs ≠ twoSailings.sailings.recs ∧
      ¬ (st.sailings.recs.map Sailing.sailingID).Nodup) := by
  have h1 : ¬ ("ABC-01-08" = "DEF-02-09") := by decide
  refine ⟨by simp [twoSailings, h1], ⟨⟨"ABC-01-08", "Spirit", 95, 200⟩, by simp [twoSailings], rfl⟩,
    ⟨{ twoSailings with
        vessels := { isOpen := true, recs := [⟨"Spirit", 200, 100⟩], pos := 1 },
        sailings :=
          { isOpen := true,
            recs := [⟨"ABC-01-08", "Spirit", 95, 200⟩, ⟨"ABC-01-08", "Spirit", 100, 200⟩],
            pos := 2 } }, ?_, rfl, ?_, ?_⟩⟩
  · simp [createSailing, createSailing.findVessel, twoSailings, junkVessel, vesselReset,
      getNextVessel, RecFile.reset, RecFile.getNext, checkSailingExists, sailingReset, scanFor,
      writeSailing, RecFile.put]
  · simp [twoSailings]
  · simp

/-! ## Cancelling, and deleting the reservations of a sailing, on concrete states -/

/-- **C27.** `deleteReservation` loses a sailing when the store holds two.  `deleteSailing`
reopens the file, which puts the position at its start, and `writeSailing` writes the credited
sailing there, over the record that is first after the swap-delete.  In `twoSailings`
(ABC-01-08, DEF-02-09) the cancellation of (ABC-01-08, XYZ123) leaves the single record of
ABC-01-08, and the cancellation of (DEF-02-09, XYZ123) leaves the single record of
DEF-02-09. -/
theorem deleteReservation_loses_a_sailing :
    (twoSailings.sailings.recs.map Sailing.sailingID).Nodup ∧
    (deleteReservation "ABC-01-08" "XYZ123" twoSailings).1 = .ok () ∧
    (deleteReservation "ABC-01-08" "XYZ123" twoSailings).2.sailings.recs
      = [⟨"ABC-01-08", "Spirit", 100, 200⟩] ∧
    (deleteReservation "DEF-02-09" "XYZ123" twoSailings).1 = .ok () ∧
    (deleteReservation "DEF-02-09" "XYZ123" twoSailings).2.sailings.recs
      = [⟨"DEF-02-09", "Spirit", 100, 200⟩] := by
  have h1 : ¬ ("ABC-01-08" = "DEF-02-09") := by decide
  have h2 : ¬ ("DEF-02-09" = "ABC-01-08") := by decide
  refine ⟨by simp [twoSailings, h1], ?_, ?_, ?_, ?_⟩ <;>
    norm_num [deleteReservation, deleteReservation.release, deleteReservation.credit, scanFor,
      deleteSailing, sailingReset, vehicleReset, writeSailing, RecFile.reset, RecFile.put,
      RecFile.overwriteWithLast, RecFile.truncateReopen, twoSailings, h1, h2]

/-- **C28.** `deleteReservations` leaves the reservation store closed when no record carries
the sailing ID: the function closes the file after reading it and returns at `if (!found)`
before the file is opened again.  In `mixed` no record is of GHI-03-10; after the call the
store is closed, and `reservationReset` and `viewReservations` fail with "not open". -/
theorem deleteReservations_leaves_store_closed :
    mixed.isOpen = true ∧
    (∀ r ∈ mixed.recs, r.sailingID ≠ "GHI-03-10") ∧
    (deleteReservations "GHI-03-10" mixed).1 = .ok () ∧
    (deleteReservations "GHI-03-10" mixed).2.isOpen = false ∧
    (deleteReservations "GHI-03-10" mixed).2.recs = mixed.recs ∧
    (reservationReset (deleteReservations "GHI-03-10" mixed).2).1 = .error .notOpen ∧
    (viewReservations "GHI-03-10" (deleteReservations "GHI-03-10" mixed).2).1
      = .error .notOpen := by
  have h1 : ¬ ("ABC-01-08" = "GHI-03-10") := by decide
  have h2 : ¬ ("DEF-02-09" = "GHI-03-10") := by decide
  have h : deleteReservations "GHI-03-10" mixed = (.ok (), { mixed with isOpen := false, pos := 4 }) := by
    simp [deleteReservations, mixed, reservationReset, reservationClose, RecFile.reset,
      RecFile.close, h1, h2]
  rw [h]
  refine ⟨rfl, by simp [mixed, h1, h2], rfl, rfl, rfl, ?_, ?_⟩
  · simp [reservationReset, RecFile.reset]
  · simp [viewReservations, reservationReset, RecFile.reset]

/-! ## createSailing: the search for the vessel -/

theorem findVessel_absent (vesselName : String) :
    ∀ (fuel : Nat) (temp : Vessel) (f : RecFile Vessel), f.isOpen = true →
      (∀ v ∈ f.recs, v.name ≠ vesselName) → temp.name ≠ vesselName →
      createSailing.findVessel vesselName fuel temp f = none := by
  intro fuel
  induction fuel with
  | zero => intro temp f _ _ _; rfl
  | succ n ih =>
    intro temp f hopen habs htemp
    cases hget : f.recs.get? f.pos with
    | none =>
      simp only [createSailing.findVessel, getNextVessel, RecFile.getNext, hopen, if_true, hget,
        htemp, if_false]
      exact ih temp f hopen habs htemp
    | some v =>
      have hv : v.name ≠ vesselName := habs v (List.get?_mem hget)
      simp only [createSailing.findVessel, getNextVessel, RecFile.getNext, hopen, if_true, hget,
        hv, if_false]
      exact ih v _ rfl habs hv

/-- **C30.** The search of `createSailing` for the vessel does not end when no stored vessel
has the name: the loop `while (true)` does not look at what `getNextVessel` returns, so at the
end of the file it compares the same `temp` again and again.  Whatever the number of
iterations allowed, the search has not returned, for the name "Coho" in a store that holds
"Spirit" only and in an empty store. -/
theorem createSailing_search_never_ends (fuel : Nat) :
    createSailing fuel "Coho" "ABC-01-08" junkVessel harbour = none ∧
    createSailing fuel "Coho" "ABC-01-08" junkVessel
      { harbour with vessels := { isOpen := true, recs := [], pos := 0 } } = none := by
  have h0 : ¬ ("ABC-01-08" = "0") := by decide
  have h1 : ¬ ("Spirit" = "Coho") := by decide
  have h2 : ¬ ("" = "Coho") := by decide
  constructor
  · simp only [createSailing, h0, if_false, vesselReset, RecFile.reset, harbour, if_true]
    rw [findVessel_absent "Coho" fuel junkVessel _ rfl (by simp [h1]) (by simp [junkVessel, h2])]
  · simp only [createSailing, h0, if_false, vesselReset, RecFile.reset, harbour, if_true]
    rw [findVessel_absent "Coho" fuel junkVessel _ rfl (by simp) (by simp [junkVessel, h2])]

/-! ## The store functions: write, closed stores, counting -/

/-- **C24.** On an open reservation store holding the records `R`, whatever the position,
`writeReservation(r, false)` leaves `R` followed by `r`; `writeReservation(r, true)` with the
position at slot `i < |R|` leaves `R` with slot `i` replaced by `r`: the same number of
records, `r` in slot `i` and every other slot as it was. -/
theorem writeReservation_append_or_overwrite (r : Reservation) (f : RecFile Reservation)
    (hopen : f.isOpen = true) :
    (∃ f', writeReservation r false f = (.ok (), f') ∧ f'.recs = f.recs ++ [r]) ∧
    (f.pos < f.recs.length →
      ∃ f', writeReservation r true f = (.ok (), f') ∧
        f'.recs = f.recs.set f.pos r ∧ f'.recs.length = f.recs.length ∧
        f'.recs.get? f.pos = some r ∧
        ∀ j, j ≠ f.pos → f'.recs.get? j = f.recs.get? j) := by
  refine ⟨⟨_, writeReservation_append r f hopen, rfl⟩, ?_⟩
  intro hpos
  have hset : f.recs.take f.pos ++ r :: f.recs.drop (f.pos + 1) = f.recs.set f.pos r := by
    rw [List.set_eq_take_append_cons_drop, if_pos hpos]
  refine ⟨{ f with recs := f.recs.set f.pos r, pos := f.pos + 1 }, ?_, rfl, ?_, ?_, ?_⟩
  · simp only [writeReservation, hopen, if_true, RecFile.put, hset]
  · simp
  · simp [List.get?_eq_getElem?, hpos]
  · intro j hj
    simp only [List.get?_eq_getElem?]
    exact List.getElem?_set_ne (Ne.symm hj)

/-- Witness for C24: the store `mixed`, whose position is at slot 3 of 4. -/
theorem writeReservation_append_or_overwrite_witness :
    (∃ f', writeReservation junkReservation false mixed = (.ok (), f') ∧
      f'.recs = mixed.recs ++ [junkReservation]) ∧
    (mixed.pos < mixed.recs.length →
      ∃ f', writeReservation junkReservation true mixed = (.ok (), f') ∧
        f'.recs = mixed.recs.set mixed.pos junkReservation ∧
        f'.recs.length = mixed.recs.length ∧
        f'.recs.get? mixed.pos = some junkReservation ∧
        ∀ j, j ≠ mixed.pos → f'.recs.get? j = mixed.recs.get? j) :=
  writeReservation_append_or_overwrite junkReservation mixed rfl

/-- **C25.** On a sailing store and a reservation store that are not open, the reset, next,
write and delete functions each fail with "not open" and leave the store as it was, and the
close functions fail with "already closed"; open followed by close succeeds, and a second
close after it fails. -/
theorem closed_store_operations_fail (sf : RecFile Sailing) (st : Sys) (s : Sailing)
    (r : Reservation) (overWrite : Bool) (sailingID vehicleLicence : String)
    (hs : sf.isOpen = false) (hr : st.reservations.isOpen = false) :
    sailingReset sf = (.error .notOpen, sf) ∧
    getNextSailing sf = (.error .notOpen, sf) ∧
    writeSailing s sf = (.error .notOpen, sf) ∧
    deleteSailing sailingID sf = (.error .notOpen, sf) ∧
    sailingClose sf = (.error .alreadyClosed, sf) ∧
    reservationReset st.reservations = (.error .notOpen, st.reservations) ∧
    getNextReservation st.reservations = (.error .notOpen, st.reservations) ∧
    writeReservation r overWrite st.reservations = (.error .notOpen, st.reservations) ∧
    deleteReservation sailingID vehicleLicence st = (.error .notOpen, st) ∧
    reservationClose st.reservations = (.error .alreadyClosed, st.reservations) ∧
    (sailingClose (sailingOpen sf).2).1 = .ok () ∧
    (sailingClose (sailingClose (sailingOpen sf).2).2).1 = .error .alreadyClosed ∧
    (reservationClose (reservationOpen st.reservations).2).1 = .ok () ∧
    (reservationClose (reservationClose (reservationOpen st.reservations).2).2).1
      = .error .alreadyClosed := by
  refine ⟨?_, ?_, ?_, ?_, ?_, ?_, ?_, ?_, ?_, ?_, ?_, ?_, ?_, ?_⟩
  · simp [sailingReset, RecFile.reset, hs]
  · simp [getNextSailing, RecFile.getNext, hs]
  · simp [writeSailing, hs]
  · simp [deleteSailing, hs]
  · simp [sailingClose, RecFile.close, hs]
  · simp [reservationReset, RecFile.reset, hr]
  · simp [getNextReservation, RecFile.getNext, hr]
  · simp [writeReservation, hr]
  · simp [deleteReservation, hr]
  · simp [reservationClose, RecFile.close, hr]
  · simp [sailingClose, sailingOpen, RecFile.close, RecFile.reopen, hs]
  · simp [sailingClose, sailingOpen, RecFile.close, RecFile.reopen, hs]
  · simp [reservationClose, reservationOpen, RecFile.close, RecFile.reopen, hr]
  · simp [reservationClose, reservationOpen, RecFile.close, RecFile.reopen, hr]

/-- Witness for C25: the sailing store `fleet` and the state `booked` with the stores closed. -/
theorem closed_store_operations_fail_witness :
    deleteSailing "ABC-01-08" { fleet with isOpen := false }
      = (.error .notOpen, { fleet with isOpen := false }) ∧
    (reservationClose (reservationClose (reservationOpen
      { booked.reservations with isOpen := false }).2).2).1 = .error .alreadyClosed :=
  have h := closed_store_operations_fail { fleet with isOpen := false }
    { booked with reservations := { booked.reservations with isOpen := false } }
    ⟨"ABC-01-08", "Spirit", 100, 200⟩ junkReservation false "ABC-01-08" "XYZ123" rfl rfl
  ⟨h.2.2.2.1, h.2.2.2.2.2.2.2.2.2.2.2.2.2⟩

theorem count_eq_filter_length (sailingID : String) (l : List Reservation) :
    ∀ c : Nat, viewReservations.count sailingID l c
      = c + (l.filter (fun r => decide (r.sailingID = sailingID))).length := by
  induction l with
  | nil => intro c; simp [viewReservations.count]
  | cons r rest ih =>
    intro c
    by_cases hr : r.sailingID = sailingID
    · simp [viewReservations.count, hr, ih]
      omega
    · simp [viewReservations.count, hr, ih]

/-- **C26.** On an open reservation store `viewReservations(sailingID)` returns the number of
stored records whose sailingID equals the argument, and leaves the records of the store as
they were (and the store open). -/
theorem viewReservations_counts (sailingID : String) (f : RecFile Reservation)
    (hopen : f.isOpen = true) :
    (viewReservations sailingID f).1
      = .ok (f.recs.filter (fun r => decide (r.sailingID = sailingID))).length ∧
    (viewReservations sailingID f).1
      = .ok (f.recs.countP (fun r => decide (r.sailingID = sailingID))) ∧
    (viewReservations sailingID f).2.recs = f.recs ∧
    (viewReservations sailingID f).2.isOpen = true := by
  have h : viewReservations sailingID f
      = (.ok (f.recs.filter (fun r => decide (r.sailingID = sailingID))).length,
          { f with pos := f.recs.length }) := by
    simp [viewReservations, reservationReset, RecFile.reset, hopen, count_eq_filter_length]
  rw [h]
  exact ⟨rfl, by rw [List.countP_eq_length_filter], rfl, hopen⟩

/-- Witness for C26: the store `mixed` holds two records of ABC-01-08. -/
theorem viewReservations_counts_witness :
    (viewReservations "ABC-01-08" mixed).1 = .ok 2 ∧
    (viewReservations "ABC-01-08" mixed).2.recs = mixed.recs := by
  have h := viewReservations_counts "ABC-01-08" mixed rfl
  have h1 : ¬ ("DEF-02-09" = "ABC-01-08") := by decide
  refine ⟨?_, h.2.2.1⟩
  rw [h.1]
  simp [mixed, List.filter, h1]

/-! ## createReservation: the frame on the sailing store -/

theorem createReservation_ok_charged (sailingID vehicleLicence : String) (con : Console)
    (v₀ : Vehicle) (st st' : Sys)
    (h : createReservation sailingID vehicleLicence con v₀ st = (.ok (), st')) :
    ∃ (b : Bool) (L : ℚ),
      List.Forall₂ (fun s s' =>
        if s.sailingID = sailingID then createReservation.charge b L s = .ok s'
        else s' = s) st.sailings.recs st'.sailings.recs := by
  by_cases hex : ∃ x ∈ st.vehicles.recs, decide (x.vehicleLicence = vehicleLicence) = true
  · obtain ⟨pre, v, post, hrecs, hv, hpost⟩ :=
      split_last (fun x : Vehicle => decide (x.vehicleLicence = vehicleLicence)) _ hex
    simp only [decide_eq_true_eq, decide_eq_false_iff_not] at hv hpost
    obtain ⟨-, -, ⟨l', hs', hall⟩, -⟩ :=
      createReservation_ok_present _ _ _ _ _ _ _ _ _ h hrecs hv hpost
    rw [hs']
    exact ⟨_, _, hall⟩
  · have habs : ∀ w ∈ st.vehicles.recs, w.vehicleLicence ≠ vehicleLicence := by
      intro w hw hlic
      exact hex ⟨w, hw, by simp [hlic]⟩
    obtain ⟨-, -, ⟨l', hs', hall⟩, -⟩ := createReservation_ok_absent _ _ _ _ _ _ h habs
    rw [hs']
    exact ⟨_, _, hall⟩

/-- **C29.** A successful `createReservation` changes only the lane counters of the booked
sailing: the sailing store afterwards has the same number of records, in the same order; a
record whose sailingID differs from the argument is unchanged, and every record keeps its
sailingID and its vesselName. -/
theorem createReservation_changes_lanes_only (sailingID vehicleLicence : String)
    (con : Console) (v₀ : Vehicle) (st st' : Sys)
    (h : createReservation sailingID vehicleLicence con v₀ st = (.ok (), st')) :
    st'.sailings.recs.length = st.sailings.recs.length ∧
    List.Forall₂ (fun s s' =>
      s'.sailingID = s.sailingID ∧ s'.vesselName = s.vesselName ∧
      (s.sailingID ≠ sailingID → s' = s)) st.sailings.recs st'.sailings.recs := by
  obtain ⟨b, L, hall⟩ := createReservation_ok_charged _ _ _ _ _ _ h
  refine ⟨hall.length_eq.symm, List.Forall₂.imp ?_ hall⟩
  intro s s' hrel
  by_cases hs : s.sailingID = sailingID
  · rw [if_pos hs] at hrel
    rcases charge_ok_cases b L s s' hrel with ⟨-, rfl⟩ | ⟨-, rfl⟩
    · exact ⟨rfl, rfl, fun hne => absurd hs hne⟩
    · exact ⟨rfl, rfl, fun hne => absurd hs hne⟩
  · rw [if_neg hs] at hrel
    subst hrel
    exact ⟨rfl, rfl, fun _ => rfl⟩

/-- Witness for C29: the booking of scenario A. -/
theorem createReservation_changes_lanes_only_witness :
    createReservation "ABC-01-08" "XYZ123" consoleA junk scenarioA = (.ok (), bookedA) ∧
    bookedA.sailings.recs.length = scenarioA.sailings.recs.length ∧
    List.Forall₂ (fun s s' =>
      s'.sailingID = s.sailingID ∧ s'.vesselName = s.vesselName ∧
      (s.sailingID ≠ "ABC-01-08" → s' = s)) scenarioA.sailings.recs bookedA.sailings.recs :=
  ⟨createReservation_scenarioA,
    createReservation_changes_lanes_only "ABC-01-08" "XYZ123" consoleA junk scenarioA bookedA
      createReservation_scenarioA⟩

/-! ## Reading a file that ends in a part of a record -/

theorem getNextReservation_bytes_eq (size : Nat) (f : ByteFile) :
    getNextReservation.bytes size f = getNextSailing.bytes size f := by
  unfold getNextReservation.bytes getNextSailing.bytes ByteFile.read
  by_cases h : ((f.bytes.drop f.pos).take size).length < size <;> simp [h]

theorem callsOf_congr {σ ρ : Type} (next next' : σ → ρ × σ) (h : ∀ f, next f = next' f) :
    ∀ (k : Nat) (f : σ), callsOf next k f = callsOf next' k f := by
  intro k
  induction k with
  | zero => intro f; rfl
  | succ n ih => intro f; simp only [callsOf, h, ih]

theorem callsOf_at_end (size : Nat) :
    ∀ (k : Nat) (f : ByteFile), f.isOpen = true → (f.bytes.drop f.pos).length < size →
      (callsOf (getNextSailing.bytes size) k f).1 = List.replicate k (.ok none) := by
  intro k
  induction k with
  | zero => intro f _ _; rfl
  | succ n ih =>
    intro f hopen hlen
    have hgot : ((f.bytes.drop f.pos).take size).length < size := by
      rw [List.length_take]
      omega
    have hnext : getNextSailing.bytes size f =
        (.ok none, { f with pos := f.pos + ((f.bytes.drop f.pos).take size).length }) := by
      simp only [getNextSailing.bytes, hopen, if_true, ByteFile.read, hgot]
    have hrest := ih { f with pos := f.pos + ((f.bytes.drop f.pos).take size).length } hopen
      (by
        simp only [List.length_drop] at hlen ⊢
        omega)
    simp only [callsOf, hnext, List.replicate_succ, List.cons.injEq, true_and]
    exact hrest

theorem callsOf_records (size : Nat) (frag : List Nat) (hfrag : frag.length < size) (k : Nat) :
    ∀ (records : List (List Nat)) (pre : List Nat), (∀ r ∈ records, r.length = size) →
      (callsOf (getNextSailing.bytes size) (records.length + k)
        { isOpen := true, bytes := pre ++ (records.flatten ++ frag), pos := pre.length }).1
      = records.map (fun r => Except.ok (some r)) ++ List.replicate k (.ok none) := by
  intro records
  induction records with
  | nil =>
    intro pre _
    simp only [List.length_nil, Nat.zero_add, List.flatten_nil, List.nil_append, List.map_nil]
    exact callsOf_at_end size k _ rfl (by simpa using hfrag)
  | cons r rs ih =>
    intro pre hrec
    have hr : r.length = size := hrec r (List.mem_cons_self _ _)
    have hk : (r :: rs).length + k = (rs.length + k) + 1 := by
      simp only [List.length_cons]
      omega
    have hb : pre ++ ((r :: rs).flatten ++ frag) = pre ++ (r ++ (rs.flatten ++ frag)) := by
      rw [List.flatten_cons, List.append_assoc]
    have htake : ((pre ++ (r ++ (rs.flatten ++ frag))).drop pre.length).take size = r := by
      rw [List.drop_left]
      exact List.take_left' hr
    have hnext : getNextSailing.bytes size
        { isOpen := true, bytes := pre ++ (r ++ (rs.flatten ++ frag)), pos := pre.length }
        = (.ok (some r),
            { isOpen := true, bytes := (pre ++ r) ++ (rs.flatten ++ frag),
              pos := (pre ++ r).length }) := by
      simp only [getNextSailing.bytes, if_true, ByteFile.read, htake, hr, Nat.lt_irrefl,
        if_false, List.append_assoc, List.length_append]
    rw [hb]
    rw [hk]
    simp only [callsOf, hnext, List.map_cons, List.cons_append, List.cons.injEq, true_and]
    exact ih (pre ++ r) (fun x hx => hrec x (List.mem_cons_of_mem _ hx))

/-- **C23.** A store that holds N complete records of `size` bytes, possibly followed by a
part of a record shorter than `size`: after the reset, the first N calls of `getNextSailing`
(and of `getNextReservation`) return true with the stored records, in the stored order, and
every later call returns false; no call raises an error. -/
theorem reset_then_next_reads_all (size : Nat) (records : List (List Nat))
    (fragment : List Nat) (f : ByteFile) (k : Nat)
    (hopen : f.isOpen = true) (hbytes : f.bytes = records.flatten ++ fragment)
    (hrec : ∀ r ∈ records, r.length = size) (hfrag : fragment.length < size) :
    f.reset.1 = .ok () ∧
    (callsOf (getNextSailing.bytes size) (records.length + k) f.reset.2).1
      = records.map (fun r => Except.ok (some r)) ++ List.replicate k (.ok none) ∧
    (callsOf (getNextReservation.bytes size) (records.length + k) f.reset.2).1
      = records.map (fun r => Except.ok (some r)) ++ List.replicate k (.ok none) := by
  obtain ⟨o, bytes, pos⟩ := f
  simp only at hopen hbytes
  subst hopen hbytes
  have h := callsOf_records size fragment hfrag k records [] hrec
  simp only [List.nil_append, List.length_nil] at h
  refine ⟨rfl, ?_, ?_⟩
  · simpa [ByteFile.reset] using h
  · rw [callsOf_congr _ _ (getNextReservation_bytes_eq size)]
    simpa [ByteFile.reset] using h

/-- Witness for C23: the file `ragged` of two records of three bytes and two more bytes, read
four times. -/
theorem reset_then_next_reads_all_witness :
    ragged.reset.1 = .ok () ∧
    (callsOf (getNextSailing.bytes 3) (2 + 2) ragged.reset.2).1
      = [.ok (some [1, 2, 3]), .ok (some [4, 5, 6]), .ok none, .ok none] ∧
    (callsOf (getNextReservation.bytes 3) (2 + 2) ragged.reset.2).1
      = [.ok (some [1, 2, 3]), .ok (some [4, 5, 6]), .ok none, .ok none] :=
  reset_then_next_reads_all 3 [[1, 2, 3], [4, 5, 6]] [7, 8] ragged 2 rfl rfl
    (by simp) (by decide)

/-! ## checkIn: the fare prompts and the fare -/

theorem prompt_some (refused : ℚ → Bool) (typed : Nat → ℚ) :
    ∀ (fuel k : Nat) (v : ℚ) (k' : Nat),
      checkIn.prompt refused fuel typed k = some (v, k') →
      refused v = false ∧
      ∃ j, k ≤ j ∧ v = typed j ∧ k' = j + 1 ∧ ∀ i, k ≤ i → i < j → refused (typed i) = true := by
  intro fuel
  induction fuel with
  | zero => intro k v k' h; simp [checkIn.prompt] at h
  | succ n ih =>
    intro k v k' h
    cases hr : refused (typed k) with
    | true =>
      simp only [checkIn.prompt, hr, if_true] at h
      obtain ⟨hv, j, hkj, hvj, hk', hall⟩ := ih _ _ _ h
      refine ⟨hv, j, by omega, hvj, hk', ?_⟩
      intro i hki hij
      rcases Nat.eq_or_lt_of_le hki with rfl | hlt
      · exact hr
      · exact hall i hlt hij
    | false =>
      simp only [checkIn.prompt, hr, Bool.false_eq_true, if_false, Option.some.injEq,
        Prod.mk.injEq] at h
      obtain ⟨rfl, rfl⟩ := h
      exact ⟨hr, k, le_refl k, rfl, rfl, fun i hki hik => absurd hki (by omega)⟩

theorem prompts_some (fuel : Nat) (typed : Nat → ℚ) (length height : ℚ)
    (h : checkIn.prompts fuel typed = some (length, height)) :
    checkIn.lengthRefused length = false ∧ checkIn.heightRefused height = false ∧
    ∃ j k, j < k ∧ length = typed j ∧ height = typed k ∧
      (∀ i, i < j → checkIn.lengthRefused (typed i) = true) ∧
      (∀ i, j < i → i < k → checkIn.heightRefused (typed i) = true) := by
  unfold checkIn.prompts at h
  cases h1 : checkIn.prompt checkIn.lengthRefused fuel typed 0 with
  | none => simp [h1] at h
  | some p =>
    obtain ⟨len, k₁⟩ := p
    simp only [h1] at h
    cases h2 : checkIn.prompt checkIn.heightRefused fuel typed k₁ with
    | none => simp [h2] at h
    | some q =>
      obtain ⟨hgt, k₂⟩ := q
      simp only [h2, Option.some.injEq, Prod.mk.injEq] at h
      obtain ⟨rfl, rfl⟩ := h
      obtain ⟨hl, j, -, hlj, hk₁, hbefore⟩ := prompt_some _ _ _ _ _ _ h1
      obtain ⟨hh, k, hk, hhk, -, hbetween⟩ := prompt_some _ _ _ _ _ _ h2
      refine ⟨hl, hh, j, k, by omega, hlj, hhk, fun i hi => hbefore i (Nat.zero_le i) hi, ?_⟩
      intro i hji hik
      exact hbetween i (by omega) hik

/-- Counterexample to C19 as stated: in `bookedB` the reservation of (ABC-01-08, QRS789) has
isLRL = false and the vehicle store holds length 50 and height 3 for QRS789, which would make
the fare 2·50 + 3·3 = 109; with 20 and 4 delivered by the prompts of `checkIn` the fare is 52,
and with 30 and 5 it is 75.  With 7.3f and 2.2f, the floats nearest to 7.3 and 2.2, the fare is
the float 21.2000008 (5557453 / 262144), not the exact value of 2 × length + 3 × height. -/
theorem checkIn_fare_counterexample :
    (∃ r ∈ bookedB.reservations.recs, r.key = ("ABC-01-08", "QRS789") ∧ r.isLRL = false) ∧
    (∃ w ∈ bookedB.vehicles.recs, w.vehicleLicence = "QRS789" ∧
      w.vehicleLength = 50 ∧ w.vehicleHeight = 3) ∧
    (checkIn "ABC-01-08" "QRS789" consoleB 20 4 junkReservation bookedB).1 = .ok 52 ∧
    (checkIn "ABC-01-08" "QRS789" consoleB 30 5 junkReservation bookedB).1 = .ok 75 ∧
    (checkIn "ABC-01-08" "QRS789" consoleB (7654605 / 1048576) (9227469 / 4194304)
      junkReservation bookedB).1 = .ok (5557453 / 262144) ∧
    (5557453 / 262144 : ℚ) ≠ 7654605 / 1048576 * 2 + 9227469 / 4194304 * 3 := by
  refine ⟨⟨⟨"ABC-01-08", "QRS789", false, false⟩, by simp [bookedB], rfl, rfl⟩,
    ⟨⟨"QRS789", "6045550101", 3, 50⟩, by simp [bookedB], rfl, rfl, rfl⟩, ?_, ?_, ?_,
    by norm_num⟩
  · norm_num [checkIn, checkIn.fare, checkIn.search, bookedB, reservationReset,
      getNextReservation, RecFile.reset, RecFile.getNext]
  · norm_num [checkIn, checkIn.fare, checkIn.search, bookedB, reservationReset,
      getNextReservation, RecFile.reset, RecFile.getNext]
  · norm_num [checkIn, checkIn.fare, checkIn.search, bookedB, reservationReset,
      getNextReservation, RecFile.reset, RecFile.getNext]

/-- **C19 (amended).** When the first reservation record for (sailingID, vehicleLicence) has
isLRL = false, every fare `checkIn` returns is computed from the length and the height that its
own two prompts deliver, not from the vehicle store: each is the first entry typed that the
prompt's range test, made in `double`, does not refuse (7.1 ≤ length ≤ 99.9 and
2.1 ≤ height ≤ 9.9 for the `double` constants), the length before the height; and the fare is
the float expression `(length * 2) + (height * 3)`, each operation rounded to a float.  With
the reservation store open and that record not the last one, `checkIn` does return this fare,
and it leaves the records of the reservation store, the sailings and the vehicles as they
were. -/
theorem checkIn_fare_from_prompts (sailingID vehicleLicence : String) (con : Console)
    (fuel : Nat) (typed : Nat → ℚ) (length height : ℚ) (r₀ : Reservation) (st : Sys)
    (i : Nat) (x : Reservation)
    (hscan : scanFor (fun r => decide (r.sailingID = sailingID ∧
      r.vehicleLicence = vehicleLicence)) st.reservations.recs = some (i, x))
    (hlrl : x.isLRL = false)
    (hprompts : checkIn.prompts fuel typed = some (length, height)) :
    (3996944669291315 / 562949953421312 ≤ length ∧
      length ≤ 3514918771674317 / 35184372088832 ∧
      4728779608739021 / 2251799813685248 ≤ height ∧
      height ≤ 5573204538870989 / 562949953421312) ∧
    (∃ j k, j < k ∧ length = typed j ∧ height = typed k ∧
      (∀ n, n < j → checkIn.lengthRefused (typed n) = true) ∧
      (∀ n, j < n → n < k → checkIn.heightRefused (typed n) = true)) ∧
    (∀ fare st', checkIn sailingID vehicleLicence con length height r₀ st = (.ok fare, st') →
      fare = f32 (f32 (length * 2) + f32 (height * 3))) ∧
    (st.reservations.isOpen = true → i + 1 < st.reservations.recs.length →
      ∃ st', checkIn sailingID vehicleLicence con length height r₀ st
          = (.ok (f32 (f32 (length * 2) + f32 (height * 3))), st') ∧
        st'.reservations.recs = st.reservations.recs ∧ st'.sailings = st.sailings ∧
        st'.vehicles = st.vehicles) := by
  obtain ⟨a, b, hrecs, hlen, hx, ha⟩ := (scanFor_eq_some_iff _ _ _ _).mp hscan
  simp only [decide_eq_true_eq, decide_eq_false_iff_not] at hx ha
  obtain ⟨hl, hh, htyped⟩ := prompts_some _ _ _ _ hprompts
  refine ⟨?_, htyped, ?_, ?_⟩
  · simp only [checkIn.lengthRefused, Bool.or_eq_false_iff, decide_eq_false_iff_not,
      not_lt] at hl
    simp only [checkIn.heightRefused, Bool.or_eq_false_iff, decide_eq_false_iff_not,
      not_lt] at hh
    exact ⟨hl.1, hl.2, hh.1, hh.2⟩
  · intro fare st' h
    cases b with
    | nil =>
      have := (checkIn_of_split_last_fare _ _ _ _ _ _ _ _ _ _ _ hrecs hx ha h).1
      rw [this, hlrl]
      simp
    | cons y b =>
      cases hopen : st.reservations.isOpen with
      | false => simp [checkIn, reservationReset, RecFile.reset, hopen] at h
      | true =>
        rw [checkIn_of_split_not_last _ _ _ _ _ _ _ _ _ _ _ hopen hrecs hx ha] at h
        simp only [Prod.mk.injEq, Except.ok.injEq] at h
        rw [← h.1, hlrl]
        simp
  · intro hopen hnotlast
    cases b with
    | nil =>
      rw [hrecs] at hnotlast
      simp at hnotlast
      omega
    | cons y b =>
      rw [checkIn_of_split_not_last _ _ _ _ _ _ _ _ _ _ _ hopen hrecs hx ha, hlrl]
      simp only [Bool.false_eq_true, if_false]
      exact ⟨_, rfl, rfl, rfl, rfl⟩

theorem prompts_typedFare : checkIn.prompts 2 typedFare = some (20, 4) := by
  norm_num [checkIn.prompts, checkIn.prompt, checkIn.lengthRefused, checkIn.heightRefused,
    typedFare]

/-- Witness for the amended C19: the check-in of (ABC-01-08, QRS789) in `bookedB`, the operator
typing 7.1, 20, 2.1 and 4: the entries 7.1f and 2.1f are refused and the fare is 52. -/
theorem checkIn_fare_from_prompts_witness :
    checkIn.prompts 2 typedFare = some (20, 4) ∧
    checkIn.lengthRefused (typedFare 0) = true ∧
    checkIn.heightRefused (typedFare 2) = true ∧
    (checkIn "ABC-01-08" "QRS789" consoleB 20 4 junkReservation bookedB).1 = .ok 52 := by
  have T := checkIn_fare_from_prompts "ABC-01-08" "QRS789" consoleB 2 typedFare 20 4
    junkReservation bookedB 0 ⟨"ABC-01-08", "QRS789", false, false⟩
    (by simp [bookedB, scanFor]) rfl prompts_typedFare
  obtain ⟨st', hst', -⟩ := T.2.2.2 rfl (by simp [bookedB])
  refine ⟨prompts_typedFare, ?_, ?_, ?_⟩
  · norm_num [checkIn.lengthRefused, typedFare]
  · norm_num [checkIn.heightRefused, typedFare]
  · rw [hst']
    norm_num

/-! ## The lane arithmetic is float arithmetic -/

/-- Counterexample to C1 as stated: the sailing of `scenarioF` has low = 13.2f, the vehicle is
low-roof eligible with length L = 4.4f ≤ low; the booking succeeds and leaves the low lane at
the float 8.79999924 (2306867 / 262144), which is not low - L: the difference of the two floats
lies midway between two floats and is rounded. -/
theorem createReservation_low_roof_counterexample :
    BookedVehicle scenarioF.vehicles.recs "XYZ123" consoleF (9227469 / 2097152) (3 / 2) ∧
    (3 / 2 : ℚ) ≤ 2 ∧ (9227469 / 2097152 : ℚ) ≤ 7 ∧
    (9227469 / 2097152 : ℚ) ≤ 13841203 / 1048576 ∧
    scenarioF.sailings.recs = [⟨"ABC-01-08", "Spirit", 13841203 / 1048576, 200⟩] ∧
    (createReservation "ABC-01-08" "XYZ123" consoleF junk scenarioF).1 = .ok () ∧
    (createReservation "ABC-01-08" "XYZ123" consoleF junk scenarioF).2.sailings.recs
      = [⟨"ABC-01-08", "Spirit", 2306867 / 262144, 200⟩] ∧
    (2306867 / 262144 : ℚ) ≠ 13841203 / 1048576 - 9227469 / 2097152 := by
  refine ⟨Or.inr ⟨by simp [scenarioF], rfl, rfl⟩, by norm_num, by norm_num, by norm_num, rfl,
    ?_, ?_, by norm_num⟩ <;>
  norm_num [createReservation, scenarioF, consoleF, junk, vehicleReset, RecFile.reset,
    createReservation.vehicleLoop, createReservation.newVehicle, writeVehicle, RecFile.put,
    createReservation.updateSailing, sailingReset, createReservation.sailingLoop,
    createReservation.charge, rewriteSailings_mk, createReservation.finish, writeReservation,
    createReservationRepeat]

/-- Counterexample to C2 as stated: in scenario A (high = 200) a vehicle of height 3 and length
L = 50.3f ≤ high is booked; the booking succeeds and leaves the high lane at the float
149.699997 (9810739 / 65536), which is not high - L. -/
theorem createReservation_high_roof_counterexample :
    BookedVehicle scenarioA.vehicles.recs "QRS789" consoleG (13185843 / 262144) 3 ∧
    ((2 : ℚ) < 3 ∨ (7 : ℚ) < 13185843 / 262144) ∧
    (13185843 / 262144 : ℚ) ≤ 200 ∧
    scenarioA.sailings.recs = [⟨"ABC-01-08", "Spirit", 100, 200⟩] ∧
    (createReservation "ABC-01-08" "QRS789" consoleG junk scenarioA).1 = .ok () ∧
    (createReservation "ABC-01-08" "QRS789" consoleG junk scenarioA).2.sailings.recs
      = [⟨"ABC-01-08", "Spirit", 100, 9810739 / 65536⟩] ∧
    (9810739 / 65536 : ℚ) ≠ 200 - 13185843 / 262144 := by
  refine ⟨Or.inr ⟨by simp [scenarioA], rfl, rfl⟩, Or.inl (by norm_num), by norm_num, rfl,
    ?_, ?_, by norm_num⟩ <;>
  norm_num [createReservation, scenarioA, consoleG, junk, vehicleReset, RecFile.reset,
    createReservation.vehicleLoop, createReservation.newVehicle, writeVehicle, RecFile.put,
    createReservation.updateSailing, sailingReset, createReservation.sailingLoop,
    createReservation.charge, rewriteSailings_mk, createReservation.finish, writeReservation,
    createReservationRepeat]

/-! ## A licence with two vehicle records -/

theorem checkIn_bookedA_six :
    checkIn "ABC-01-08" "XYZ123" consoleSix 8 3 junkReservation bookedA
      = (.ok 14, twoLengths) := by
  norm_num [checkIn, checkIn.fare, checkIn.search, bookedA, twoLengths, consoleSix, junk,
    reservationReset, getNextReservation, RecFile.reset, RecFile.getNext, createResAtCheckin,
    vehicleReset, sailingReset, createResAtCheckin.sailingLoop, createResAtCheckin.charge,
    rewriteSailings_mk, writeReservation, writeVehicle, RecFile.put]

theorem createReservation_twoLengths :
    createReservation "ABC-01-08" "XYZ123" consoleA junk twoLengths =
      (.ok (),
        { vessels := { isOpen := true, recs := [⟨"Spirit", 200, 100⟩], pos := 0 },
          sailings := { isOpen := true, recs := [⟨"ABC-01-08", "Spirit", 83, 200⟩], pos := 1 },
          vehicles :=
            { isOpen := true,
              recs := [⟨"XYZ123", "6045550100", 3 / 2, 5⟩, junk,
                       ⟨"XYZ123", "6045550100", 3 / 2, 6⟩],
              pos := 3 },
          reservations :=
            { isOpen := true,
              recs := [⟨"ABC-01-08", "XYZ123", false, true⟩,
                       ⟨"ABC-01-08", "XYZ123", true, true⟩,
                       ⟨"ABC-01-08", "XYZ123", false, true⟩,
                       ⟨"ABC-01-08", "XYZ123", false, true⟩],
              pos := 4 } }) := by
  have h1 : ¬ ("" = "XYZ123") := by decide
  norm_num [createReservation, twoLengths, consoleA, junk, vehicleReset, RecFile.reset,
    createReservation.vehicleLoop, createReservation.newVehicle, writeVehicle, RecFile.put,
    createReservation.updateSailing, sailingReset, createReservation.sailingLoop,
    createReservation.charge, rewriteSailings_mk, createReservation.finish, writeReservation,
    createReservationRepeat, h1]

/-- **C8 (code at the failing input).** The check-in of (ABC-01-08, XYZ123) in `bookedA`, the
operator giving the length as 6, leaves the state `twoLengths`: the sailing at 89/200 and two
vehicle records for XYZ123, of length 5 and of length 6.  A booking of (ABC-01-08, XYZ123)
then charges the length 6 of the last record (83/200), and the cancellation that follows
credits the length 5 of the first record (88/200): low + high is 288, not the 289 from before
the booking. -/
theorem book_then_cancel_loses_length :
    checkIn "ABC-01-08" "XYZ123" consoleSix 8 3 junkReservation bookedA
      = (.ok 14, twoLengths) ∧
    twoLengths.sailings.recs = [⟨"ABC-01-08", "Spirit", 89, 200⟩] ∧
    (createReservation "ABC-01-08" "XYZ123" consoleA junk twoLengths).1 = .ok () ∧
    (createReservation "ABC-01-08" "XYZ123" consoleA junk twoLengths).2.sailings.recs
      = [⟨"ABC-01-08", "Spirit", 83, 200⟩] ∧
    (deleteReservation "ABC-01-08" "XYZ123"
      (createReservation "ABC-01-08" "XYZ123" consoleA junk twoLengths).2).1 = .ok () ∧
    (deleteReservation "ABC-01-08" "XYZ123"
      (createReservation "ABC-01-08" "XYZ123" consoleA junk twoLengths).2).2.sailings.recs
      = [⟨"ABC-01-08", "Spirit", 88, 200⟩] ∧
    (88 + 200 : ℚ) ≠ 89 + 200 := by
  rw [createReservation_twoLengths]
  refine ⟨checkIn_bookedA_six, rfl, rfl, rfl, ?_, ?_, by norm_num⟩ <;>
    norm_num [deleteReservation, deleteReservation.release, deleteReservation.credit, scanFor,
      deleteSailing, sailingReset, vehicleReset, writeSailing, RecFile.reset, RecFile.put,
      RecFile.overwriteWithLast, RecFile.truncateReopen, junk]

theorem createReservation_tallOnFile :
    createReservation "ABC-01-08" "XYZ123" consoleA junk tallOnFile = (.ok (), tallTwice) := by
  have h1 : ¬ ("TALL001" = "XYZ123") := by decide
  norm_num [createReservation, tallOnFile, tallTwice, consoleA, junk, vehicleReset,
    RecFile.reset, createReservation.vehicleLoop, createReservation.newVehicle, writeVehicle,
    RecFile.put, createReservation.updateSailing, sailingReset, createReservation.sailingLoop,
    createReservation.charge, rewriteSailings_mk, createReservation.finish, writeReservation,
    createReservationRepeat, h1]

/-- **C14 (code at the failing input).** The booking of the new licence XYZ123 in `tallOnFile`
leaves the state `tallTwice`, whose vehicle store holds TALL001 twice.  The pair
(ABC-01-08, TALL001) has no reservation there; its booking succeeds and appends two reservation
records for the pair, one for each vehicle record the loop at lines 175-200 meets. -/
theorem createReservation_appends_two :
    createReservation "ABC-01-08" "XYZ123" consoleA junk tallOnFile = (.ok (), tallTwice) ∧
    (∀ r ∈ tallTwice.reservations.recs, r.key ≠ ("ABC-01-08", "TALL001")) ∧
    (createReservation "ABC-01-08" "TALL001" consoleA junk tallTwice).1 = .ok () ∧
    (createReservation "ABC-01-08" "TALL001" consoleA junk tallTwice).2.reservations.recs
      = tallTwice.reservations.recs ++
        [⟨"ABC-01-08", "TALL001", false, true⟩, ⟨"ABC-01-08", "TALL001", false, true⟩] := by
  have h1 : ¬ ("XYZ123" = "TALL001") := by decide
  refine ⟨createReservation_tallOnFile, ?_, ?_, ?_⟩
  · simp [tallTwice, Reservation.key, h1]
  · norm_num [createReservation, tallTwice, consoleA, junk, vehicleReset,
      RecFile.reset, createReservation.vehicleLoop, createReservation.newVehicle, writeVehicle,
      RecFile.put, createReservation.updateSailing, sailingReset,
      createReservation.sailingLoop, createReservation.charge, rewriteSailings_mk,
      createReservation.finish, writeReservation, createReservationRepeat, h1]
  · norm_num [createReservation, tallTwice, consoleA, junk, vehicleReset,
      RecFile.reset, createReservation.vehicleLoop, createReservation.newVehicle, writeVehicle,
      RecFile.put, createReservation.updateSailing, sailingReset,
      createReservation.sailingLoop, createReservation.charge, rewriteSailings_mk,
      createReservation.finish, writeReservation, createReservationRepeat, h1]

end Ferry
